import Mathlib

/-!
# SACI flash programming for the TI CC23xx / CC27xx (LPF3) family

A shallow embedding of `src/flash/nor/cc_lpf3_flash.c`, `cc_lpf3_base.c`, `cc23xx.c` and
`cc27xx.c`, followed by theorems about the checksum, the flash-operation state machines, the
flash program engine and the pipelined sector write.

Conventions of the embedding.

* C unsigned integers are natural numbers; where 32-bit, 16-bit or 8-bit wraparound can happen
  the reduction `% 2 ^ w` is written out.  C `int` return codes are integers.
* File-scope `static` variables become fields of explicit state records that every function
  takes and returns.
* The debug port is an external capability.  One run of the driver sees a fixed sequence of
  read results per register and a fixed sequence of write results; `Device` holds these
  sequences, and the driver state records the operations performed in a log.
* Loops whose bound is not fixed by the source take a `fuel` argument and report
  `Fault.out_of_fuel` when it is used up.
* Memory allocation is assumed to succeed.
-/

namespace Lpf3

/-! ## Checksum engine (`cc_lpf3_flash.c`, lines 27-50) -/

/-- A byte of a host buffer (`uint8_t`). -/
abbrev Byte := Fin 256

/-- The table `crc_rand32_lut` of `cc_lpf3_calculate_crc`. -/
def crc_rand32_lut : List Nat :=
  [0x00000000, 0x1DB71064, 0x3B6E20C8, 0x26D930AC,
   0x76DC4190, 0x6B6B51F4, 0x4DB26158, 0x5005713C,
   0xEDB88320, 0xF00F9344, 0xD6D6A3E8, 0xCB61B38C,
   0x9B64C2B0, 0x86D3D2D4, 0xA00AE278, 0xBDBDF21C]

/-- Body of the `while (length--)` loop of `cc_lpf3_calculate_crc` for one byte `data`:
two table look-ups, low nibble first. -/
def crc_byte (acc : Nat) (data : Nat) : Nat :=
  let index := (acc &&& 0x0F) ^^^ (data &&& 0x0F)
  let acc := (acc >>> 4) ^^^ crc_rand32_lut.getD index 0
  let index := (acc &&& 0x0F) ^^^ (data >>> 4)
  (acc >>> 4) ^^^ crc_rand32_lut.getD index 0

/-- The `while (length--)` loop of `cc_lpf3_calculate_crc`: it consumes `length` bytes starting
at `data_ptr`.  The list holds the bytes of the buffer `data_ptr` points into; the loop has no
other bound than `length`, and a byte it reads past the end of the buffer is storage the driver
never wrote, which reads as `beyond`. -/
def crc_loop (beyond : Byte) (acc : Nat) : List Byte → Nat → Nat
  | _, 0 => acc
  | [], length + 1 => crc_loop beyond (crc_byte acc beyond.val) [] length
  | d :: rest, length + 1 => crc_loop beyond (crc_byte acc d.val) rest length

/-- The function `cc_lpf3_calculate_crc(data_ptr, length)`; `none` is the null pointer, and
`beyond` is what the storage after the buffer holds. -/
def cc_lpf3_calculate_crc (beyond : Byte) (data_ptr : Option (List Byte)) (length : Nat) :
    Nat :=
  let acc := 0xFFFFFFFF
  let acc := match data_ptr with
    | some data => crc_loop beyond acc data length
    | none => acc
  acc ^^^ 0xFFFFFFFF

/-! ### The checksum as the specification words it -/

/-- One bit of the reflected CRC-32/IEEE division (polynomial `0xEDB88320`). -/
def crc32_bit (c : Nat) : Nat :=
  if c &&& 1 = 1 then 0xEDB88320 ^^^ (c >>> 1) else c >>> 1

/-- Entry `n` of the standard 256-entry CRC-32/IEEE table. -/
def crc32_ieee_table (n : Nat) : Nat := crc32_bit^[8] n

/-- The 16-entry table of the specification: every 16th entry of the standard table. -/
def spec_nibble_table (i : Nat) : Nat := crc32_ieee_table (16 * i)

/-- One nibble reduction of the specification:
`acc = (acc >> 4) XOR table[(acc XOR nibble) & 0xF]`. -/
def spec_nibble_step (acc nibble : Nat) : Nat :=
  (acc >>> 4) ^^^ spec_nibble_table ((acc ^^^ nibble) &&& 0xF)

/-- The checksum of the specification: seed all-ones, per byte the low nibble then the high
nibble, final inversion. -/
def spec_checksum (b : List Byte) : Nat :=
  (b.foldl (fun acc x => spec_nibble_step (spec_nibble_step acc (x.val % 16)) (x.val / 16))
    0xFFFFFFFF) ^^^ 0xFFFFFFFF

/-! ## Flash-operation state machines (`cc_lpf3_base.h`, `cc23xx.c`, `cc27xx.c`) -/

/-- The enumeration `CC_LPF3_FLASH_STAGE_T` of `cc_lpf3_base.h`. -/
inductive CC_LPF3_FLASH_STAGE_T where
  | CC_LPF3_FLASH_STAGE_INIT
  | CC_LPF3_FLASH_STAGE_ERASE
  | CC_LPF3_FLASH_STAGE_MAIN
  | CC_LPF3_FLASH_STAGE_CCFG
  | CC_LPF3_FLASH_STAGE_SCFG
  | CC_LPF3_FLASH_STAGE_COMPLETE
  deriving DecidableEq, Repr

/-- The enumeration `CC_LPF3_FLASH_OP_T` of `cc_lpf3_base.h`. -/
inductive CC_LPF3_FLASH_OP_T where
  | CC_LPF3_FLASH_OP_NONE
  | CC_LPF3_FLASH_OP_CHIP_ERASE
  | CC_LPF3_FLASH_OP_PROG_MAIN
  | CC_LPF3_FLASH_OP_PROG_CCFG
  | CC_LPF3_FLASH_OP_PROG_SCFG
  | CC_LPF3_FLASH_OP_REVERT_STAGE
  deriving DecidableEq, Repr

open CC_LPF3_FLASH_STAGE_T CC_LPF3_FLASH_OP_T

/-- The file-scope variables of the two chip drivers: `flash_stage` of `cc23xx.c`, and
`flash_stage`, `b_ccfg`, `b_scfg`, `b_main` of `cc27xx.c`. -/
structure Statics where
  cc23xx_flash_stage : CC_LPF3_FLASH_STAGE_T
  cc27xx_flash_stage : CC_LPF3_FLASH_STAGE_T
  b_ccfg : Bool
  b_scfg : Bool
  b_main : Bool
  deriving DecidableEq, Repr

/-- The values the file-scope variables are initialised with. -/
def Statics.initial : Statics :=
  { cc23xx_flash_stage := CC_LPF3_FLASH_STAGE_INIT
    cc27xx_flash_stage := CC_LPF3_FLASH_STAGE_INIT
    b_ccfg := false, b_scfg := false, b_main := false }

/-- The `switch (flash_stage)` statement of `cc23xx_check_allowed_flash_op` (lines 73-118):
the value of `op_allowed` and of `flash_stage` after it. -/
def cc23xx_stage_switch (flash_stage : CC_LPF3_FLASH_STAGE_T) (cc_op : CC_LPF3_FLASH_OP_T) :
    Bool × CC_LPF3_FLASH_STAGE_T :=
  match flash_stage with
  | CC_LPF3_FLASH_STAGE_INIT =>
    if cc_op = CC_LPF3_FLASH_OP_CHIP_ERASE then (true, CC_LPF3_FLASH_STAGE_ERASE)
    else (false, flash_stage)
  | CC_LPF3_FLASH_STAGE_ERASE =>
    if cc_op = CC_LPF3_FLASH_OP_REVERT_STAGE then (true, CC_LPF3_FLASH_STAGE_INIT)
    else if cc_op = CC_LPF3_FLASH_OP_PROG_CCFG then (true, CC_LPF3_FLASH_STAGE_CCFG)
    else if cc_op = CC_LPF3_FLASH_OP_PROG_MAIN then (true, CC_LPF3_FLASH_STAGE_MAIN)
    else (false, flash_stage)
  | CC_LPF3_FLASH_STAGE_CCFG =>
    if cc_op = CC_LPF3_FLASH_OP_REVERT_STAGE then (true, CC_LPF3_FLASH_STAGE_ERASE)
    else if cc_op = CC_LPF3_FLASH_OP_PROG_MAIN then (true, CC_LPF3_FLASH_STAGE_COMPLETE)
    else (false, flash_stage)
  | CC_LPF3_FLASH_STAGE_MAIN =>
    if cc_op = CC_LPF3_FLASH_OP_REVERT_STAGE then (true, CC_LPF3_FLASH_STAGE_ERASE)
    else if cc_op = CC_LPF3_FLASH_OP_PROG_CCFG then (true, CC_LPF3_FLASH_STAGE_COMPLETE)
    else (false, flash_stage)
  | _ => (false, flash_stage)

/-- The function `cc23xx_check_allowed_flash_op(op)`: the returned `op_allowed` and the
file-scope variables on return. -/
def cc23xx_check_allowed_flash_op (op : CC_LPF3_FLASH_OP_T) (s : Statics) : Bool × Statics :=
  let (op_allowed, flash_stage) := cc23xx_stage_switch s.cc23xx_flash_stage op
  let flash_stage :=
    if flash_stage = CC_LPF3_FLASH_STAGE_COMPLETE then CC_LPF3_FLASH_STAGE_INIT else flash_stage
  (op_allowed, { s with cc23xx_flash_stage := flash_stage })

/-- The `switch (flash_stage)` statement of `cc27xx_check_allowed_flash_op` (lines 68-150):
the value of `op_allowed` and of `flash_stage` after it. -/
def cc27xx_stage_switch (flash_stage : CC_LPF3_FLASH_STAGE_T) (b_ccfg b_scfg b_main : Bool)
    (cc_op : CC_LPF3_FLASH_OP_T) : Bool × CC_LPF3_FLASH_STAGE_T :=
  match flash_stage with
  | CC_LPF3_FLASH_STAGE_INIT =>
    if cc_op = CC_LPF3_FLASH_OP_CHIP_ERASE then (true, CC_LPF3_FLASH_STAGE_ERASE)
    else (false, flash_stage)
  | CC_LPF3_FLASH_STAGE_ERASE =>
    if cc_op = CC_LPF3_FLASH_OP_REVERT_STAGE then (true, CC_LPF3_FLASH_STAGE_INIT)
    else if cc_op = CC_LPF3_FLASH_OP_PROG_CCFG then (true, CC_LPF3_FLASH_STAGE_CCFG)
    else if cc_op = CC_LPF3_FLASH_OP_PROG_SCFG then (true, CC_LPF3_FLASH_STAGE_SCFG)
    else if cc_op = CC_LPF3_FLASH_OP_PROG_MAIN then (true, CC_LPF3_FLASH_STAGE_MAIN)
    else (false, flash_stage)
  | CC_LPF3_FLASH_STAGE_CCFG =>
    if cc_op = CC_LPF3_FLASH_OP_REVERT_STAGE then (true, CC_LPF3_FLASH_STAGE_ERASE)
    else if cc_op = CC_LPF3_FLASH_OP_PROG_MAIN ∧ b_scfg then (true, CC_LPF3_FLASH_STAGE_COMPLETE)
    else if cc_op = CC_LPF3_FLASH_OP_PROG_MAIN ∧ ¬ b_scfg then (true, CC_LPF3_FLASH_STAGE_MAIN)
    else if cc_op = CC_LPF3_FLASH_OP_PROG_SCFG ∧ b_main then (true, CC_LPF3_FLASH_STAGE_COMPLETE)
    else if cc_op = CC_LPF3_FLASH_OP_PROG_SCFG ∧ ¬ b_main then (true, CC_LPF3_FLASH_STAGE_SCFG)
    else (false, flash_stage)
  | CC_LPF3_FLASH_STAGE_SCFG =>
    if cc_op = CC_LPF3_FLASH_OP_REVERT_STAGE then (true, CC_LPF3_FLASH_STAGE_ERASE)
    else if cc_op = CC_LPF3_FLASH_OP_PROG_MAIN ∧ b_ccfg then (true, CC_LPF3_FLASH_STAGE_COMPLETE)
    else if cc_op = CC_LPF3_FLASH_OP_PROG_MAIN ∧ ¬ b_ccfg then (true, CC_LPF3_FLASH_STAGE_MAIN)
    else if cc_op = CC_LPF3_FLASH_OP_PROG_CCFG ∧ b_main then (true, CC_LPF3_FLASH_STAGE_COMPLETE)
    else if cc_op = CC_LPF3_FLASH_OP_PROG_CCFG ∧ ¬ b_main then (true, CC_LPF3_FLASH_STAGE_CCFG)
    else (false, flash_stage)
  | CC_LPF3_FLASH_STAGE_MAIN =>
    if cc_op = CC_LPF3_FLASH_OP_REVERT_STAGE then (true, CC_LPF3_FLASH_STAGE_ERASE)
    else if cc_op = CC_LPF3_FLASH_OP_PROG_CCFG ∧ b_scfg then (true, CC_LPF3_FLASH_STAGE_COMPLETE)
    else if cc_op = CC_LPF3_FLASH_OP_PROG_CCFG ∧ ¬ b_scfg then (true, CC_LPF3_FLASH_STAGE_CCFG)
    else if cc_op = CC_LPF3_FLASH_OP_PROG_SCFG ∧ b_ccfg then (true, CC_LPF3_FLASH_STAGE_COMPLETE)
    else if cc_op = CC_LPF3_FLASH_OP_PROG_SCFG ∧ ¬ b_ccfg then (true, CC_LPF3_FLASH_STAGE_SCFG)
    else (false, flash_stage)
  | _ => (false, flash_stage)

/-- The function `cc27xx_check_allowed_flash_op(op)`: the returned `op_allowed` and the
file-scope variables on return. -/
def cc27xx_check_allowed_flash_op (op : CC_LPF3_FLASH_OP_T) (s : Statics) : Bool × Statics :=
  let (op_allowed, flash_stage) :=
    cc27xx_stage_switch s.cc27xx_flash_stage s.b_ccfg s.b_scfg s.b_main op
  let flash_stage :=
    if flash_stage = CC_LPF3_FLASH_STAGE_COMPLETE then CC_LPF3_FLASH_STAGE_INIT else flash_stage
  (op_allowed, { s with cc27xx_flash_stage := flash_stage })

/-! ## Constants (`cc_lpf3_flash.h`) and return codes -/

/-- Modelled from the spec: the OpenOCD core return code `ERROR_OK` is declared outside the
sources at hand; it is the value `0` that the drivers compare against. -/
abbrev ERROR_OK : Int := 0
/-- Modelled from the spec: the OpenOCD core return code `ERROR_FAIL` (generic failure) is
declared outside the sources at hand; OpenOCD defines it as `-4`. -/
abbrev ERROR_FAIL : Int := -4
/-- Modelled from the spec: the OpenOCD core return code `ERROR_TARGET_INIT_FAILED` is declared
outside the sources at hand; OpenOCD defines it as `-301`. -/
abbrev ERROR_TARGET_INIT_FAILED : Int := -301
/-- Modelled from the spec: the OpenOCD core return code `ERROR_FLASH_DST_BREAKS_ALIGNMENT`
(the alignment violation) is declared outside the sources at hand; OpenOCD defines it as
`-904`. -/
abbrev ERROR_FLASH_DST_BREAKS_ALIGNMENT : Int := -904
/-- Modelled from the spec: the OpenOCD core return code `ERROR_FLASH_BANK_NOT_PROBED` (device
never identified) is declared outside the sources at hand; OpenOCD defines it as `-907`. -/
abbrev ERROR_FLASH_BANK_NOT_PROBED : Int := -907

abbrev SACI_ERROR_TXD_FULL_TO : Int := -1
abbrev SACI_EXIT_HALT_TO : Int := -2

abbrev DEBUGSS_CFG_AP : Nat := 0x01
abbrev DEBUGSS_SEC_AP : Nat := 0x02
abbrev CFG_AP_DEVICE_ID_READ : Nat := 0x00
abbrev CFG_AP_PART_ID_READ : Nat := 0x04
abbrev CFG_AP_DEVICE_STATUS : Nat := 0x0C
abbrev SEC_AP_TXD : Nat := 0x00
abbrev SEC_AP_TXCTL : Nat := 0x04
abbrev SEC_AP_RXD : Nat := 0x08
abbrev SEC_AP_RXCTL : Nat := 0x0C
abbrev SACI_TXCTL_TXD_FULL : Nat := 1
abbrev SACI_TXCTRL_CMD_START : Nat := 2
abbrev SACI_RXCTL_RXD_FULL : Nat := 1
abbrev SACI_TXD_FULL_CHECK_TIMEOUT : Nat := 1000
abbrev SACI_RXD_READY_CHECK_TIMEOUT : Nat := 3000
abbrev BOOTSTA_BOOT_ENTERED_SACI : Nat := 0x20
abbrev BOOTSTA_BLDR_WAITLOOP_DBGPROBE : Nat := 0x81
abbrev BOOTSTA_APP_WAITLOOP_DBGPROBE : Nat := 0xC1
abbrev FLASH_KEY : Nat := 0xB7E3A08F
abbrev LPF3_MAIN_FLASH_SECTOR_SIZE : Nat := 0x800
abbrev LPF3_SCFG_FLASH_SECTOR_SIZE : Nat := 0x400
abbrev LPF3_FLASH_BASE_CCFG : Nat := 0x4E020000
abbrev LPF3_FLASH_BASE_SCFG : Nat := 0x4E040000
abbrev LPF3_FLASH_BASE_MAIN : Nat := 0x0
abbrev MAIN_SECTOR_SIZE_WORDS : Nat := 512
abbrev MAX_CCFG_SIZE : Nat := MAIN_SECTOR_SIZE_WORDS
abbrev MAX_CCFG_SIZE_IN_BYTES : Nat := MAX_CCFG_SIZE * 4
abbrev BOOT_CCFG_START_IDX : Nat := 0x0
abbrev CENTRAL_CCFG_START_IDX : Nat := 0x10
abbrev DEBUG_CCFG_START_IDX : Nat := 0x7D0
abbrev BOOT_CCFG_CRC_LEN : Nat := 0x0C
abbrev CENTRAL_CCFG_CRC_LEN : Nat := 0x73C
abbrev DEBUG_CCFG_CRC_LEN : Nat := 0x2C
abbrev SCFG_BYTE_COUNT : Nat := 0xE4
abbrev SCR_SUCCESS : Nat := 0x00
abbrev SCR_FLASH_FSM_ERROR : Nat := 0x84
abbrev SCR_NOT_ALLOWED : Nat := 0x86
abbrev SCR_CRC32_MISMATCH : Nat := 0x87

/-! The command identifiers `SACI_CMD_ID_T`. -/
abbrev SACI_MISC_NO_OPERATION : Nat := 0x01
abbrev SACI_MISC_GET_TEST_ID : Nat := 0x02
abbrev SACI_MISC_GET_DIE_ID : Nat := 0x03
abbrev SACI_MISC_GET_CCFG_USER_REC : Nat := 0x04
abbrev SACI_DEBUG_REQ_PWD_ID : Nat := 0x05
abbrev SACI_DEBUG_SUBMIT_AUTH : Nat := 0x06
abbrev SACI_DEBUG_EXIT_SACI_HALT : Nat := 0x07
abbrev SACI_DEBUG_EXIT_SACI_SHUTDOWN : Nat := 0x08
abbrev SACI_FLASH_ERASE_CHIP : Nat := 0x09
abbrev SACI_FLASH_PROG_CCFG_SECTOR : Nat := 0x0C
abbrev SACI_FLASH_PROG_CCFG_USER_REC : Nat := 0x0D
abbrev SACI_FLASH_PROG_MAIN_SECTOR : Nat := 0x0E
abbrev SACI_FLASH_PROG_MAIN_PIPELINED : Nat := 0x0F
abbrev SACI_FLASH_VERIFY_MAIN_SECTORS : Nat := 0x10
abbrev SACI_FLASH_VERIFY_CCFG_SECTOR : Nat := 0x11
abbrev SACI_LIFECYCLE_INCR_STATE : Nat := 0x12
abbrev SACI_LIFECYCLE_REQ_FIRST_BDAY : Nat := 0x13
abbrev SACI_BLDR_APP_RESET_DEVICE : Nat := 0x14
abbrev SACI_BLDR_APP_EXIT_SACI_RUN : Nat := 0x15
abbrev SACI_MODE_REQ_FLASHLESS_TEST : Nat := 0x16
abbrev SACI_MODE_REQ_TOOLS_CLIENT : Nat := 0x17
abbrev SACI_FLASH_VERIFY_FCFG_SECTOR : Nat := 0x18
abbrev SACI_FLASH_PROG_SCFG_SECTOR : Nat := 0x1A
abbrev SACI_FLASH_VERIFY_SCFG_SECTOR : Nat := 0x1B

/-! ## The register port -/

/-- An operation the driver performs on the debug port, or a sleep between two polls. -/
inductive PortEvent where
  | ap_read (ap_num reg : Nat)
  | ap_write (ap_num reg value : Nat)
  | ap_bulk_write (ap_num reg : Nat) (data : List Nat)
  | alive_sleep (ms : Nat)
  deriving DecidableEq, Repr

/-- Whether an event is a write transaction (single or bulk). -/
def PortEvent.is_write : PortEvent → Bool
  | .ap_write _ _ _ => true
  | .ap_bulk_write _ _ _ => true
  | _ => false

/-- What the external side does during one run of the driver.
`read ap reg k` is the return code and the value of the `k`-th read (from 0) of register `reg`
of access port `ap`; `write k` is the return code of the `k`-th write transaction (from 0);
`uninit` is the content of storage the driver reads without having written it (uninitialised
locals and heap). -/
structure Device where
  read : Nat → Nat → Nat → Int × Nat
  write : Nat → Int
  uninit : Nat

/-- The state of the transport: the counter `seq_num` of `cc_lpf3_get_resp_seqnum` and the log
of the port operations performed so far, oldest first. -/
structure Host where
  seq_num : Nat
  log : List PortEvent
  deriving DecidableEq, Repr

/-- Why a run has no return value. -/
inductive Fault where
  | out_of_fuel
  | undefined_behaviour
  deriving DecidableEq, Repr

/-- The result of a function that may fail to return: the value it returns, or the fault. -/
inductive Exec (α : Type) where
  | ok (a : α)
  | error (f : Fault)
  deriving DecidableEq, Repr

/-- The function `cc_lpf3_get_resp_seqnum`: returns `seq_num` and increments it (8 bits). -/
def cc_lpf3_get_resp_seqnum (h : Host) : Nat × Host :=
  (h.seq_num, { h with seq_num := (h.seq_num + 1) % 256 })

/-- The function `cc_lpf3_write_to_AP`: one write transaction; the return code is the
device's. -/
def cc_lpf3_write_to_AP (dev : Device) (ap_num reg value : Nat) (h : Host) : Int × Host :=
  let ret_val := dev.write (h.log.countP PortEvent.is_write)
  (ret_val, { h with log := h.log ++ [PortEvent.ap_write ap_num reg value] })

/-- The function `cc_lpf3_read_from_AP`: one read; `data` is the previous content of `*data`,
which is kept when the read fails. -/
def cc_lpf3_read_from_AP (dev : Device) (ap_num reg : Nat) (data : Nat) (h : Host) :
    Int × Nat × Host :=
  let r := dev.read ap_num reg (h.log.count (PortEvent.ap_read ap_num reg))
  let h := { h with log := h.log ++ [PortEvent.ap_read ap_num reg] }
  if r.1 ≠ ERROR_OK then (r.1, data, h) else (ERROR_OK, r.2 % 2 ^ 32, h)

/-- The `count` words found at a word pointer whose target holds `data`; words past the end of
`data` are storage the driver never wrote. -/
def words_at (dev : Device) (data : List Nat) (count : Nat) : List Nat :=
  (List.range count).map (fun i => data.getD i dev.uninit)

/-- The function `cc_lpf3_bulk_write_to_AP`: up to `LPF3_MAIN_FLASH_SECTOR_SIZE` queued writes
run as one transaction. -/
def cc_lpf3_bulk_write_to_AP (dev : Device) (ap_num reg : Nat) (data : List Nat) (count : Nat)
    (h : Host) : Int × Host :=
  if count > LPF3_MAIN_FLASH_SECTOR_SIZE then (ERROR_FAIL, h)
  else
    let ret_val := dev.write (h.log.countP PortEvent.is_write)
    (ret_val, { h with log := h.log ++ [PortEvent.ap_bulk_write ap_num reg (words_at dev data count)] })

/-- The `while` loop of `cc_lpf3_wait_rx_data_ready`; `polls` is `total_sleep / check_interval`,
the number of intervals left. -/
def rx_ready_loop (dev : Device) (check_interval : Nat) : Nat → Nat → Host → Nat × Host
  | 0, value, h => (value, h)
  | polls + 1, value, h =>
    if value &&& SACI_RXCTL_RXD_FULL ≠ SACI_RXCTL_RXD_FULL then
      let h := { h with log := h.log ++ [PortEvent.alive_sleep check_interval] }
      let (_, value, h) := cc_lpf3_read_from_AP dev DEBUGSS_SEC_AP SEC_AP_RXCTL value h
      rx_ready_loop dev check_interval polls value h
    else (value, h)

/-- The function `cc_lpf3_wait_rx_data_ready`. -/
def cc_lpf3_wait_rx_data_ready (dev : Device) (h : Host) : Int × Host :=
  let total_sleep := SACI_RXD_READY_CHECK_TIMEOUT
  let check_interval := total_sleep / 10
  let (_, value, h) := cc_lpf3_read_from_AP dev DEBUGSS_SEC_AP SEC_AP_RXCTL dev.uninit h
  let (value, h) := rx_ready_loop dev check_interval (total_sleep / check_interval) value h
  if value &&& SACI_RXCTL_RXD_FULL ≠ SACI_RXCTL_RXD_FULL then (SACI_ERROR_TXD_FULL_TO, h)
  else (ERROR_OK, h)

/-- The `while` loop of `cc_lpf3_wait_tx_data_clear`; `polls` is `total_sleep / check_interval`,
the number of intervals left. -/
def tx_clear_loop (dev : Device) (check_interval : Nat) : Nat → Nat → Host → Nat × Host
  | 0, value, h => (value, h)
  | polls + 1, value, h =>
    if value &&& SACI_TXCTL_TXD_FULL = SACI_TXCTL_TXD_FULL then
      let h := { h with log := h.log ++ [PortEvent.alive_sleep check_interval] }
      let (_, value, h) := cc_lpf3_read_from_AP dev DEBUGSS_SEC_AP SEC_AP_TXCTL value h
      tx_clear_loop dev check_interval polls value h
    else (value, h)

/-- The function `cc_lpf3_wait_tx_data_clear`. -/
def cc_lpf3_wait_tx_data_clear (dev : Device) (h : Host) : Int × Host :=
  let total_sleep := SACI_TXD_FULL_CHECK_TIMEOUT
  let check_interval := total_sleep / 10
  let (_, value, h) := cc_lpf3_read_from_AP dev DEBUGSS_SEC_AP SEC_AP_TXCTL dev.uninit h
  let (value, h) := tx_clear_loop dev check_interval (total_sleep / check_interval) value h
  if value &&& SACI_TXCTL_TXD_FULL = SACI_TXCTL_TXD_FULL then (SACI_ERROR_TXD_FULL_TO, h)
  else (ERROR_OK, h)

/-! ## SACI responses and commands (`cc_lpf3_flash.h`, `cc_lpf3_flash.c`)

The packed structures are laid out little-endian, bit-fields from the least significant bit, as
the compilers OpenOCD is built with do. -/

/-- The response header `SACI_RESP_T`; `status_flag` is the first word of the payload union,
the only one the driver writes. -/
structure SACI_RESP_T where
  cmd_id : Nat
  resp_seq_num : Nat
  result : Nat
  data_word_count : Nat
  status_flag : Nat
  deriving DecidableEq, Repr

/-- The response structure a header word is copied into: the first four bytes are the word,
the payload union behind it is zero. -/
def SACI_RESP_T.of_word (w : Nat) : SACI_RESP_T :=
  { cmd_id := w &&& 0xFF
    resp_seq_num := (w >>> 8) &&& 0xFF
    result := (w >>> 16) &&& 0xFF
    data_word_count := (w >>> 24) &&& 0xFF
    status_flag := 0 }

/-- A response structure that was declared and never written. -/
def SACI_RESP_T.uninit (dev : Device) : SACI_RESP_T :=
  { SACI_RESP_T.of_word dev.uninit with status_flag := dev.uninit % 2 ^ 32 }

/-- The payload loop of `cc_lpf3_saci_read_response` (lines 434-440); `n` counts the words
still to read. -/
def read_payload_loop (dev : Device) : Nat → SACI_RESP_T → Host → Int × SACI_RESP_T × Host
  | 0, cmd_resp, h => (ERROR_OK, cmd_resp, h)
  | n + 1, cmd_resp, h =>
    let (ret_val, h) := cc_lpf3_wait_rx_data_ready dev h
    if ret_val ≠ ERROR_OK then (ERROR_FAIL, cmd_resp, h)
    else
      let (_, status_flag, h) :=
        cc_lpf3_read_from_AP dev DEBUGSS_SEC_AP SEC_AP_RXD cmd_resp.status_flag h
      read_payload_loop dev n { cmd_resp with status_flag := status_flag } h

/-- The function `cc_lpf3_saci_read_response`; `cmd_resp` is the previous content of
`*cmd_resp`, which is kept when no header word was read. -/
def cc_lpf3_saci_read_response (dev : Device) (cmd_resp : SACI_RESP_T) (h : Host) :
    Int × SACI_RESP_T × Host :=
  let (ret_val, h) := cc_lpf3_wait_rx_data_ready dev h
  if ret_val ≠ ERROR_OK then (ERROR_FAIL, cmd_resp, h)
  else
    let (ret_val, resp, h) := cc_lpf3_read_from_AP dev DEBUGSS_SEC_AP SEC_AP_RXD 0 h
    if ret_val ≠ ERROR_OK then (ERROR_FAIL, cmd_resp, h)
    else
      let cmd_resp := SACI_RESP_T.of_word resp
      if cmd_resp.data_word_count &&& 0xFF ≠ 0 then
        read_payload_loop dev (cmd_resp.data_word_count &&& 0xFF) cmd_resp h
      else (ERROR_OK, cmd_resp, h)

/-- The union `SACI_PARAM_T` as its 32-bit words (`sizeof (SACI_PARAM_T)` is 136 bytes, 34
words); word 0 is the common header. -/
structure SACI_PARAM_T where
  words : List Nat
  deriving DecidableEq, Repr

/-- The header word of a command: `cmd_id` in bits 7:0, `resp_seq_num` in bits 15:8 and the
16-bit command specific field in bits 31:16. -/
def saci_header (cmd_id resp_seq_num cmd_specific : Nat) : Nat :=
  cmd_id % 256 + (resp_seq_num % 256) * 2 ^ 8 + (cmd_specific % 65536) * 2 ^ 16

/-- A zeroed `SACI_PARAM_T` whose first words are then set to `ws`. -/
def SACI_PARAM_T.of_words (ws : List Nat) : SACI_PARAM_T :=
  { words := (List.range 34).map (fun i => ws.getD i 0) }

/-- The field `common.val`. -/
def SACI_PARAM_T.val (cmd : SACI_PARAM_T) : Nat := cmd.words.getD 0 0
/-- The field `common.cmd.cmd_id`. -/
def SACI_PARAM_T.cmd_id (cmd : SACI_PARAM_T) : Nat := cmd.val &&& 0xFF
/-- The field `common.cmd.resp_seq_num`. -/
def SACI_PARAM_T.resp_seq_num (cmd : SACI_PARAM_T) : Nat := (cmd.val >>> 8) &&& 0xFF

/-- The function `cc_lpf3_get_cmd_word_length`, with `SIZE_IN_WORDS` of each parameter
structure evaluated. -/
def cc_lpf3_get_cmd_word_length (cmd : SACI_PARAM_T) : Int :=
  let id := cmd.cmd_id
  if id = SACI_MISC_NO_OPERATION then 1
  else if id = SACI_MISC_GET_TEST_ID then 1
  else if id = SACI_MISC_GET_DIE_ID then 1
  else if id = SACI_MISC_GET_CCFG_USER_REC then 1
  else if id = SACI_DEBUG_REQ_PWD_ID then 1
  else if id = SACI_DEBUG_SUBMIT_AUTH then 17
  else if id = SACI_DEBUG_EXIT_SACI_HALT then 1
  else if id = SACI_DEBUG_EXIT_SACI_SHUTDOWN then 1
  else if id = SACI_FLASH_ERASE_CHIP then 2
  else if id = SACI_FLASH_PROG_CCFG_SECTOR then 2
  else if id = SACI_FLASH_PROG_SCFG_SECTOR then 2
  else if id = SACI_FLASH_PROG_CCFG_USER_REC then 34
  else if id = SACI_FLASH_PROG_MAIN_PIPELINED then 3
  else if id = SACI_FLASH_VERIFY_MAIN_SECTORS then 4
  else if id = SACI_FLASH_VERIFY_CCFG_SECTOR then 5
  else if id = SACI_FLASH_VERIFY_SCFG_SECTOR then 2
  else if id = SACI_LIFECYCLE_INCR_STATE then 5
  else if id = SACI_LIFECYCLE_REQ_FIRST_BDAY then 9
  else if id = SACI_BLDR_APP_RESET_DEVICE then 1
  else if id = SACI_BLDR_APP_EXIT_SACI_RUN then 1
  else if id = SACI_MODE_REQ_TOOLS_CLIENT then 1
  else ERROR_FAIL

/-- The `for (uint8_t cmd_word = 1; cmd_word < cmd_length; cmd_word++)` loop of
`cc_lpf3_saci_send_cmd` (lines 964-972), started at `cmd_word`; words past the 34 of the
parameter copy are storage the driver never wrote. -/
def send_param_loop (dev : Device) (param_words : List Nat) (cmd_length : Nat) :
    Nat → Nat → Host → Exec (Int × Host)
  | 0, cmd_word, h =>
    if cmd_word < cmd_length then Exec.error Fault.out_of_fuel else Exec.ok (ERROR_OK, h)
  | fuel + 1, cmd_word, h =>
    if cmd_word < cmd_length then
      let (ret_val, h) :=
        cc_lpf3_write_to_AP dev DEBUGSS_SEC_AP SEC_AP_TXD (param_words.getD cmd_word dev.uninit) h
      if ret_val ≠ ERROR_OK then Exec.ok (ERROR_FAIL, h)
      else send_param_loop dev param_words cmd_length fuel ((cmd_word + 1) % 256) h
    else Exec.ok (ERROR_OK, h)

/-- The function `cc_lpf3_saci_send_cmd`. -/
def cc_lpf3_saci_send_cmd (fuel : Nat) (dev : Device) (tx_cmd : SACI_PARAM_T) (h : Host) :
    Exec (Int × Host) :=
  let cmd_length := (cc_lpf3_get_cmd_word_length tx_cmd % 65536).toNat
  let (ret_val, h) := cc_lpf3_wait_tx_data_clear dev h
  if ret_val ≠ ERROR_OK then Exec.ok (ERROR_FAIL, h)
  else
    let (_, h) := cc_lpf3_write_to_AP dev DEBUGSS_SEC_AP SEC_AP_TXCTL SACI_TXCTRL_CMD_START h
    let (_, h) := cc_lpf3_write_to_AP dev DEBUGSS_SEC_AP SEC_AP_TXD tx_cmd.val h
    let finish (h : Host) : Exec (Int × Host) :=
      let (ret_val, h) := cc_lpf3_wait_tx_data_clear dev h
      if ret_val ≠ ERROR_OK then Exec.ok (ERROR_FAIL, h) else Exec.ok (ERROR_OK, h)
    if cmd_length > 1 then
      let (ret_val, h) := cc_lpf3_wait_tx_data_clear dev h
      if ret_val ≠ ERROR_OK then Exec.ok (ERROR_FAIL, h)
      else
        let (ret_val, h) := cc_lpf3_write_to_AP dev DEBUGSS_SEC_AP SEC_AP_TXCTL 0 h
        if ret_val ≠ ERROR_OK then Exec.ok (ERROR_FAIL, h)
        else
          match send_param_loop dev tx_cmd.words cmd_length fuel 1 h with
          | Exec.error f => Exec.error f
          | Exec.ok (ret_val, h) =>
            if ret_val ≠ ERROR_OK then Exec.ok (ERROR_FAIL, h) else finish h
    else finish h

/-- The function `cc_lpf3_saci_send_tx_words`. -/
def cc_lpf3_saci_send_tx_words (dev : Device) (tx_data : List Nat) (length : Nat) (h : Host) :
    Int × Host :=
  let (ret_val, h) := cc_lpf3_bulk_write_to_AP dev DEBUGSS_SEC_AP SEC_AP_TXD tx_data length h
  if ret_val ≠ ERROR_OK then (ERROR_FAIL, h) else (ERROR_OK, h)

/-! ## Pipelined sector write (`cc_lpf3_saci_send_sector_tx`, lines 449-538) -/

/-- The locals of `cc_lpf3_saci_send_sector_tx` that its two loops share. -/
structure SectorTx where
  ret_val : Int
  last_resp_seq_num : Nat
  cmd_resp : SACI_RESP_T
  host : Host
  deriving DecidableEq, Repr

/-- The sequence number of a response as the loops compare it (lines 489-491 and 523-525): the
echoed byte, lifted by `(last & 0xFFFFFF00) + 0x100` when it is below the low byte of the last
sequence number seen. -/
def adjust_seq_num (curr_resp_seq_num last_resp_seq_num : Nat) : Nat :=
  if curr_resp_seq_num < (last_resp_seq_num &&& 0xFF) then
    ((last_resp_seq_num &&& 0xFFFFFF00) + 0x100 + curr_resp_seq_num) % 2 ^ 32
  else curr_resp_seq_num

/-- The `for` loop over the sectors (lines 460-502); `n` counts the sectors still to send and
`sector_index` is the loop variable.  A `break` ends the loop with `ret_val` set. -/
def sector_loop (dev : Device) (tx_data : List Nat) (base_resp_seq_number : Nat) :
    Nat → Nat → SectorTx → SectorTx
  | 0, _, s => s
  | n + 1, sector_index, s =>
    let (_, h) := cc_lpf3_saci_send_tx_words dev
      (tx_data.drop (sector_index * MAIN_SECTOR_SIZE_WORDS)) MAIN_SECTOR_SIZE_WORDS s.host
    if s.last_resp_seq_num < (base_resp_seq_number + sector_index + 2 ^ 32 - 1) % 2 ^ 32 then
      let (ret_val, cmd_resp, h) := cc_lpf3_saci_read_response dev s.cmd_resp h
      if ret_val ≠ ERROR_OK then
        { s with ret_val := ERROR_FAIL, cmd_resp := cmd_resp, host := h }
      else if cmd_resp.cmd_id ≠ SACI_FLASH_PROG_MAIN_PIPELINED then
        { s with ret_val := ERROR_FAIL, cmd_resp := cmd_resp, host := h }
      else if cmd_resp.result ≠ SCR_SUCCESS then
        { s with ret_val := ERROR_FAIL, cmd_resp := cmd_resp, host := h }
      else if cmd_resp.data_word_count ≠ 0 then
        { s with ret_val := ERROR_FAIL, cmd_resp := cmd_resp, host := h }
      else
        let curr_resp_seq_num := adjust_seq_num cmd_resp.resp_seq_num s.last_resp_seq_num
        if curr_resp_seq_num ≠ (base_resp_seq_number + sector_index) % 2 ^ 32
            ∧ curr_resp_seq_num ≠ (base_resp_seq_number + sector_index + 2 ^ 32 - 1) % 2 ^ 32 then
          { s with ret_val := ERROR_FAIL, cmd_resp := cmd_resp, host := h }
        else
          sector_loop dev tx_data base_resp_seq_number n (sector_index + 1)
            { ret_val := ret_val, last_resp_seq_num := curr_resp_seq_num,
              cmd_resp := cmd_resp, host := h }
    else
      sector_loop dev tx_data base_resp_seq_number n (sector_index + 1) { s with host := h }

/-- The `while` loop that drains the remaining responses (lines 504-535).  The source puts no
bound on it, so it runs on `fuel`. -/
def drain_loop (dev : Device) (base_resp_seq_number num_sectors : Nat) :
    Nat → SectorTx → Exec SectorTx
  | 0, s =>
    if s.last_resp_seq_num ≠ (base_resp_seq_number + num_sectors + 2 ^ 32 - 1) % 2 ^ 32 then
      Exec.error Fault.out_of_fuel
    else Exec.ok s
  | fuel + 1, s =>
    if s.last_resp_seq_num ≠ (base_resp_seq_number + num_sectors + 2 ^ 32 - 1) % 2 ^ 32 then
      let (_, cmd_resp, h) := cc_lpf3_saci_read_response dev s.cmd_resp s.host
      if cmd_resp.cmd_id ≠ SACI_FLASH_PROG_MAIN_PIPELINED then
        Exec.ok { s with ret_val := ERROR_FAIL, cmd_resp := cmd_resp, host := h }
      else if cmd_resp.result ≠ SCR_SUCCESS then
        Exec.ok { s with ret_val := ERROR_FAIL, cmd_resp := cmd_resp, host := h }
      else if cmd_resp.data_word_count ≠ 0 then
        Exec.ok { s with ret_val := ERROR_FAIL, cmd_resp := cmd_resp, host := h }
      else
        let curr_resp_seq_num := adjust_seq_num cmd_resp.resp_seq_num s.last_resp_seq_num
        if curr_resp_seq_num ≠ (base_resp_seq_number + num_sectors + 2 ^ 32 - 1) % 2 ^ 32
            ∧ curr_resp_seq_num ≠ (base_resp_seq_number + num_sectors + 2 ^ 32 - 2) % 2 ^ 32 then
          Exec.ok { s with ret_val := ERROR_FAIL, cmd_resp := cmd_resp, host := h }
        else
          drain_loop dev base_resp_seq_number num_sectors fuel
            { s with last_resp_seq_num := curr_resp_seq_num, cmd_resp := cmd_resp, host := h }
    else Exec.ok s

/-- The function `cc_lpf3_saci_send_sector_tx(bank, tx_data, length, cmd)`: `tx_data` holds the
words at the pointer, `length` is the byte count and `cmd` the initiating command. -/
def cc_lpf3_saci_send_sector_tx (fuel : Nat) (dev : Device) (tx_data : List Nat) (length : Nat)
    (cmd : SACI_PARAM_T) (h : Host) : Exec (Int × Host) :=
  let num_sectors := ((length + LPF3_MAIN_FLASH_SECTOR_SIZE - 1) % 2 ^ 32) / LPF3_MAIN_FLASH_SECTOR_SIZE
  let base_resp_seq_number := cmd.resp_seq_num
  let last_resp_seq_num := (base_resp_seq_number + 2 ^ 32 - 1) % 2 ^ 32
  let s : SectorTx :=
    { ret_val := ERROR_OK, last_resp_seq_num := last_resp_seq_num,
      cmd_resp := SACI_RESP_T.uninit dev, host := h }
  let s := sector_loop dev tx_data base_resp_seq_number num_sectors 0 s
  match drain_loop dev base_resp_seq_number num_sectors fuel s with
  | Exec.error f => Exec.error f
  | Exec.ok s => Exec.ok (s.ret_val, s.host)

/-! ## Host buffers -/

/-- The `n` bytes found at a byte pointer whose target holds `buffer`; bytes past the end of
`buffer` are storage the driver never wrote. -/
def bytes_at (dev : Device) (buffer : List Byte) (n : Nat) : List Byte :=
  (List.range n).map (fun i => buffer.getD i (Fin.ofNat dev.uninit))

/-- The 32-bit words a byte buffer holds when it is read through a `uint32_t` pointer. -/
def le_words : List Byte → List Nat
  | b0 :: b1 :: b2 :: b3 :: rest =>
    (b0.val + b1.val * 2 ^ 8 + b2.val * 2 ^ 16 + b3.val * 2 ^ 24) :: le_words rest
  | _ => []

/-- The function `cc_lpf3_flash_sector_padding(buffer, count)`: the bytes of the allocated
block up to the new count, and the new count.  The block is `start_count + 0x800` bytes long
(32-bit arithmetic); a null `buffer` has no bytes to copy. -/
def cc_lpf3_flash_sector_padding (dev : Device) (buffer : Option (List Byte)) (count : Nat) :
    Exec (List Byte × Nat) :=
  let start_count := count
  let bytes_to_pad :=
    if start_count % LPF3_MAIN_FLASH_SECTOR_SIZE ≠ 0 then
      LPF3_MAIN_FLASH_SECTOR_SIZE - start_count % LPF3_MAIN_FLASH_SECTOR_SIZE
    else 0
  match buffer with
  | none => if start_count = 0 then Exec.ok ([], 0) else Exec.error Fault.undefined_behaviour
  | some buffer =>
    if (start_count + LPF3_MAIN_FLASH_SECTOR_SIZE) % 2 ^ 32 < start_count + bytes_to_pad then
      Exec.error Fault.undefined_behaviour
    else
      Exec.ok (bytes_at dev buffer start_count ++ List.replicate bytes_to_pad (0xFF : Byte),
        (start_count + bytes_to_pad) % 2 ^ 32)

/-! ## Verify, erase and program commands -/

/-- The function `cc_lpf3_update_cmd_word` applied to a zeroed command: the header word it
leaves in the command, the sequence counter advanced. -/
def cc_lpf3_update_cmd_word (cmd_id cmd_specific : Nat) (h : Host) : Nat × Host :=
  let (resp_seq_num, h) := cc_lpf3_get_resp_seqnum h
  (saci_header cmd_id resp_seq_num cmd_specific, h)

/-- The function `cc_lpf3_saci_verify_ccfg(bank, buffer)`. -/
def cc_lpf3_saci_verify_ccfg (fuel : Nat) (dev : Device) (buffer : Option (List Byte))
    (h : Host) : Exec (Int × Host) :=
  let (hdr, h) := cc_lpf3_update_cmd_word SACI_FLASH_VERIFY_CCFG_SECTOR 0 h
  let cmd : SACI_PARAM_T :=
    match buffer with
    | some b =>
      -- check_exp_crc is bit 0 and skip_user_rec bit 1 of the command specific field
      SACI_PARAM_T.of_words
        [hdr + 1 * 2 ^ 16 + 1 * 2 ^ 17,
         cc_lpf3_calculate_crc (Fin.ofNat dev.uninit) (some b) BOOT_CCFG_CRC_LEN,
         cc_lpf3_calculate_crc (Fin.ofNat dev.uninit) (some (b.drop CENTRAL_CCFG_START_IDX)) CENTRAL_CCFG_CRC_LEN,
         0,
         cc_lpf3_calculate_crc (Fin.ofNat dev.uninit) (some (b.drop DEBUG_CCFG_START_IDX)) DEBUG_CCFG_CRC_LEN]
    | none =>
      -- blank_check is bit 15 of the command specific field
      SACI_PARAM_T.of_words [hdr + 1 * 2 ^ 31]
  match cc_lpf3_saci_send_cmd fuel dev cmd h with
  | Exec.error f => Exec.error f
  | Exec.ok (ret_val, h) =>
    if ret_val ≠ ERROR_OK then Exec.ok (ERROR_FAIL, h)
    else
      let (ret_val, cmd_resp, h) := cc_lpf3_saci_read_response dev (SACI_RESP_T.uninit dev) h
      if ret_val ≠ ERROR_OK ∨ cmd_resp.result ≠ SCR_SUCCESS then Exec.ok (ERROR_FAIL, h)
      else Exec.ok (ERROR_OK, h)

/-- The function `cc_lpf3_saci_verify_scfg(bank, buffer, count)`. -/
def cc_lpf3_saci_verify_scfg (fuel : Nat) (dev : Device) (buffer : Option (List Byte))
    (h : Host) : Exec (Int × Host) :=
  let (hdr, h) := cc_lpf3_update_cmd_word SACI_FLASH_VERIFY_SCFG_SECTOR 0 h
  let cmd : SACI_PARAM_T :=
    match buffer with
    | some b =>
      SACI_PARAM_T.of_words [hdr + 1 * 2 ^ 16, cc_lpf3_calculate_crc (Fin.ofNat dev.uninit) (some b) SCFG_BYTE_COUNT]
    | none => SACI_PARAM_T.of_words [hdr]
  match cc_lpf3_saci_send_cmd fuel dev cmd h with
  | Exec.error f => Exec.error f
  | Exec.ok (ret_val, h) =>
    if ret_val ≠ ERROR_OK then Exec.ok (ERROR_FAIL, h)
    else
      let (ret_val, cmd_resp, h) := cc_lpf3_saci_read_response dev (SACI_RESP_T.uninit dev) h
      if ret_val ≠ ERROR_OK then Exec.ok (ERROR_FAIL, h)
      else if cmd_resp.result ≠ SCR_SUCCESS then Exec.ok (ERROR_FAIL, h)
      else Exec.ok (ERROR_OK, h)

/-- The function `cc_lpf3_saci_verify_main(bank, buffer, count)`; of the bank it uses `base`
and `size`. -/
def cc_lpf3_saci_verify_main (fuel : Nat) (dev : Device) (bank_base bank_size : Nat)
    (buffer : Option (List Byte)) (count : Nat) (h : Host) : Exec (Int × Host) :=
  let (hdr, h) := cc_lpf3_update_cmd_word SACI_FLASH_VERIFY_MAIN_SECTORS 0 h
  let first_sector_addr := bank_base % 2 ^ 32
  let cmd : SACI_PARAM_T :=
    match buffer with
    | some b =>
      if count % LPF3_MAIN_FLASH_SECTOR_SIZE = 0 then
        SACI_PARAM_T.of_words
          [hdr, first_sector_addr, count, cc_lpf3_calculate_crc (Fin.ofNat dev.uninit) (some b) count]
      else SACI_PARAM_T.of_words [hdr + 1 * 2 ^ 31, first_sector_addr, bank_size % 2 ^ 32]
    | none => SACI_PARAM_T.of_words [hdr + 1 * 2 ^ 31, first_sector_addr, bank_size % 2 ^ 32]
  match cc_lpf3_saci_send_cmd fuel dev cmd h with
  | Exec.error f => Exec.error f
  | Exec.ok (_, h) =>
    let (ret_val, cmd_resp, h) := cc_lpf3_saci_read_response dev (SACI_RESP_T.uninit dev) h
    if ret_val ≠ ERROR_OK ∨ cmd_resp.result ≠ SCR_SUCCESS then Exec.ok (ERROR_FAIL, h)
    else Exec.ok (ERROR_OK, h)

/-- The function `cc_lpf3_saci_erase(bank)`. -/
def cc_lpf3_saci_erase (fuel : Nat) (dev : Device) (h : Host) : Exec (Int × Host) :=
  let (hdr, h) := cc_lpf3_update_cmd_word SACI_FLASH_ERASE_CHIP 0 h
  let cmd := SACI_PARAM_T.of_words [hdr, FLASH_KEY]
  match cc_lpf3_saci_send_cmd fuel dev cmd h with
  | Exec.error f => Exec.error f
  | Exec.ok (ret_val, h) =>
    if ret_val ≠ ERROR_OK then Exec.ok (ERROR_FAIL, h)
    else
      let (ret_val, _, h) := cc_lpf3_saci_read_response dev (SACI_RESP_T.uninit dev) h
      if ret_val ≠ ERROR_OK then Exec.ok (ERROR_FAIL, h)
      else Exec.ok (ERROR_OK, h)

/-- The function `cc_lpf3_write_ccfg(bank, buffer, offset, count)`.  The staging block is
`MAX_CCFG_SIZE_IN_BYTES` long; its first `MAX_CCFG_SIZE` bytes are set to `0xFF` and then
`count` bytes of `buffer` are copied in. -/
def cc_lpf3_write_ccfg (fuel : Nat) (dev : Device) (buffer : Option (List Byte)) (count : Nat)
    (h : Host) : Exec (Int × Host) :=
  match buffer with
  | none => Exec.ok (ERROR_FAIL, h)
  | some b =>
    if count > MAX_CCFG_SIZE_IN_BYTES then Exec.error Fault.undefined_behaviour
    else
      let tx_bytes : List Byte := (List.range MAX_CCFG_SIZE_IN_BYTES).map (fun i =>
        if i < count then b.getD i (Fin.ofNat dev.uninit)
        else if i < MAX_CCFG_SIZE then (0xFF : Byte)
        else Fin.ofNat dev.uninit)
      let tx_words := le_words tx_bytes
      -- cmd_id and skip_user_rec (bit 0 of the command specific field) are set, and the key
      let cmd := SACI_PARAM_T.of_words
        [saci_header SACI_FLASH_PROG_CCFG_SECTOR 0 0 + 1 * 2 ^ 16, FLASH_KEY]
      match cc_lpf3_saci_send_cmd fuel dev cmd h with
      | Exec.error f => Exec.error f
      | Exec.ok (ret_val, h) =>
        if ret_val ≠ ERROR_OK then Exec.ok (ERROR_FAIL, h)
        else
          let (ret_val, h) := cc_lpf3_saci_send_tx_words dev tx_words MAX_CCFG_SIZE h
          if ret_val ≠ ERROR_OK then Exec.ok (ERROR_FAIL, h)
          else
            let (ret_val, cmd_resp, h) :=
              cc_lpf3_saci_read_response dev (SACI_RESP_T.uninit dev) h
            if ret_val ≠ ERROR_OK then Exec.ok (ERROR_FAIL, h)
            else if cmd_resp.result ≠ 0 then Exec.ok (ERROR_FAIL, h)
            else
              match cc_lpf3_saci_verify_ccfg fuel dev buffer h with
              | Exec.error f => Exec.error f
              | Exec.ok (ret_val, h) =>
                if ret_val ≠ ERROR_OK then Exec.ok (ERROR_FAIL, h)
                else Exec.ok (ret_val, h)

/-- The function `cc_lpf3_write_scfg(bank, buffer, offset, count)`. -/
def cc_lpf3_write_scfg (fuel : Nat) (dev : Device) (buffer : Option (List Byte)) (count : Nat)
    (h : Host) : Exec (Int × Host) :=
  match buffer with
  | none => Exec.ok (ERROR_FAIL, h)
  | some b =>
    let tx_words := le_words (bytes_at dev b count)
    let (resp_seq_num, h) := cc_lpf3_get_resp_seqnum h
    -- byte_count shares the 16 bits of the command specific field
    let cmd := SACI_PARAM_T.of_words
      [saci_header SACI_FLASH_PROG_SCFG_SECTOR resp_seq_num count, FLASH_KEY]
    match cc_lpf3_saci_send_cmd fuel dev cmd h with
    | Exec.error f => Exec.error f
    | Exec.ok (ret_val, h) =>
      if ret_val ≠ ERROR_OK then Exec.ok (ERROR_FAIL, h)
      else
        let tx_words_count := count / 4
        let (ret_val, h) := cc_lpf3_saci_send_tx_words dev tx_words tx_words_count h
        if ret_val ≠ ERROR_OK then Exec.ok (ERROR_FAIL, h)
        else
          let (ret_val, cmd_resp, h) :=
            cc_lpf3_saci_read_response dev (SACI_RESP_T.uninit dev) h
          if ret_val ≠ ERROR_OK then Exec.ok (ERROR_FAIL, h)
          else if cmd_resp.result ≠ 0 then Exec.ok (ERROR_FAIL, h)
          else
            match cc_lpf3_saci_verify_scfg fuel dev buffer h with
            | Exec.error f => Exec.error f
            | Exec.ok (ret_val, h) =>
              if ret_val ≠ ERROR_OK then Exec.ok (ERROR_FAIL, h)
              else Exec.ok (ret_val, h)

/-- The function `cc_lpf3_write_main(bank, buffer, offset, count)`; of the bank it uses `base`
and `size`. -/
def cc_lpf3_write_main (fuel : Nat) (dev : Device) (bank_base bank_size : Nat)
    (buffer : Option (List Byte)) (count : Nat) (h : Host) : Exec (Int × Host) :=
  let (hdr, h) := cc_lpf3_update_cmd_word SACI_FLASH_PROG_MAIN_PIPELINED 0 h
  let cmd := SACI_PARAM_T.of_words [hdr, FLASH_KEY, bank_base % 2 ^ 32]
  match cc_lpf3_saci_send_cmd fuel dev cmd h with
  | Exec.error f => Exec.error f
  | Exec.ok (ret_val, h) =>
    if ret_val ≠ ERROR_OK then Exec.ok (ERROR_FAIL, h)
    else
      match cc_lpf3_flash_sector_padding dev buffer count with
      | Exec.error f => Exec.error f
      | Exec.ok (tx_bytes, count) =>
        match cc_lpf3_saci_send_sector_tx fuel dev (le_words tx_bytes) count cmd h with
        | Exec.error f => Exec.error f
        | Exec.ok (ret_val, h) =>
          if ret_val ≠ ERROR_OK then Exec.ok (ret_val, h)
          else cc_lpf3_saci_verify_main fuel dev bank_base bank_size (some tx_bytes) count h

/-- The function `cc_lpf3_check_boot_status(bank)`: the `bootsta` field of the device status
register; a failed read leaves the local `result` as it was. -/
def cc_lpf3_check_boot_status (dev : Device) (h : Host) : Nat × Host :=
  let (_, result, h) :=
    cc_lpf3_read_from_AP dev DEBUGSS_CFG_AP CFG_AP_DEVICE_STATUS (dev.uninit % 2 ^ 32) h
  ((result >>> 8) &&& 0xFF, h)

/-- The function `cc_lpf3_prepare_write(bank)`. -/
def cc_lpf3_prepare_write (fuel : Nat) (dev : Device) (h : Host) : Exec (Int × Host) :=
  let (bootsta, h) := cc_lpf3_check_boot_status dev h
  if BOOTSTA_BOOT_ENTERED_SACI ≠ bootsta then Exec.ok ((bootsta : Int), h)
  else
    let cmd := SACI_PARAM_T.of_words [saci_header SACI_MISC_NO_OPERATION 0 0]
    match cc_lpf3_saci_send_cmd fuel dev cmd h with
    | Exec.error f => Exec.error f
    | Exec.ok (ret_val, h) =>
      if ret_val ≠ ERROR_OK then Exec.ok (ret_val, h) else Exec.ok (ERROR_OK, h)

/-! ## Flash program engine (`cc_lpf3_base.c`, `cc27xx.c`) -/

/-- The two tables of chip operations (`struct cc_lpf3_chip_ops`) that are ever registered:
the one of `cc23xx_flash_bank_command` and the one of `cc27xx_flash_bank_command`. -/
inductive cc_lpf3_chip_ops where
  | cc23xx
  | cc27xx
  deriving DecidableEq, Repr

/-- The member `check_allowed_flash_op` of a table of chip operations. -/
def cc_lpf3_chip_ops.check_allowed_flash_op :
    cc_lpf3_chip_ops → CC_LPF3_FLASH_OP_T → Statics → Bool × Statics
  | .cc23xx => cc23xx_check_allowed_flash_op
  | .cc27xx => cc27xx_check_allowed_flash_op

/-- The fields of `struct cc_lpf3_flash_bank` the engine reads or writes; `driver_priv` is
`none` while no chip operations are registered. -/
structure cc_lpf3_flash_bank where
  did : Nat
  flash_word_size_bytes : Nat
  driver_priv : Option cc_lpf3_chip_ops
  deriving DecidableEq, Repr

/-- The fields of OpenOCD's `struct flash_bank` the engine reads. -/
structure flash_bank where
  base : Nat
  size : Nat
  driver_priv : cc_lpf3_flash_bank
  deriving DecidableEq, Repr

/-- The state that outlives a call of the engine: the file-scope variables of the chip drivers
and the state of the transport. -/
structure Driver where
  statics : Statics
  host : Host
  deriving DecidableEq, Repr

/-- The function `cc_lpf3_check_device_info(bank)`: the return code and the bank's `did`. -/
def cc_lpf3_check_device_info (dev : Device) (bank : flash_bank) (h : Host) :
    Int × flash_bank × Host :=
  let (ret_val, result, h) :=
    cc_lpf3_read_from_AP dev DEBUGSS_CFG_AP CFG_AP_DEVICE_STATUS (dev.uninit % 2 ^ 32) h
  if ret_val ≠ ERROR_OK then (ret_val, bank, h)
  else
    let (ret_val, result, h) :=
      cc_lpf3_read_from_AP dev DEBUGSS_CFG_AP CFG_AP_DEVICE_ID_READ result h
    if ret_val = ERROR_OK then
      (ERROR_OK, { bank with driver_priv := { bank.driver_priv with did := result } }, h)
    else (ERROR_FAIL, bank, h)

/-- The function `cc_lpf3_base_erase(bank, first, last)`. -/
def cc_lpf3_base_erase (fuel : Nat) (dev : Device) (bank : flash_bank) (d : Driver) :
    Exec (Int × Driver) :=
  let (bootsta, h) := cc_lpf3_check_boot_status dev d.host
  if BOOTSTA_BOOT_ENTERED_SACI ≠ bootsta then Exec.ok (ERROR_FAIL, { d with host := h })
  else
    match bank.driver_priv.driver_priv with
    | some ops =>
      let (op_allowed, statics) :=
        ops.check_allowed_flash_op CC_LPF3_FLASH_OP_CHIP_ERASE d.statics
      if op_allowed then
        match cc_lpf3_saci_erase fuel dev h with
        | Exec.error f => Exec.error f
        | Exec.ok (ret_val, h) =>
          if ERROR_OK ≠ ret_val then
            let (_, statics) :=
              ops.check_allowed_flash_op CC_LPF3_FLASH_OP_REVERT_STAGE statics
            Exec.ok (ERROR_FAIL, { statics := statics, host := h })
          else Exec.ok (ERROR_OK, { statics := statics, host := h })
      else Exec.ok (ERROR_OK, { statics := statics, host := h })
    | none => Exec.ok (ERROR_FAIL, { d with host := h })

/-- The checks at the head of `cc_lpf3_base_write` (lines 171-192): `some code` when the
function returns `code` there, `none` with the registered chip operations when it goes on to
program. -/
def cc_lpf3_base_write_checks (fuel : Nat) (dev : Device) (bank : flash_bank) (offset : Nat)
    (h : Host) : Exec (Option Int × flash_bank × Host) :=
  let (ret_val, bank, h) := cc_lpf3_check_device_info dev bank h
  if ERROR_OK ≠ ret_val then Exec.ok (some ERROR_TARGET_INIT_FAILED, bank, h)
  else
    match cc_lpf3_prepare_write fuel dev h with
    | Exec.error f => Exec.error f
    | Exec.ok (ret_val, h) =>
      if ERROR_OK ≠ ret_val then Exec.ok (some ERROR_TARGET_INIT_FAILED, bank, h)
      else if bank.driver_priv.did = 0 then Exec.ok (some ERROR_FLASH_BANK_NOT_PROBED, bank, h)
      else if bank.driver_priv.flash_word_size_bytes = 0 then
        Exec.error Fault.undefined_behaviour
      else if offset % bank.driver_priv.flash_word_size_bytes ≠ 0 then
        Exec.ok (some ERROR_FLASH_DST_BREAKS_ALIGNMENT, bank, h)
      else if bank.driver_priv.driver_priv = none then Exec.ok (some ERROR_FAIL, bank, h)
      else Exec.ok (none, bank, h)

/-- One of the three "Program ..." blocks of `cc_lpf3_base_write` (lines 194-216): when the
bank is the block's region and the state machine grants `op`, the region is written by
`write`, and a failed write is followed by a revert. -/
def program_block (ops : cc_lpf3_chip_ops) (is_region : Bool) (op : CC_LPF3_FLASH_OP_T)
    (write : Host → Exec (Int × Host)) (d : Driver) : Exec Driver :=
  if is_region then
    let (op_allowed, statics) := ops.check_allowed_flash_op op d.statics
    if op_allowed then
      match write d.host with
      | Exec.error f => Exec.error f
      | Exec.ok (ret_val, h) =>
        if ERROR_OK ≠ ret_val then
          let (_, statics) := ops.check_allowed_flash_op CC_LPF3_FLASH_OP_REVERT_STAGE statics
          Exec.ok { statics := statics, host := h }
        else Exec.ok { statics := statics, host := h }
    else Exec.ok { statics := statics, host := d.host }
  else Exec.ok d

/-- The function `cc_lpf3_base_write(bank, buffer, offset, count)`: the return code, the bank
(its `did` is refreshed) and the state on return. -/
def cc_lpf3_base_write (fuel : Nat) (dev : Device) (bank : flash_bank)
    (buffer : Option (List Byte)) (offset count : Nat) (d : Driver) :
    Exec (Int × flash_bank × Driver) :=
  match cc_lpf3_base_write_checks fuel dev bank offset d.host with
  | Exec.error f => Exec.error f
  | Exec.ok (some code, bank, h) => Exec.ok (code, bank, { d with host := h })
  | Exec.ok (none, bank, h) =>
    match bank.driver_priv.driver_priv with
    | none => Exec.ok (ERROR_FAIL, bank, { d with host := h })
    | some ops =>
      let d : Driver := { d with host := h }
      match program_block ops (bank.base = LPF3_FLASH_BASE_CCFG) CC_LPF3_FLASH_OP_PROG_CCFG
          (cc_lpf3_write_ccfg fuel dev buffer count) d with
      | Exec.error f => Exec.error f
      | Exec.ok d =>
        match program_block ops (bank.base = LPF3_FLASH_BASE_SCFG) CC_LPF3_FLASH_OP_PROG_SCFG
            (cc_lpf3_write_scfg fuel dev buffer count) d with
        | Exec.error f => Exec.error f
        | Exec.ok d =>
          match program_block ops (bank.base = LPF3_FLASH_BASE_MAIN) CC_LPF3_FLASH_OP_PROG_MAIN
              (cc_lpf3_write_main fuel dev bank.base bank.size buffer count) d with
          | Exec.error f => Exec.error f
          | Exec.ok d => Exec.ok (ERROR_OK, bank, d)

/-- The function `cc27xx_write(bank, buffer, offset, count)`. -/
def cc27xx_write (fuel : Nat) (dev : Device) (bank : flash_bank)
    (buffer : Option (List Byte)) (offset count : Nat) (d : Driver) :
    Exec (Int × flash_bank × Driver) :=
  match cc_lpf3_base_write fuel dev bank buffer offset count d with
  | Exec.error f => Exec.error f
  | Exec.ok (retval, bank, d) =>
    if retval = ERROR_OK then
      if bank.base = LPF3_FLASH_BASE_CCFG then
        Exec.ok (retval, bank, { d with statics := { d.statics with b_ccfg := true } })
      else if bank.base = LPF3_FLASH_BASE_SCFG then
        Exec.ok (retval, bank, { d with statics := { d.statics with b_scfg := true } })
      else if bank.base = LPF3_FLASH_BASE_MAIN then
        Exec.ok (retval, bank, { d with statics := { d.statics with b_main := true } })
      else Exec.ok (retval, bank, d)
    else Exec.ok (retval, bank, d)

/-! ### The state machines as the specification words them -/

/-- The transition table of the two-region family in the specification: the stage a granted
operation leads to, `none` for "reject". -/
def spec_two_region_table : CC_LPF3_FLASH_STAGE_T → CC_LPF3_FLASH_OP_T → Option CC_LPF3_FLASH_STAGE_T
  | CC_LPF3_FLASH_STAGE_INIT, CC_LPF3_FLASH_OP_CHIP_ERASE => some CC_LPF3_FLASH_STAGE_ERASE
  | CC_LPF3_FLASH_STAGE_ERASE, CC_LPF3_FLASH_OP_PROG_CCFG => some CC_LPF3_FLASH_STAGE_CCFG
  | CC_LPF3_FLASH_STAGE_ERASE, CC_LPF3_FLASH_OP_PROG_MAIN => some CC_LPF3_FLASH_STAGE_MAIN
  | CC_LPF3_FLASH_STAGE_ERASE, CC_LPF3_FLASH_OP_REVERT_STAGE => some CC_LPF3_FLASH_STAGE_INIT
  | CC_LPF3_FLASH_STAGE_CCFG, CC_LPF3_FLASH_OP_PROG_MAIN => some CC_LPF3_FLASH_STAGE_COMPLETE
  | CC_LPF3_FLASH_STAGE_CCFG, CC_LPF3_FLASH_OP_REVERT_STAGE => some CC_LPF3_FLASH_STAGE_ERASE
  | CC_LPF3_FLASH_STAGE_MAIN, CC_LPF3_FLASH_OP_PROG_CCFG => some CC_LPF3_FLASH_STAGE_COMPLETE
  | CC_LPF3_FLASH_STAGE_MAIN, CC_LPF3_FLASH_OP_REVERT_STAGE => some CC_LPF3_FLASH_STAGE_ERASE
  | _, _ => none

/-- What the specification's table says a request does: whether it is granted and the stage
afterwards (`Complete` turns into `Init` at once, a rejected request leaves the stage). -/
def spec_two_region_step (stage : CC_LPF3_FLASH_STAGE_T) (op : CC_LPF3_FLASH_OP_T) :
    Bool × CC_LPF3_FLASH_STAGE_T :=
  match spec_two_region_table stage op with
  | some CC_LPF3_FLASH_STAGE_COMPLETE => (true, CC_LPF3_FLASH_STAGE_INIT)
  | some next => (true, next)
  | none => (false, stage)

/-- The requests `ops` put to a state machine one after the other: the answers, and the
file-scope variables at the end. -/
def check_sequence (check : CC_LPF3_FLASH_OP_T → Statics → Bool × Statics) :
    List CC_LPF3_FLASH_OP_T → Statics → List Bool × Statics
  | [], s => ([], s)
  | op :: ops, s =>
    let (op_allowed, s) := check op s
    let (rest, s) := check_sequence check ops s
    (op_allowed :: rest, s)

/-- The three flash regions of the three-region family. -/
inductive Region where
  | ccfg
  | scfg
  | main
  deriving DecidableEq, Repr

/-- The program operation of a region. -/
def Region.prog_op : Region → CC_LPF3_FLASH_OP_T
  | .ccfg => CC_LPF3_FLASH_OP_PROG_CCFG
  | .scfg => CC_LPF3_FLASH_OP_PROG_SCFG
  | .main => CC_LPF3_FLASH_OP_PROG_MAIN

/-- The single-region stage of a region. -/
def Region.stage : Region → CC_LPF3_FLASH_STAGE_T
  | .ccfg => CC_LPF3_FLASH_STAGE_CCFG
  | .scfg => CC_LPF3_FLASH_STAGE_SCFG
  | .main => CC_LPF3_FLASH_STAGE_MAIN

/-- The completion flag of a region. -/
def Region.flag (s : Statics) : Region → Bool
  | .ccfg => s.b_ccfg
  | .scfg => s.b_scfg
  | .main => s.b_main

/-- The base address of the bank of a region. -/
def Region.base : Region → Nat
  | .ccfg => LPF3_FLASH_BASE_CCFG
  | .scfg => LPF3_FLASH_BASE_SCFG
  | .main => LPF3_FLASH_BASE_MAIN

/-- The region that is neither `x` nor `y` (for `x` and `y` different). -/
def Region.third : Region → Region → Region
  | .ccfg, .scfg => .main
  | .scfg, .ccfg => .main
  | .ccfg, .main => .scfg
  | .main, .ccfg => .scfg
  | .scfg, .main => .ccfg
  | .main, .scfg => .ccfg
  | x, _ => x

/-! ### Vocabulary for the engine theorems -/

/-- The stage variable a table of chip operations works on. -/
def cc_lpf3_chip_ops.flash_stage : cc_lpf3_chip_ops → Statics → CC_LPF3_FLASH_STAGE_T
  | .cc23xx, s => s.cc23xx_flash_stage
  | .cc27xx, s => s.cc27xx_flash_stage

/-- The file-scope variables with the completion flag of a region set, as `cc27xx_write` sets
it. -/
def Region.set_flag (s : Statics) : Region → Statics
  | .ccfg => { s with b_ccfg := true }
  | .scfg => { s with b_scfg := true }
  | .main => { s with b_main := true }

/-- The region write `cc_lpf3_base_write` calls for the bank of a region. -/
def Region.write (fuel : Nat) (dev : Device) (bank : flash_bank) (buffer : Option (List Byte))
    (count : Nat) : Region → Host → Exec (Int × Host)
  | .ccfg => cc_lpf3_write_ccfg fuel dev buffer count
  | .scfg => cc_lpf3_write_scfg fuel dev buffer count
  | .main => cc_lpf3_write_main fuel dev bank.base bank.size buffer count

/-- The arguments of one call of the `write` entry point of a flash driver. -/
structure WriteReq where
  bank : flash_bank
  buffer : Option (List Byte)
  offset : Nat
  count : Nat

/-- A request is for region `x` of a CC27xx device: its bank sits at the base address of `x`
and carries the chip operations of `cc27xx.c`. -/
def WriteReq.is_for (r : WriteReq) (x : Region) : Prop :=
  r.bank.base = x.base ∧ r.bank.driver_priv.driver_priv = some cc_lpf3_chip_ops.cc27xx

instance (r : WriteReq) (x : Region) : Decidable (r.is_for x) := by
  unfold WriteReq.is_for; infer_instance

/-- Whether the region of a request gets written successfully when the request is made in
transport state `h`: the checks at the head of `cc_lpf3_base_write` pass, and the write of
region `x` (with its verification), started after them, returns `ERROR_OK`. -/
def region_write_succeeds (fuel : Nat) (dev : Device) (r : WriteReq) (x : Region) (h : Host) :
    Bool :=
  match cc_lpf3_base_write_checks fuel dev r.bank r.offset h with
  | Exec.ok (none, bank, h) =>
    match x.write fuel dev bank r.buffer r.count h with
    | Exec.ok (ret_val, _) => decide (ret_val = ERROR_OK)
    | Exec.error _ => false
  | _ => false

/-- The calls `cc27xx_write` for a list of requests, one after the other: the states in which
the calls return. -/
def cc27xx_write_sequence (fuel : Nat) (dev : Device) : List WriteReq → Driver → Exec (List Driver)
  | [], _ => Exec.ok []
  | r :: rs, d =>
    match cc27xx_write fuel dev r.bank r.buffer r.offset r.count d with
    | Exec.error f => Exec.error f
    | Exec.ok (_, _, d) =>
      match cc27xx_write_sequence fuel dev rs d with
      | Exec.error f => Exec.error f
      | Exec.ok ds => Exec.ok (d :: ds)

/-- Whether every request of a sequence of `cc27xx_write` calls gets its region written
successfully (each request paired with its region). -/
def writes_succeed (fuel : Nat) (dev : Device) : List (WriteReq × Region) → Driver → Bool
  | [], _ => true
  | (r, x) :: rs, d =>
    region_write_succeeds fuel dev r x d.host &&
      match cc27xx_write fuel dev r.bank r.buffer r.offset r.count d with
      | Exec.ok (_, _, d) => writes_succeed fuel dev rs d
      | Exec.error _ => false

/-! ### Concrete devices, banks and states for the worked examples -/

/-- A device that is in SACI mode (boot status `0x20`), reports a device identifier, never has
TXD full, always has a response ready and answers every command with result success. -/
def willing_device : Device :=
  { read := fun ap_num reg _ =>
      if ap_num = DEBUGSS_CFG_AP ∧ reg = CFG_AP_DEVICE_STATUS then (ERROR_OK, 0x2000)
      else if ap_num = DEBUGSS_CFG_AP ∧ reg = CFG_AP_DEVICE_ID_READ then (ERROR_OK, 0x0BB9802F)
      else if ap_num = DEBUGSS_SEC_AP ∧ reg = SEC_AP_RXCTL then (ERROR_OK, SACI_RXCTL_RXD_FULL)
      else (ERROR_OK, 0)
    write := fun _ => ERROR_OK
    uninit := 0 }

/-- A device like `willing_device` whose status register reads boot status `0x00`: it is not
in SACI mode. -/
def idle_device : Device :=
  { willing_device with
    read := fun ap_num reg k =>
      if ap_num = DEBUGSS_CFG_AP ∧ reg = CFG_AP_DEVICE_STATUS then (ERROR_OK, 0)
      else willing_device.read ap_num reg k }

/-- The bank of a region on a probed CC27xx device. -/
def cc27xx_bank (x : Region) : flash_bank :=
  { base := x.base, size := 0x800,
    driver_priv :=
      { did := 0x0BB9802F, flash_word_size_bytes := 8,
        driver_priv := some cc_lpf3_chip_ops.cc27xx } }

/-- A request that writes an empty image to a region of a CC27xx device. -/
def empty_write (x : Region) : WriteReq :=
  { bank := cc27xx_bank x, buffer := some [], offset := 0, count := 0 }

/-- The state of a fresh process whose CC27xx stage is `stage`. -/
def driver_at (stage : CC_LPF3_FLASH_STAGE_T) : Driver :=
  { statics := { Statics.initial with cc27xx_flash_stage := stage },
    host := { seq_num := 0, log := [] } }

/-- The condition that holds while region `z` has not been written since the chip erase: the
stage is one of Erase and the stages of the other two regions, and the completion flag of `z`
is clear. -/
def region_pending (z : Region) (s : Statics) : Prop :=
  s.cc27xx_flash_stage ≠ CC_LPF3_FLASH_STAGE_INIT ∧
  s.cc27xx_flash_stage ≠ CC_LPF3_FLASH_STAGE_COMPLETE ∧
  s.cc27xx_flash_stage ≠ z.stage ∧
  z.flag s = false

/-- A device like `willing_device` that answers every command with the result code
flash-FSM-error (`0x84`). -/
def refusing_device : Device :=
  { willing_device with
    read := fun ap_num reg k =>
      if ap_num = DEBUGSS_SEC_AP ∧ reg = SEC_AP_RXD then (ERROR_OK, 0x00840000)
      else willing_device.read ap_num reg k }

/-- The state of a process that has programmed all three regions of a CC27xx device: the stage
is back at Init and the three completion flags are set. -/
def driver_after_full_cycle : Driver :=
  { statics := { Statics.initial with b_ccfg := true, b_scfg := true, b_main := true },
    host := { seq_num := 0, log := [] } }

/-- The port operations of a chip erase on `willing_device`: the status read, then the
erase-chip command (header `0x09`, then the key) and the read of its response. -/
def erase_log : List PortEvent :=
  [PortEvent.ap_read DEBUGSS_CFG_AP CFG_AP_DEVICE_STATUS,
   PortEvent.ap_read DEBUGSS_SEC_AP SEC_AP_TXCTL,
   PortEvent.ap_write DEBUGSS_SEC_AP SEC_AP_TXCTL SACI_TXCTRL_CMD_START,
   PortEvent.ap_write DEBUGSS_SEC_AP SEC_AP_TXD SACI_FLASH_ERASE_CHIP,
   PortEvent.ap_read DEBUGSS_SEC_AP SEC_AP_TXCTL,
   PortEvent.ap_write DEBUGSS_SEC_AP SEC_AP_TXCTL 0,
   PortEvent.ap_write DEBUGSS_SEC_AP SEC_AP_TXD FLASH_KEY,
   PortEvent.ap_read DEBUGSS_SEC_AP SEC_AP_TXCTL,
   PortEvent.ap_read DEBUGSS_SEC_AP SEC_AP_RXCTL,
   PortEvent.ap_read DEBUGSS_SEC_AP SEC_AP_RXD]

/-- The port operations of the checks at the head of `cc_lpf3_base_write` on `willing_device`:
the two reads of `cc_lpf3_check_device_info`, the status read and the no-op command of
`cc_lpf3_prepare_write`. -/
def write_checks_log : List PortEvent :=
  [PortEvent.ap_read DEBUGSS_CFG_AP CFG_AP_DEVICE_STATUS,
   PortEvent.ap_read DEBUGSS_CFG_AP CFG_AP_DEVICE_ID_READ,
   PortEvent.ap_read DEBUGSS_CFG_AP CFG_AP_DEVICE_STATUS,
   PortEvent.ap_read DEBUGSS_SEC_AP SEC_AP_TXCTL,
   PortEvent.ap_write DEBUGSS_SEC_AP SEC_AP_TXCTL SACI_TXCTRL_CMD_START,
   PortEvent.ap_write DEBUGSS_SEC_AP SEC_AP_TXD SACI_MISC_NO_OPERATION,
   PortEvent.ap_read DEBUGSS_SEC_AP SEC_AP_TXCTL]

/-- The result of a `write` call reduced to what the engine keeps: the return code and the
file-scope variables. -/
def Exec.code_and_statics : Exec (Int × flash_bank × Driver) → Option (Int × Statics)
  | Exec.ok (ret_val, _, d) => some (ret_val, d.statics)
  | Exec.error _ => none

/-! ### Worked inputs for the pipelined write -/

/-- The response header word of the device for a sector of a pipelined write: command id
program-main-pipelined (`0x0F`), the sequence number in bits 15:8, result success and
payload-word count 0. -/
def sector_response (resp_seq_num : Nat) : Nat :=
  SACI_FLASH_PROG_MAIN_PIPELINED + (resp_seq_num % 256) * 2 ^ 8

/-- A device on which every port operation succeeds, a response is always ready, and the
response to sector `i` of a pipelined write carries sequence number `(base + i) mod 256`. -/
def sequenced_device (base : Nat) : Device :=
  { read := fun ap_num reg k =>
      if ap_num = DEBUGSS_SEC_AP ∧ reg = SEC_AP_RXCTL then (ERROR_OK, SACI_RXCTL_RXD_FULL)
      else if ap_num = DEBUGSS_SEC_AP ∧ reg = SEC_AP_RXD then (ERROR_OK, sector_response (base + k))
      else (ERROR_OK, 0)
    write := fun _ => ERROR_OK
    uninit := 0 }

/-- The initiating program-main-pipelined command with sequence number `base`. -/
def pipelined_cmd (base : Nat) : SACI_PARAM_T :=
  SACI_PARAM_T.of_words [saci_header SACI_FLASH_PROG_MAIN_PIPELINED base 0, FLASH_KEY, 0]

/-- The return code of `cc_lpf3_saci_send_sector_tx` for `n` sectors of zero words after the
initiating command with sequence number `base`, on `sequenced_device base`, in a fresh
transport state (`none` when the call does not return within `fuel`). -/
def send_sectors_result (fuel base n : Nat) : Option Int :=
  match cc_lpf3_saci_send_sector_tx fuel (sequenced_device base)
      (List.replicate (n * MAIN_SECTOR_SIZE_WORDS) 0) (n * LPF3_MAIN_FLASH_SECTOR_SIZE)
      (pipelined_cmd base) { seq_num := 0, log := [] } with
  | Exec.ok (ret_val, _) => some ret_val
  | Exec.error _ => none

/-! ### Worked inputs for the error-handling theorems -/

/-- A device like `willing_device` that answers every command with the result code
not-allowed (`0x86`), echoing the command id of erase-chip. -/
def denying_device : Device :=
  { willing_device with
    read := fun ap_num reg k =>
      if ap_num = DEBUGSS_SEC_AP ∧ reg = SEC_AP_RXD then
        (ERROR_OK, SACI_FLASH_ERASE_CHIP + 0x86 * 2 ^ 16)
      else willing_device.read ap_num reg k }

/-- The bank of a region on a probed CC23xx device. -/
def cc23xx_bank (x : Region) : flash_bank :=
  { base := x.base, size := 0x800,
    driver_priv :=
      { did := 0x0BB9802F, flash_word_size_bytes := 8,
        driver_priv := some cc_lpf3_chip_ops.cc23xx } }

/-- The state of a fresh process whose CC23xx stage is `stage`. -/
def driver23_at (stage : CC_LPF3_FLASH_STAGE_T) : Driver :=
  { statics := { Statics.initial with cc23xx_flash_stage := stage },
    host := { seq_num := 0, log := [] } }

/-! ### Sizes of the packed parameter structures (`cc_lpf3_flash.h`, lines 206-336)

The structures are declared under `#pragma pack(push, 1)`: the size of a structure is the sum
of the sizes of its members, the bit-fields of a structure filling one `uint16_t`. -/

/-- The macro `SIZE_IN_WORDS(x)`, applied to `sizeof (x)`. -/
def SIZE_IN_WORDS (sizeof_x : Nat) : Nat := sizeof_x / 4

/-- The size of `SACI_PARAM_COMMON_T`, the union of the header structure
(`uint8_t`, `uint8_t`, `uint16_t`) and a `uint32_t`. -/
def sizeof_SACI_PARAM_COMMON_T : Nat := max (1 + 1 + 2) 4
/-- The size of `SACI_PARAM_DEBUG_SUBMIT_AUTH_T`: header and `pwd[16]`. -/
def sizeof_SACI_PARAM_DEBUG_SUBMIT_AUTH_T : Nat := 1 + 1 + 2 + 4 * 16
/-- The size of `SACI_PARAM_FLASH_ERASE_CHIP_T`: header and `key`. -/
def sizeof_SACI_PARAM_FLASH_ERASE_CHIP_T : Nat := 1 + 1 + 2 + 4
/-- The size of `SACI_PARAM_FLASH_PROG_CCFG_SECTOR_T`: header and `key`. -/
def sizeof_SACI_PARAM_FLASH_PROG_CCFG_SECTOR_T : Nat := 1 + 1 + 2 + 4
/-- The size of `SACI_PARAM_FLASH_PROG_SCFG_SECTOR_T`: header and `key`. -/
def sizeof_SACI_PARAM_FLASH_PROG_SCFG_SECTOR_T : Nat := 1 + 1 + 2 + 4
/-- The size of `SACI_PARAM_FLASH_PROG_CCFG_USER_REC_T`: header, `key` and `data[128]`. -/
def sizeof_SACI_PARAM_FLASH_PROG_CCFG_USER_REC_T : Nat := 1 + 1 + 2 + 4 + 128
/-- The size of `SACI_PARAM_FLASH_PROG_MAIN_PIPELINED_T`: header, `key` and
`first_sector_addr`. -/
def sizeof_SACI_PARAM_FLASH_PROG_MAIN_PIPELINED_T : Nat := 1 + 1 + 2 + 4 + 4
/-- The size of `SACI_PARAM_FLASH_VERIFY_MAIN_SECTORS_T`: header, `first_sector_addr`,
`byte_count` and `expected_crc32`. -/
def sizeof_SACI_PARAM_FLASH_VERIFY_MAIN_SECTORS_T : Nat := 1 + 1 + 2 + 4 + 4 + 4
/-- The size of `SACI_PARAM_FLASH_VERIFY_CCFG_SECTOR_T`: header and four expected CRCs. -/
def sizeof_SACI_PARAM_FLASH_VERIFY_CCFG_SECTOR_T : Nat := 1 + 1 + 2 + 4 + 4 + 4 + 4
/-- The size of `SACI_PARAM_FLASH_VERIFY_SCFG_SECTOR_T`: header and `expected_crc32`. -/
def sizeof_SACI_PARAM_FLASH_VERIFY_SCFG_SECTOR_T : Nat := 1 + 1 + 2 + 4
/-- The size of `SACI_PARAM_LIFECYCLE_INCR_STATE_T`: header and `pwd[4]`. -/
def sizeof_SACI_PARAM_LIFECYCLE_INCR_STATE_T : Nat := 1 + 1 + 2 + 4 * 4
/-- The size of `SACI_PARAM_LIFECYCLE_REQ_FIRST_BDAY_T`: header and `first_bday_pwd[8]`. -/
def sizeof_SACI_PARAM_LIFECYCLE_REQ_FIRST_BDAY_T : Nat := 1 + 1 + 2 + 4 * 8
/-- The size of `SACI_PARAM_BLDR_APP_RESET_DEVICE_T`: the header alone. -/
def sizeof_SACI_PARAM_BLDR_APP_RESET_DEVICE_T : Nat := 1 + 1 + 2

/-- The command word-length table as the `switch` of `cc_lpf3_get_cmd_word_length` writes it:
for a command identifier with a `case`, `SIZE_IN_WORDS` of the parameter structure named
there; `none` for the `default` case. -/
def cmd_length_table (cmd_id : Nat) : Option Nat :=
  if cmd_id = SACI_MISC_NO_OPERATION then some (SIZE_IN_WORDS sizeof_SACI_PARAM_COMMON_T)
  else if cmd_id = SACI_MISC_GET_TEST_ID then some (SIZE_IN_WORDS sizeof_SACI_PARAM_COMMON_T)
  else if cmd_id = SACI_MISC_GET_DIE_ID then some (SIZE_IN_WORDS sizeof_SACI_PARAM_COMMON_T)
  else if cmd_id = SACI_MISC_GET_CCFG_USER_REC then
    some (SIZE_IN_WORDS sizeof_SACI_PARAM_COMMON_T)
  else if cmd_id = SACI_DEBUG_REQ_PWD_ID then some (SIZE_IN_WORDS sizeof_SACI_PARAM_COMMON_T)
  else if cmd_id = SACI_DEBUG_SUBMIT_AUTH then
    some (SIZE_IN_WORDS sizeof_SACI_PARAM_DEBUG_SUBMIT_AUTH_T)
  else if cmd_id = SACI_DEBUG_EXIT_SACI_HALT then
    some (SIZE_IN_WORDS sizeof_SACI_PARAM_COMMON_T)
  else if cmd_id = SACI_DEBUG_EXIT_SACI_SHUTDOWN then
    some (SIZE_IN_WORDS sizeof_SACI_PARAM_COMMON_T)
  else if cmd_id = SACI_FLASH_ERASE_CHIP then
    some (SIZE_IN_WORDS sizeof_SACI_PARAM_FLASH_ERASE_CHIP_T)
  else if cmd_id = SACI_FLASH_PROG_CCFG_SECTOR then
    some (SIZE_IN_WORDS sizeof_SACI_PARAM_FLASH_PROG_CCFG_SECTOR_T)
  else if cmd_id = SACI_FLASH_PROG_SCFG_SECTOR then
    some (SIZE_IN_WORDS sizeof_SACI_PARAM_FLASH_PROG_SCFG_SECTOR_T)
  else if cmd_id = SACI_FLASH_PROG_CCFG_USER_REC then
    some (SIZE_IN_WORDS sizeof_SACI_PARAM_FLASH_PROG_CCFG_USER_REC_T)
  else if cmd_id = SACI_FLASH_PROG_MAIN_PIPELINED then
    some (SIZE_IN_WORDS sizeof_SACI_PARAM_FLASH_PROG_MAIN_PIPELINED_T)
  else if cmd_id = SACI_FLASH_VERIFY_MAIN_SECTORS then
    some (SIZE_IN_WORDS sizeof_SACI_PARAM_FLASH_VERIFY_MAIN_SECTORS_T)
  else if cmd_id = SACI_FLASH_VERIFY_CCFG_SECTOR then
    some (SIZE_IN_WORDS sizeof_SACI_PARAM_FLASH_VERIFY_CCFG_SECTOR_T)
  else if cmd_id = SACI_FLASH_VERIFY_SCFG_SECTOR then
    some (SIZE_IN_WORDS sizeof_SACI_PARAM_FLASH_VERIFY_SCFG_SECTOR_T)
  else if cmd_id = SACI_LIFECYCLE_INCR_STATE then
    some (SIZE_IN_WORDS sizeof_SACI_PARAM_LIFECYCLE_INCR_STATE_T)
  else if cmd_id = SACI_LIFECYCLE_REQ_FIRST_BDAY then
    some (SIZE_IN_WORDS sizeof_SACI_PARAM_LIFECYCLE_REQ_FIRST_BDAY_T)
  else if cmd_id = SACI_BLDR_APP_RESET_DEVICE then
    some (SIZE_IN_WORDS sizeof_SACI_PARAM_BLDR_APP_RESET_DEVICE_T)
  else if cmd_id = SACI_BLDR_APP_EXIT_SACI_RUN then
    some (SIZE_IN_WORDS sizeof_SACI_PARAM_COMMON_T)
  else if cmd_id = SACI_MODE_REQ_TOOLS_CLIENT then
    some (SIZE_IN_WORDS sizeof_SACI_PARAM_COMMON_T)
  else none

/-- The single-word commands the specification lists: no-op, get-test-id, get-die-id,
get-ccfg-user-record, request-debug-auth-pwd-id, exit-saci-halt, exit-saci-shutdown,
exit-saci-run, request-tools-client-mode and reset-device. -/
def spec_single_word_commands : List Nat :=
  [SACI_MISC_NO_OPERATION, SACI_MISC_GET_TEST_ID, SACI_MISC_GET_DIE_ID,
   SACI_MISC_GET_CCFG_USER_REC, SACI_DEBUG_REQ_PWD_ID, SACI_DEBUG_EXIT_SACI_HALT,
   SACI_DEBUG_EXIT_SACI_SHUTDOWN, SACI_BLDR_APP_EXIT_SACI_RUN, SACI_MODE_REQ_TOOLS_CLIENT,
   SACI_BLDR_APP_RESET_DEVICE]

/-- A device like `willing_device` whose TXCTL register always reads TXD-full: it never takes a
command word. -/
def stuck_device : Device :=
  { willing_device with
    read := fun ap_num reg k =>
      if ap_num = DEBUGSS_SEC_AP ∧ reg = SEC_AP_TXCTL then (ERROR_OK, SACI_TXCTL_TXD_FULL)
      else willing_device.read ap_num reg k }

/-- The port operations of a flag poll that runs out of its budget: the first read, then ten
times a sleep of `check_interval` and another read. -/
def exhausted_poll_log (reg check_interval : Nat) : List PortEvent :=
  PortEvent.ap_read DEBUGSS_SEC_AP reg ::
    (List.replicate 10
      [PortEvent.alive_sleep check_interval, PortEvent.ap_read DEBUGSS_SEC_AP reg]).flatten


/-- A device like `willing_device` whose status register reads boot status `0xC0`
(`BOOTSTA_BLDR_COMPLETE`, the application is running): it is not in SACI mode. -/
def application_device : Device :=
  { willing_device with
    read := fun ap_num reg k =>
      if ap_num = DEBUGSS_CFG_AP ∧ reg = CFG_AP_DEVICE_STATUS then (ERROR_OK, 0xC000)
      else willing_device.read ap_num reg k }

/-! ### Vocabulary for the flag polls and the command send -/

/-- The value the device gave at the latest read of a register recorded in the log. -/
def last_read_value (dev : Device) (ap_num reg : Nat) (h : Host) : Nat :=
  (dev.read ap_num reg (h.log.count (PortEvent.ap_read ap_num reg) - 1)).2 % 2 ^ 32

/-- The port operations of a flag poll that slept `m` times: the first read, then `m` times a
sleep of `check_interval` and another read. -/
def poll_log (reg check_interval m : Nat) : List PortEvent :=
  PortEvent.ap_read DEBUGSS_SEC_AP reg ::
    (List.replicate m
      [PortEvent.alive_sleep check_interval, PortEvent.ap_read DEBUGSS_SEC_AP reg]).flatten

/-- Whether an event is a single-word write to the TXD register. -/
def PortEvent.is_txd_write : PortEvent → Bool
  | .ap_write ap_num reg _ => decide (ap_num = DEBUGSS_SEC_AP) && decide (reg = SEC_AP_TXD)
  | _ => false

/-- As the specification words it: the writes of the command words `1 .. L-1` to TXD, in
order. -/
def param_writes (dev : Device) (cmd : SACI_PARAM_T) (L : Nat) : List PortEvent :=
  (List.range' 1 (L - 1)).map
    (fun i => PortEvent.ap_write DEBUGSS_SEC_AP SEC_AP_TXD (cmd.words.getD i dev.uninit))

/-- As the specification words it: the port operations of sending a command of table length
`L`, where the three TX-full polls sleep `m1`, `m2` and `m3` times: poll, command-start bit,
header word; if `L > 1`, poll, TXCTL cleared, the parameter words; final poll. -/
def send_cmd_log (dev : Device) (cmd : SACI_PARAM_T) (L m1 m2 m3 : Nat) : List PortEvent :=
  poll_log SEC_AP_TXCTL 100 m1 ++
    [PortEvent.ap_write DEBUGSS_SEC_AP SEC_AP_TXCTL 2,
     PortEvent.ap_write DEBUGSS_SEC_AP SEC_AP_TXD cmd.val] ++
    (if L > 1 then
      poll_log SEC_AP_TXCTL 100 m2 ++ [PortEvent.ap_write DEBUGSS_SEC_AP SEC_AP_TXCTL 0] ++
        param_writes dev cmd L
     else []) ++
    poll_log SEC_AP_TXCTL 100 m3

/-- As the specification words it: the port operations of reading a response whose polls
sleep `ms` times: for each word, an RX-ready poll and then one read of RXD. -/
def read_response_log (ms : List Nat) : List PortEvent :=
  (ms.map (fun m =>
    poll_log SEC_AP_RXCTL 300 m ++ [PortEvent.ap_read DEBUGSS_SEC_AP SEC_AP_RXD])).flatten

/-- A device like `willing_device` whose first response announces two payload words: its
header reads `0x02000009` (erase-chip, result success, payload-word count 2) and the words
after it read `0x11` and `0x22`. -/
def payload_device : Device :=
  { willing_device with
    read := fun ap_num reg k =>
      if ap_num = DEBUGSS_SEC_AP ∧ reg = SEC_AP_RXD then
        (ERROR_OK, if k = 0 then 0x02000009 else if k = 1 then 0x11 else 0x22)
      else willing_device.read ap_num reg k }

/-- A device like `payload_device` that never presents the payload it announced: RXD-full
reads set once, for the header, and clear ever after. -/
def truncating_device : Device :=
  { payload_device with
    read := fun ap_num reg k =>
      if ap_num = DEBUGSS_SEC_AP ∧ reg = SEC_AP_RXCTL then
        (ERROR_OK, if k = 0 then SACI_RXCTL_RXD_FULL else 0)
      else payload_device.read ap_num reg k }

/-- A device like `willing_device` that never has a response: RXD-full always reads clear. -/
def silent_device : Device :=
  { willing_device with
    read := fun ap_num reg k =>
      if ap_num = DEBUGSS_SEC_AP ∧ reg = SEC_AP_RXCTL then (ERROR_OK, 0)
      else willing_device.read ap_num reg k }

/-! ### Worked inputs for the response checks of the pipelined write -/

/-- A device on which every port operation succeeds and a response is always ready, and whose
`k`-th read of RXD gives the `k`-th word of `words` (zero once the script has run out, a
header that echoes command id 0). -/
def scripted_device (words : List Nat) : Device :=
  { read := fun ap_num reg k =>
      if ap_num = DEBUGSS_SEC_AP ∧ reg = SEC_AP_RXCTL then (ERROR_OK, SACI_RXCTL_RXD_FULL)
      else if ap_num = DEBUGSS_SEC_AP ∧ reg = SEC_AP_RXD then (ERROR_OK, words.getD k 0)
      else (ERROR_OK, 0)
    write := fun _ => ERROR_OK
    uninit := 0 }

/-- Whether an event is a bulk write, the transfer of one sector. -/
def PortEvent.is_sector : PortEvent → Bool
  | .ap_bulk_write _ _ _ => true
  | _ => false

/-- The outcome of `cc_lpf3_saci_send_sector_tx` for `n` sectors of zero words after the
initiating command with sequence number `base`, on `scripted_device words`, in a fresh
transport state: the return code, the number of sectors sent and the number of words read
from RXD (`none` when the call does not return within `fuel`). -/
def send_script_result (fuel base n : Nat) (words : List Nat) : Option (Int × Nat × Nat) :=
  match cc_lpf3_saci_send_sector_tx fuel (scripted_device words)
      (List.replicate (n * MAIN_SECTOR_SIZE_WORDS) 0) (n * LPF3_MAIN_FLASH_SECTOR_SIZE)
      (pipelined_cmd base) { seq_num := 0, log := [] } with
  | Exec.ok (ret_val, h) =>
    some (ret_val, h.log.countP PortEvent.is_sector,
      h.log.count (PortEvent.ap_read DEBUGSS_SEC_AP SEC_AP_RXD))
  | Exec.error _ => none

/-- The state the body of `cc_lpf3_saci_send_sector_tx` leaves at a `break`: `ret_val` is
`ERROR_FAIL`, the response is the one just read and the port log ends with that read. -/
def SectorTx.break_with (s : SectorTx) (cmd_resp : SACI_RESP_T) (h : Host) : SectorTx :=
  { s with ret_val := ERROR_FAIL, cmd_resp := cmd_resp, host := h }

/-! ## Verification entry point (`cc_lpf3_base.c`, lines 233-250) -/

/-- The function `cc_lpf3_base_verify(bank, buffer, offset, count)`. -/
def cc_lpf3_base_verify (fuel : Nat) (dev : Device) (bank : flash_bank)
    (buffer : Option (List Byte)) (count : Nat) (h : Host) : Exec (Int × Host) :=
  if bank.base = LPF3_FLASH_BASE_CCFG ∨ bank.base = LPF3_FLASH_BASE_SCFG then
    cc_lpf3_saci_verify_ccfg fuel dev buffer h
  else if bank.base = LPF3_FLASH_BASE_MAIN then
    let count :=
      if count % LPF3_MAIN_FLASH_SECTOR_SIZE ≠ 0 then
        (count + (LPF3_MAIN_FLASH_SECTOR_SIZE - count % LPF3_MAIN_FLASH_SECTOR_SIZE)) % 2 ^ 32
      else count
    cc_lpf3_saci_verify_main fuel dev bank.base bank.size buffer count h
  else Exec.ok (ERROR_FAIL, h)

/-! ## Boot status values (`cc_lpf3_flash.h`, lines 45-97) -/

abbrev BOOTSTA_MODE_M : Nat := 0xC0
abbrev BOOTSTA_MODE_BOOT : Nat := 0x00
abbrev BOOTSTA_MODE_BLDR : Nat := 0x80
abbrev BOOTSTA_MODE_APP : Nat := 0xC0
abbrev BOOTSTA_BOOT_RESET : Nat := BOOTSTA_MODE_BOOT

/-! ### Commands seen on the port -/

/-- The header words of the commands a port log holds: the words written to TXD directly
after a write of the command-start bit to TXCTL. -/
def command_headers (log : List PortEvent) : List Nat :=
  (log.zip log.tail).filterMap (fun p =>
    match p with
    | (PortEvent.ap_write a r v, PortEvent.ap_write a2 r2 w) =>
      if a = DEBUGSS_SEC_AP ∧ r = SEC_AP_TXCTL ∧ v = SACI_TXCTRL_CMD_START ∧
          a2 = DEBUGSS_SEC_AP ∧ r2 = SEC_AP_TXD then some w
      else none
    | _ => none)

/-- The command id (bits 7:0) and the sequence number (bits 15:8) of a header word. -/
def header_id_and_seq (w : Nat) : Nat × Nat := (w &&& 0xFF, (w >>> 8) &&& 0xFF)

/-- The bank of a region of a CC27xx device that was never identified: `did` and
`flash_word_size_bytes` are zero as `calloc` left them. -/
def unidentified_bank (x : Region) : flash_bank :=
  { base := x.base, size := 0,
    driver_priv :=
      { did := 0, flash_word_size_bytes := 0,
        driver_priv := some cc_lpf3_chip_ops.cc27xx } }

/-- The return code of a verify or write call with the commands it sent: for each command the
id and the sequence number of its header (`none` when the call does not return). -/
def Exec.code_and_commands (r : Exec (Int × Host)) : Option (Int × List (Nat × Nat)) :=
  match r with
  | Exec.ok (ret_val, h) => some (ret_val, (command_headers h.log).map header_id_and_seq)
  | Exec.error _ => none

/-- An image of one sector (2048 bytes) with every byte `0xFF`. -/
def blank_image : List Byte := List.replicate 0x800 (0xFF : Byte)

/-- The commands of one programming cycle of a CC27xx device on `willing_device` in a fresh
process: chip erase, then a write of an empty image to CCFG, to SCFG and to MAIN.  For each
command sent, in order, the id and the sequence number of its header. -/
def cycle_commands : Option (List (Nat × Nat)) :=
  match cc_lpf3_base_erase 8 willing_device (cc27xx_bank Region.ccfg)
      (driver_at CC_LPF3_FLASH_STAGE_INIT) with
  | Exec.ok (_, d) =>
    match cc27xx_write_sequence 8 willing_device
        [empty_write Region.ccfg, empty_write Region.scfg, empty_write Region.main] d with
    | Exec.ok ds =>
      (ds.getLast?).map (fun d => (command_headers d.host.log).map header_id_and_seq)
    | Exec.error _ => none
  | Exec.error _ => none

/-! ### Worked inputs for the termination theorems -/

/-- A command whose header carries command id `cmd_id` (sequence number and command specific
field zero) and whose other words are zero. -/
def bare_cmd (cmd_id : Nat) : SACI_PARAM_T := SACI_PARAM_T.of_words [saci_header cmd_id 0 0]

/-- A device like `willing_device` whose write transactions fail from the 101st on. -/
def wearing_device : Device :=
  { willing_device with write := fun k => if k < 100 then ERROR_OK else ERROR_FAIL }

/-- A device like `sequenced_device 10` that presents one response and then none: RXD-full
reads set at the first read of RXCTL and clear ever after. -/
def fading_device : Device :=
  { sequenced_device 10 with
    read := fun ap_num reg k =>
      if ap_num = DEBUGSS_SEC_AP ∧ reg = SEC_AP_RXCTL then
        (ERROR_OK, if k = 0 then SACI_RXCTL_RXD_FULL else 0)
      else (sequenced_device 10).read ap_num reg k }

/-- The call `cc_lpf3_saci_send_sector_tx` for two sectors of zero words after the initiating
command with sequence number 10, on `fading_device`, in a fresh transport state. -/
def fading_write (fuel : Nat) : Exec (Int × Host) :=
  cc_lpf3_saci_send_sector_tx fuel fading_device
    (List.replicate (2 * MAIN_SECTOR_SIZE_WORDS) 0) (2 * LPF3_MAIN_FLASH_SECTOR_SIZE)
    (pipelined_cmd 10) { seq_num := 0, log := [] }

/-! ### The standard bitwise CRC-32 -/

/-- As the specification words it: the bitwise CRC-32/IEEE of a byte sequence (reflected
polynomial `0xEDB88320`, initial value `0xFFFFFFFF`, final XOR `0xFFFFFFFF`): each byte is
XORed into the low bits of the register, which is then reduced one bit at a time, eight
times. -/
def crc32_bitwise (b : List Byte) : Nat :=
  (b.foldl (fun c x => crc32_bit^[8] (c ^^^ x.val)) 0xFFFFFFFF) ^^^ 0xFFFFFFFF

/-- The ASCII bytes of `"123456789"`. -/
def check_string : List Byte := [0x31, 0x32, 0x33, 0x34, 0x35, 0x36, 0x37, 0x38, 0x39]

/-! ## Leaving SACI (`cc_lpf3_flash.c`, lines 1041-1071) -/

abbrev SACI_EXIT_SACI_HALT_TIMEOUT : Nat := 3000

/-- The `while` loop of `cc_lpf3_exit_saci_halt`; `polls` is
`exit_halt_timeout / check_interval`, the number of intervals left. -/
def exit_halt_loop (dev : Device) (check_interval : Nat) : Nat → Int → Host → Int × Host
  | 0, ret_val, h => (ret_val, h)
  | polls + 1, ret_val, h =>
    if ¬ (ret_val = BOOTSTA_APP_WAITLOOP_DBGPROBE ∨ ret_val = BOOTSTA_BLDR_WAITLOOP_DBGPROBE) then
      let h := { h with log := h.log ++ [PortEvent.alive_sleep check_interval] }
      let (bootsta, h) := cc_lpf3_check_boot_status dev h
      exit_halt_loop dev check_interval polls (bootsta : Int) h
    else (ret_val, h)

/-- The function `cc_lpf3_exit_saci_halt(bank)`. -/
def cc_lpf3_exit_saci_halt (fuel : Nat) (dev : Device) (h : Host) : Exec (Int × Host) :=
  let exit_halt_timeout := SACI_EXIT_SACI_HALT_TIMEOUT
  let check_interval := exit_halt_timeout / 10
  let (hdr, h) := cc_lpf3_update_cmd_word SACI_DEBUG_EXIT_SACI_HALT 0 h
  match cc_lpf3_saci_send_cmd fuel dev (SACI_PARAM_T.of_words [hdr]) h with
  | Exec.error f => Exec.error f
  | Exec.ok (ret_val, h) =>
    let (ret_val, h) :=
      exit_halt_loop dev check_interval (exit_halt_timeout / check_interval) ret_val h
    if ¬ (ret_val = BOOTSTA_APP_WAITLOOP_DBGPROBE ∨ ret_val = BOOTSTA_BLDR_WAITLOOP_DBGPROBE) then
      Exec.ok (SACI_EXIT_HALT_TO, h)
    else Exec.ok (ERROR_OK, h)

/-- A device like `willing_device` whose status register reads `status`. -/
def device_with_status (status : Nat) : Device :=
  { willing_device with
    read := fun ap_num reg k =>
      if ap_num = DEBUGSS_CFG_AP ∧ reg = CFG_AP_DEVICE_STATUS then (ERROR_OK, status)
      else willing_device.read ap_num reg k }

/-- The return code of `cc_lpf3_exit_saci_halt` and the number of sleeps it took, on a device
whose status register reads `status`. -/
def exit_halt_result (status : Nat) : Option (Int × Nat) :=
  match cc_lpf3_exit_saci_halt 8 (device_with_status status) { seq_num := 0, log := [] } with
  | Exec.ok (ret_val, h) => some (ret_val, h.log.count (PortEvent.alive_sleep 300))
  | Exec.error _ => none

/-! ## The verify-ccfg-sector command (`cc_lpf3_flash.h`, lines 290-302; `cc_lpf3_flash.c`,
lines 562-599) -/

/-- The fields of `SACI_PARAM_FLASH_VERIFY_CCFG_SECTOR_T`. -/
structure SACI_PARAM_FLASH_VERIFY_CCFG_SECTOR_T where
  cmd_id : Nat
  resp_seq_num : Nat
  check_exp_crc : Nat
  skip_user_rec : Nat
  reserved1 : Nat
  blank_check : Nat
  exp_boot_config_crc32 : Nat
  exp_central_crc32 : Nat
  exp_userrec_crc32 : Nat
  exp_debug_cfg_crc32 : Nat
  deriving DecidableEq, Repr

/-- The member `flash_verify_ccfg_sector` of the union `SACI_PARAM_T`: the packed structure
laid over the first five words (bit-fields from the least significant bit of the 16-bit
unit). -/
def SACI_PARAM_T.flash_verify_ccfg_sector (cmd : SACI_PARAM_T) :
    SACI_PARAM_FLASH_VERIFY_CCFG_SECTOR_T :=
  { cmd_id := cmd.val &&& 0xFF
    resp_seq_num := (cmd.val >>> 8) &&& 0xFF
    check_exp_crc := (cmd.val >>> 16) &&& 1
    skip_user_rec := (cmd.val >>> 17) &&& 1
    reserved1 := (cmd.val >>> 18) &&& 0x1FFF
    blank_check := (cmd.val >>> 31) &&& 1
    exp_boot_config_crc32 := cmd.words.getD 1 0
    exp_central_crc32 := cmd.words.getD 2 0
    exp_userrec_crc32 := cmd.words.getD 3 0
    exp_debug_cfg_crc32 := cmd.words.getD 4 0 }

/-- The command `cc_lpf3_saci_verify_ccfg` builds (lines 569-582) when the sequence counter
holds `resp_seq_num`. -/
def verify_ccfg_cmd (dev : Device) (resp_seq_num : Nat) (buffer : Option (List Byte)) :
    SACI_PARAM_T :=
  match buffer with
  | some b =>
    SACI_PARAM_T.of_words
      [saci_header SACI_FLASH_VERIFY_CCFG_SECTOR resp_seq_num 0 + 1 * 2 ^ 16 + 1 * 2 ^ 17,
       cc_lpf3_calculate_crc (Fin.ofNat dev.uninit) (some b) BOOT_CCFG_CRC_LEN,
       cc_lpf3_calculate_crc (Fin.ofNat dev.uninit) (some (b.drop CENTRAL_CCFG_START_IDX)) CENTRAL_CCFG_CRC_LEN,
       0,
       cc_lpf3_calculate_crc (Fin.ofNat dev.uninit) (some (b.drop DEBUG_CCFG_START_IDX)) DEBUG_CCFG_CRC_LEN]
  | none =>
    SACI_PARAM_T.of_words [saci_header SACI_FLASH_VERIFY_CCFG_SECTOR resp_seq_num 0 + 1 * 2 ^ 31]

/-- As the specification words it: a command exchange that succeeds if and only if the
command is sent, the response is read and its result code is success. -/
def command_exchange (fuel : Nat) (dev : Device) (cmd : SACI_PARAM_T) (h : Host) :
    Exec (Int × Host) :=
  match cc_lpf3_saci_send_cmd fuel dev cmd h with
  | Exec.error f => Exec.error f
  | Exec.ok (sent, h1) =>
    if sent ≠ ERROR_OK then Exec.ok (ERROR_FAIL, h1)
    else if (cc_lpf3_saci_read_response dev (SACI_RESP_T.uninit dev) h1).1 = ERROR_OK ∧
        (cc_lpf3_saci_read_response dev (SACI_RESP_T.uninit dev) h1).2.1.result = SCR_SUCCESS
    then Exec.ok (ERROR_OK, (cc_lpf3_saci_read_response dev (SACI_RESP_T.uninit dev) h1).2.2)
    else Exec.ok (ERROR_FAIL, (cc_lpf3_saci_read_response dev (SACI_RESP_T.uninit dev) h1).2.2)

/-- The words written one at a time to TXD that a port log holds, in order. -/
def txd_words (log : List PortEvent) : List Nat :=
  log.filterMap (fun e =>
    match e with
    | PortEvent.ap_write a r v => if a = DEBUGSS_SEC_AP ∧ r = SEC_AP_TXD then some v else none
    | _ => none)

/-! ### Vocabulary for the padded MAIN image -/

/-- As the specification words it: the smallest multiple of the sector size (2048) that is at
least `c`. -/
def padded_count (c : Nat) : Nat :=
  (c + (LPF3_MAIN_FLASH_SECTOR_SIZE - 1)) / LPF3_MAIN_FLASH_SECTOR_SIZE *
    LPF3_MAIN_FLASH_SECTOR_SIZE

/-- As the specification words it: the image padded to a whole number of sectors with `0xFF`
fill bytes. -/
def padded_image (b : List Byte) : List Byte :=
  b ++ List.replicate (padded_count b.length - b.length) (0xFF : Byte)

/-- The data of the sectors a port log holds, in order: the word lists of the bulk writes to
TXD. -/
def streamed_sectors (log : List PortEvent) : List (List Nat) :=
  log.filterMap (fun e =>
    match e with
    | PortEvent.ap_bulk_write a r data =>
      if a = DEBUGSS_SEC_AP ∧ r = SEC_AP_TXD then some data else none
    | _ => none)

/-- As the specification words it: sector `i` of an image, its 512 words `512 i .. 512 i + 511`
read little-endian. -/
def image_sector (image : List Byte) (i : Nat) : List Nat :=
  ((le_words image).drop (i * MAIN_SECTOR_SIZE_WORDS)).take MAIN_SECTOR_SIZE_WORDS

/-- An image of 3000 zero bytes. -/
def short_image : List Byte := List.replicate 3000 (0 : Byte)

/-! ### A pipelined write whose first sector fails -/

/-- A device during a pipelined write of three sectors after sequence number 10, on which the
first sector fails: its response to the first sector reports the flash hardware error
(`0x84`), its response to the second sector reports success with sequence number 11, and no
further response follows (RXD-full reads set at the first two reads of RXCTL and clear ever
after).  Every port operation succeeds. -/
def faulting_device : Device :=
  { read := fun ap_num reg k =>
      if ap_num = DEBUGSS_SEC_AP ∧ reg = SEC_AP_RXCTL then
        (ERROR_OK, if k < 2 then SACI_RXCTL_RXD_FULL else 0)
      else if ap_num = DEBUGSS_SEC_AP ∧ reg = SEC_AP_RXD then
        (ERROR_OK,
          if k = 0 then sector_response 10 + SCR_FLASH_FSM_ERROR * 2 ^ 16
          else sector_response 11)
      else (ERROR_OK, 0)
    write := fun _ => ERROR_OK
    uninit := 0 }

/-- The state in which the sector loop of `cc_lpf3_saci_send_sector_tx` ends for three sectors
of zero words after the initiating command with sequence number 10, on `faulting_device`, in
a fresh transport state. -/
def faulting_break_state : SectorTx :=
  sector_loop faulting_device (List.replicate (3 * MAIN_SECTOR_SIZE_WORDS) 0) 10 3 0
    { ret_val := ERROR_OK, last_resp_seq_num := 9,
      cmd_resp := SACI_RESP_T.uninit faulting_device,
      host := { seq_num := 0, log := [] } }

/-- The call `cc_lpf3_saci_send_sector_tx` for three sectors of zero words after the
initiating command with sequence number 10, on `faulting_device`, in a fresh transport
state. -/
def faulting_write (fuel : Nat) : Exec (Int × Host) :=
  cc_lpf3_saci_send_sector_tx fuel faulting_device
    (List.replicate (3 * MAIN_SECTOR_SIZE_WORDS) 0) (3 * LPF3_MAIN_FLASH_SECTOR_SIZE)
    (pipelined_cmd 10) { seq_num := 0, log := [] }
/-! ## Theorems: checksum engine -/

theorem lut_eq_table : ∀ i : Fin 16, crc_rand32_lut.getD i.val 0 = spec_nibble_table i.val := by
  decide

theorem lut_eq_table_nat (i : Nat) (h : i < 16) :
    crc_rand32_lut.getD i 0 = spec_nibble_table i := lut_eq_table ⟨i, h⟩

theorem and15_lt (x : Nat) : x &&& 15 < 16 := Nat.and_lt_two_pow x (n := 4) (by decide)

theorem nib_index (acc n : Nat) (h : n < 16) : (acc &&& 15) ^^^ n = (acc ^^^ n) &&& 15 := by
  have h1 : n &&& 15 = n := by
    have := Nat.and_pow_two_sub_one_eq_mod n 4
    simpa [Nat.mod_eq_of_lt h] using this
  rw [Nat.and_xor_distrib_right, h1]

theorem crc_byte_eq (acc : Nat) (d : Byte) :
    crc_byte acc d.val = spec_nibble_step (spec_nibble_step acc (d.val % 16)) (d.val / 16) := by
  have hlo : d.val &&& 15 = d.val % 16 := Nat.and_pow_two_sub_one_eq_mod d.val 4
  have hhi : d.val >>> 4 = d.val / 16 := Nat.shiftRight_eq_div_pow d.val 4
  have hlo_lt : d.val % 16 < 16 := Nat.mod_lt _ (by decide)
  have hhi_lt : d.val / 16 < 16 := by have := d.isLt; omega
  simp only [crc_byte, spec_nibble_step, Nat.reduceAnd] at *
  rw [hlo, hhi, nib_index acc _ hlo_lt, lut_eq_table_nat _ (and15_lt _),
    nib_index _ _ hhi_lt, lut_eq_table_nat _ (and15_lt _)]

theorem crc_loop_eq (beyond : Byte) (b : List Byte) : ∀ acc : Nat,
    crc_loop beyond acc b b.length =
      b.foldl (fun acc x => spec_nibble_step (spec_nibble_step acc (x.val % 16)) (x.val / 16))
        acc := by
  induction b with
  | nil => intro acc; rfl
  | cons d rest ih =>
    intro acc
    simp only [List.length_cons, crc_loop, List.foldl_cons]
    rw [ih, crc_byte_eq]

/-- C1: for every byte sequence `b`, whatever the storage after it holds,
`cc_lpf3_calculate_crc` over the `b.length` bytes of `b` equals the reference checksum (seed `0xFFFFFFFF`, per byte the low-nibble then the high-nibble
reduction `acc = (acc >> 4) XOR table[(acc XOR nibble) & 0xF]`, final XOR `0xFFFFFFFF`); every
entry `i` of the driver's 16-entry table is entry `16 * i` of the standard CRC-32/IEEE table;
and the empty input yields `0x00000000`. -/
theorem calculate_crc_matches_reference :
    (∀ (beyond : Byte) (b : List Byte),
      cc_lpf3_calculate_crc beyond (some b) b.length = spec_checksum b) ∧
    (∀ i : Fin 16, crc_rand32_lut.getD i.val 0 = crc32_ieee_table (16 * i.val)) ∧
    (∀ beyond : Byte, cc_lpf3_calculate_crc beyond (some []) 0 = 0x00000000) := by
  refine ⟨?_, lut_eq_table, fun _ => by simp [cc_lpf3_calculate_crc, crc_loop]⟩
  intro beyond b
  simp only [cc_lpf3_calculate_crc, spec_checksum, crc_loop_eq]

/-! ## Theorems: flash-operation state machines -/

/-- C2: in the two-region family, for every stage among Init, Erase, Ccfg and Main and every
operation, `cc23xx_check_allowed_flash_op` answers and moves the stage exactly as the
specification's transition table says (a grant into Complete ends at Init, a rejected request
leaves the stage), and touches no other variable.  Hence Init, ChipErase, ProgCcfg, ProgMain is
granted throughout and ends at Init, ProgMain from Init is rejected, and ChipErase from Ccfg is
rejected with the stage still Ccfg. -/
theorem cc23xx_follows_transition_table (s : Statics) :
    (∀ (op : CC_LPF3_FLASH_OP_T) (stage : CC_LPF3_FLASH_STAGE_T),
      stage ∈ [CC_LPF3_FLASH_STAGE_INIT, CC_LPF3_FLASH_STAGE_ERASE, CC_LPF3_FLASH_STAGE_CCFG,
        CC_LPF3_FLASH_STAGE_MAIN] →
      cc23xx_check_allowed_flash_op op { s with cc23xx_flash_stage := stage } =
        ((spec_two_region_step stage op).1,
          { s with cc23xx_flash_stage := (spec_two_region_step stage op).2 })) ∧
    check_sequence cc23xx_check_allowed_flash_op
        [CC_LPF3_FLASH_OP_CHIP_ERASE, CC_LPF3_FLASH_OP_PROG_CCFG, CC_LPF3_FLASH_OP_PROG_MAIN]
        { s with cc23xx_flash_stage := CC_LPF3_FLASH_STAGE_INIT } =
      ([true, true, true], { s with cc23xx_flash_stage := CC_LPF3_FLASH_STAGE_INIT }) ∧
    cc23xx_check_allowed_flash_op CC_LPF3_FLASH_OP_PROG_MAIN
        { s with cc23xx_flash_stage := CC_LPF3_FLASH_STAGE_INIT } =
      (false, { s with cc23xx_flash_stage := CC_LPF3_FLASH_STAGE_INIT }) ∧
    cc23xx_check_allowed_flash_op CC_LPF3_FLASH_OP_CHIP_ERASE
        { s with cc23xx_flash_stage := CC_LPF3_FLASH_STAGE_CCFG } =
      (false, { s with cc23xx_flash_stage := CC_LPF3_FLASH_STAGE_CCFG }) := by
  refine ⟨?_, rfl, rfl, rfl⟩
  intro op stage hstage
  simp only [List.mem_cons, List.mem_singleton, List.not_mem_nil, or_false] at hstage
  rcases hstage with h | h | h | h <;> subst h <;> cases op <;> rfl

/-- C3: in the three-region family, from Erase each program operation is granted and moves
the stage to the stage of its region; from the stage of a region `x`, the program operation of
a different region `y` is granted and ends at Init (through Complete) when the completion flag
of the third region is set and at the stage of `y` otherwise; the program operation of `x`
itself is rejected and leaves the stage.  No other variable changes. -/
theorem cc27xx_program_transitions (s : Statics) (x y : Region) (hxy : x ≠ y) :
    cc27xx_check_allowed_flash_op x.prog_op
        { s with cc27xx_flash_stage := CC_LPF3_FLASH_STAGE_ERASE } =
      (true, { s with cc27xx_flash_stage := x.stage }) ∧
    cc27xx_stage_switch x.stage s.b_ccfg s.b_scfg s.b_main y.prog_op =
      (true, if (Region.third x y).flag s then CC_LPF3_FLASH_STAGE_COMPLETE else y.stage) ∧
    cc27xx_check_allowed_flash_op y.prog_op { s with cc27xx_flash_stage := x.stage } =
      (true, { s with cc27xx_flash_stage :=
        if (Region.third x y).flag s then CC_LPF3_FLASH_STAGE_INIT else y.stage }) ∧
    cc27xx_check_allowed_flash_op x.prog_op { s with cc27xx_flash_stage := x.stage } =
      (false, { s with cc27xx_flash_stage := x.stage }) := by
  obtain ⟨s23, s27, bc, bs, bm⟩ := s
  cases x <;> cases y <;> first | exact absurd rfl hxy | skip
  all_goals
    cases bc <;> cases bs <;> cases bm <;> simp [cc27xx_check_allowed_flash_op, cc27xx_stage_switch, Region.prog_op, Region.stage, Region.flag, Region.third]

/-- Witness of C3: the regions CCFG and MAIN, all completion flags clear. -/
theorem cc27xx_program_transitions_witness :
    Region.ccfg ≠ Region.main ∧
    cc27xx_check_allowed_flash_op CC_LPF3_FLASH_OP_PROG_MAIN
        { Statics.initial with cc27xx_flash_stage := CC_LPF3_FLASH_STAGE_CCFG } =
      (true, { Statics.initial with cc27xx_flash_stage := CC_LPF3_FLASH_STAGE_MAIN }) :=
  ⟨by decide, (cc27xx_program_transitions Statics.initial Region.ccfg Region.main (by decide)).2.2.1⟩

/-- C8: for both families, for every stage value and every operation, the stage after
`check_allowed_flash_op` returns is never Complete, and whenever the transition taken leads to
Complete the stage is Init on return. -/
theorem stage_never_complete_on_return (s : Statics) (op : CC_LPF3_FLASH_OP_T) :
    (cc23xx_check_allowed_flash_op op s).2.cc23xx_flash_stage ≠ CC_LPF3_FLASH_STAGE_COMPLETE ∧
    (cc27xx_check_allowed_flash_op op s).2.cc27xx_flash_stage ≠ CC_LPF3_FLASH_STAGE_COMPLETE ∧
    ((cc23xx_stage_switch s.cc23xx_flash_stage op).2 = CC_LPF3_FLASH_STAGE_COMPLETE →
      (cc23xx_check_allowed_flash_op op s).2.cc23xx_flash_stage = CC_LPF3_FLASH_STAGE_INIT) ∧
    ((cc27xx_stage_switch s.cc27xx_flash_stage s.b_ccfg s.b_scfg s.b_main op).2
        = CC_LPF3_FLASH_STAGE_COMPLETE →
      (cc27xx_check_allowed_flash_op op s).2.cc27xx_flash_stage = CC_LPF3_FLASH_STAGE_INIT) := by
  refine ⟨?_, ?_, ?_, ?_⟩
  · simp only [cc23xx_check_allowed_flash_op]
    split_ifs with h <;> simp_all
  · simp only [cc27xx_check_allowed_flash_op]
    split_ifs with h <;> simp_all
  · intro h
    simp [cc23xx_check_allowed_flash_op, h]
  · intro h
    simp [cc27xx_check_allowed_flash_op, h]

/-! ## Theorems: flash program engine -/

theorem check_allowed_keeps_flags (ops : cc_lpf3_chip_ops) (op : CC_LPF3_FLASH_OP_T)
    (s : Statics) :
    (ops.check_allowed_flash_op op s).2.b_ccfg = s.b_ccfg ∧
    (ops.check_allowed_flash_op op s).2.b_scfg = s.b_scfg ∧
    (ops.check_allowed_flash_op op s).2.b_main = s.b_main := by
  cases ops <;> exact ⟨rfl, rfl, rfl⟩

theorem base_write_checks_bank (fuel : Nat) (dev : Device) (bank bank' : flash_bank)
    (offset : Nat) (h h' : Host) (c : Option Int)
    (hc : cc_lpf3_base_write_checks fuel dev bank offset h = Exec.ok (c, bank', h')) :
    bank'.base = bank.base ∧ bank'.size = bank.size ∧
      bank'.driver_priv.driver_priv = bank.driver_priv.driver_priv := by
  have key : ∀ r : Int × flash_bank × Host, cc_lpf3_check_device_info dev bank h = r →
      r.2.1.base = bank.base ∧ r.2.1.size = bank.size ∧
        r.2.1.driver_priv.driver_priv = bank.driver_priv.driver_priv := by
    intro r hr
    subst hr
    unfold cc_lpf3_check_device_info
    simp only []
    split_ifs <;> exact ⟨rfl, rfl, rfl⟩
  unfold cc_lpf3_base_write_checks at hc
  generalize hinfo : cc_lpf3_check_device_info dev bank h = r at hc
  have hk := key r hinfo
  obtain ⟨ret, b1, h1⟩ := r
  simp only at hc hk
  by_cases h0 : ERROR_OK ≠ ret
  · rw [if_pos h0] at hc; cases hc; exact hk
  · rw [if_neg h0] at hc
    generalize cc_lpf3_prepare_write fuel dev h1 = p at hc
    rcases p with ⟨ret2, h2⟩ | f
    · simp only at hc
      split_ifs at hc <;> cases hc <;> exact hk
    · cases hc

theorem program_block_skip (ops : cc_lpf3_chip_ops) (op : CC_LPF3_FLASH_OP_T)
    (write : Host → Exec (Int × Host)) (d : Driver) :
    program_block ops false op write d = Exec.ok d := rfl

theorem program_block_success (ops : cc_lpf3_chip_ops) (op : CC_LPF3_FLASH_OP_T)
    (write : Host → Exec (Int × Host)) (d : Driver) (h' : Host)
    (hw : write d.host = Exec.ok (ERROR_OK, h')) :
    ∃ h'', program_block ops true op write d =
      Exec.ok { statics := (ops.check_allowed_flash_op op d.statics).2, host := h'' } := by
  unfold program_block
  simp only [if_true]
  generalize ops.check_allowed_flash_op op d.statics = c
  obtain ⟨allowed, st⟩ := c
  cases allowed
  · exact ⟨d.host, by simp⟩
  · exact ⟨h', by simp [hw]⟩

theorem cc27xx_write_of_success (fuel : Nat) (dev : Device) (r : WriteReq) (x : Region)
    (hr : r.is_for x) (d : Driver) (hok : region_write_succeeds fuel dev r x d.host = true) :
    ∃ bank' h', cc27xx_write fuel dev r.bank r.buffer r.offset r.count d =
      Exec.ok (ERROR_OK, bank',
        { statics := x.set_flag (cc27xx_check_allowed_flash_op x.prog_op d.statics).2,
          host := h' }) := by
  unfold region_write_succeeds at hok
  generalize hck : cc_lpf3_base_write_checks fuel dev r.bank r.offset d.host = ck at hok
  rcases ck with ⟨c, bank', h1⟩ | f
  swap
  · simp at hok
  cases c with
  | some code => simp at hok
  | none =>
    obtain ⟨hbase, _, hops⟩ := base_write_checks_bank fuel dev r.bank bank' r.offset d.host h1 none hck
    rw [hr.1] at hbase
    rw [hr.2] at hops
    simp only at hok
    generalize hwr : x.write fuel dev bank' r.buffer r.count h1 = w at hok
    rcases w with ⟨ret, h2⟩ | f
    swap
    · simp at hok
    simp only [decide_eq_true_eq] at hok
    subst hok
    unfold cc27xx_write cc_lpf3_base_write
    rw [hck]
    simp only [hops]
    cases x
    · have hb1 : decide (bank'.base = LPF3_FLASH_BASE_CCFG) = true := by simp [hbase, Region.base]
      have hb2 : decide (bank'.base = LPF3_FLASH_BASE_SCFG) = false := by simp [hbase, Region.base]
      have hb3 : decide (bank'.base = LPF3_FLASH_BASE_MAIN) = false := by simp [hbase, Region.base]
      rw [hb1, hb2, hb3]
      obtain ⟨h3, hpb⟩ := program_block_success cc_lpf3_chip_ops.cc27xx CC_LPF3_FLASH_OP_PROG_CCFG
        (cc_lpf3_write_ccfg fuel dev r.buffer r.count) { d with host := h1 } h2 hwr
      rw [hpb]
      simp only [program_block_skip]
      refine ⟨bank', h3, ?_⟩
      simp [hbase, Region.base, Region.set_flag, Region.prog_op,
        cc_lpf3_chip_ops.check_allowed_flash_op]
    · have hb1 : decide (bank'.base = LPF3_FLASH_BASE_CCFG) = false := by simp [hbase, Region.base]
      have hb2 : decide (bank'.base = LPF3_FLASH_BASE_SCFG) = true := by simp [hbase, Region.base]
      have hb3 : decide (bank'.base = LPF3_FLASH_BASE_MAIN) = false := by simp [hbase, Region.base]
      rw [hb1, hb2, hb3]
      obtain ⟨h3, hpb⟩ := program_block_success cc_lpf3_chip_ops.cc27xx CC_LPF3_FLASH_OP_PROG_SCFG
        (cc_lpf3_write_scfg fuel dev r.buffer r.count) { d with host := h1 } h2 hwr
      simp only [program_block_skip]
      rw [hpb]
      refine ⟨bank', h3, ?_⟩
      simp [hbase, Region.base, Region.set_flag, Region.prog_op,
        cc_lpf3_chip_ops.check_allowed_flash_op]
    · have hb1 : decide (bank'.base = LPF3_FLASH_BASE_CCFG) = false := by simp [hbase, Region.base]
      have hb2 : decide (bank'.base = LPF3_FLASH_BASE_SCFG) = false := by simp [hbase, Region.base]
      have hb3 : decide (bank'.base = LPF3_FLASH_BASE_MAIN) = true := by simp [hbase, Region.base]
      rw [hb1, hb2, hb3]
      obtain ⟨h3, hpb⟩ := program_block_success cc_lpf3_chip_ops.cc27xx CC_LPF3_FLASH_OP_PROG_MAIN
        (cc_lpf3_write_main fuel dev bank'.base bank'.size r.buffer r.count)
        { d with host := h1 } h2 hwr
      simp only [program_block_skip]
      rw [hpb]
      refine ⟨bank', h3, ?_⟩
      simp [hbase, Region.base, Region.set_flag, Region.prog_op,
        cc_lpf3_chip_ops.check_allowed_flash_op]

theorem three_writes_statics (s : Statics) (x y z : Region) (hxy : x ≠ y) (hxz : x ≠ z)
    (hyz : y ≠ z) (hstage : s.cc27xx_flash_stage = CC_LPF3_FLASH_STAGE_ERASE)
    (hflags : s.b_ccfg = false ∧ s.b_scfg = false ∧ s.b_main = false) :
    let s1 := x.set_flag (cc27xx_check_allowed_flash_op x.prog_op s).2
    let s2 := y.set_flag (cc27xx_check_allowed_flash_op y.prog_op s1).2
    let s3 := z.set_flag (cc27xx_check_allowed_flash_op z.prog_op s2).2
    (cc27xx_check_allowed_flash_op x.prog_op s).1 = true ∧
    s1.cc27xx_flash_stage = x.stage ∧
    (cc27xx_check_allowed_flash_op y.prog_op s1).1 = true ∧
    s2.cc27xx_flash_stage = y.stage ∧
    (cc27xx_check_allowed_flash_op z.prog_op s2).1 = true ∧
    (cc27xx_stage_switch s2.cc27xx_flash_stage s2.b_ccfg s2.b_scfg s2.b_main z.prog_op).2
      = CC_LPF3_FLASH_STAGE_COMPLETE ∧
    s3.cc27xx_flash_stage = CC_LPF3_FLASH_STAGE_INIT := by
  obtain ⟨s23, s27, bc, bs, bm⟩ := s
  obtain ⟨h1, h2, h3⟩ := hflags
  simp only at hstage h1 h2 h3
  subst hstage h1 h2 h3
  cases x <;> cases y <;> cases z <;> first | exact absurd rfl hxy | exact absurd rfl hxz | exact absurd rfl hyz | exact ⟨rfl, rfl, rfl, rfl, rfl, rfl, rfl⟩

/-- C4: in the three-region family, starting at stage Erase with the three completion flags
clear, for every order `x`, `y`, `z` of the three regions, when the three `cc27xx_write` calls
each get their region written successfully, the calls return, each write is granted by the
state machine (the stage moves to the stage of `x`, then of `y`), and the third write takes
the transition to Complete, so that the stage is Init on return. -/
theorem three_regions_any_order_reach_complete (fuel : Nat) (dev : Device) (x y z : Region)
    (hxy : x ≠ y) (hxz : x ≠ z) (hyz : y ≠ z) (rx ry rz : WriteReq)
    (hx : rx.is_for x) (hy : ry.is_for y) (hz : rz.is_for z) (d0 : Driver)
    (hstage : d0.statics.cc27xx_flash_stage = CC_LPF3_FLASH_STAGE_ERASE)
    (hflags : d0.statics.b_ccfg = false ∧ d0.statics.b_scfg = false ∧ d0.statics.b_main = false)
    (hok : writes_succeed fuel dev [(rx, x), (ry, y), (rz, z)] d0 = true) :
    ∃ d1 d2 d3 : Driver,
      cc27xx_write_sequence fuel dev [rx, ry, rz] d0 = Exec.ok [d1, d2, d3] ∧
      (cc27xx_check_allowed_flash_op x.prog_op d0.statics).1 = true ∧
      d1.statics.cc27xx_flash_stage = x.stage ∧
      (cc27xx_check_allowed_flash_op y.prog_op d1.statics).1 = true ∧
      d2.statics.cc27xx_flash_stage = y.stage ∧
      (cc27xx_check_allowed_flash_op z.prog_op d2.statics).1 = true ∧
      (cc27xx_stage_switch d2.statics.cc27xx_flash_stage d2.statics.b_ccfg d2.statics.b_scfg
        d2.statics.b_main z.prog_op).2 = CC_LPF3_FLASH_STAGE_COMPLETE ∧
      d3.statics.cc27xx_flash_stage = CC_LPF3_FLASH_STAGE_INIT := by
  simp only [writes_succeed, Bool.and_eq_true] at hok
  obtain ⟨hok1, hok⟩ := hok
  obtain ⟨b1, h1, e1⟩ := cc27xx_write_of_success fuel dev rx x hx d0 hok1
  rw [e1] at hok
  simp only [Bool.and_eq_true] at hok
  obtain ⟨hok2, hok⟩ := hok
  obtain ⟨b2, h2, e2⟩ := cc27xx_write_of_success fuel dev ry y hy
    { statics := x.set_flag (cc27xx_check_allowed_flash_op x.prog_op d0.statics).2, host := h1 }
    hok2
  rw [e2] at hok
  simp only [Bool.and_eq_true] at hok
  obtain ⟨hok3, -⟩ := hok
  obtain ⟨b3, h3, e3⟩ := cc27xx_write_of_success fuel dev rz z hz
    { statics := y.set_flag (cc27xx_check_allowed_flash_op y.prog_op
        (x.set_flag (cc27xx_check_allowed_flash_op x.prog_op d0.statics).2)).2, host := h2 }
    hok3
  refine ⟨{ statics := x.set_flag (cc27xx_check_allowed_flash_op x.prog_op d0.statics).2,
             host := h1 },
    { statics := y.set_flag (cc27xx_check_allowed_flash_op y.prog_op
        (x.set_flag (cc27xx_check_allowed_flash_op x.prog_op d0.statics).2)).2, host := h2 },
    { statics := z.set_flag (cc27xx_check_allowed_flash_op z.prog_op
        (y.set_flag (cc27xx_check_allowed_flash_op y.prog_op
          (x.set_flag (cc27xx_check_allowed_flash_op x.prog_op d0.statics).2)).2)).2,
      host := h3 },
    ?_, three_writes_statics d0.statics x y z hxy hxz hyz hstage hflags⟩
  simp only [cc27xx_write_sequence, e1, e2, e3]

/-- Witness of C4: the two orders the claim names, CCFG, SCFG, MAIN and MAIN, CCFG, SCFG, each
region written with an empty image on a device that answers every command with success. -/
theorem three_regions_any_order_reach_complete_witness :
    (∃ d1 d2 d3 : Driver,
      cc27xx_write_sequence 8 willing_device
          [empty_write Region.ccfg, empty_write Region.scfg, empty_write Region.main]
          (driver_at CC_LPF3_FLASH_STAGE_ERASE) = Exec.ok [d1, d2, d3] ∧
      (cc27xx_check_allowed_flash_op CC_LPF3_FLASH_OP_PROG_CCFG
        (driver_at CC_LPF3_FLASH_STAGE_ERASE).statics).1 = true ∧
      d1.statics.cc27xx_flash_stage = CC_LPF3_FLASH_STAGE_CCFG ∧
      (cc27xx_check_allowed_flash_op CC_LPF3_FLASH_OP_PROG_SCFG d1.statics).1 = true ∧
      d2.statics.cc27xx_flash_stage = CC_LPF3_FLASH_STAGE_SCFG ∧
      (cc27xx_check_allowed_flash_op CC_LPF3_FLASH_OP_PROG_MAIN d2.statics).1 = true ∧
      (cc27xx_stage_switch d2.statics.cc27xx_flash_stage d2.statics.b_ccfg d2.statics.b_scfg
        d2.statics.b_main CC_LPF3_FLASH_OP_PROG_MAIN).2 = CC_LPF3_FLASH_STAGE_COMPLETE ∧
      d3.statics.cc27xx_flash_stage = CC_LPF3_FLASH_STAGE_INIT) ∧
    (∃ d1 d2 d3 : Driver,
      cc27xx_write_sequence 8 willing_device
          [empty_write Region.main, empty_write Region.ccfg, empty_write Region.scfg]
          (driver_at CC_LPF3_FLASH_STAGE_ERASE) = Exec.ok [d1, d2, d3] ∧
      (cc27xx_check_allowed_flash_op CC_LPF3_FLASH_OP_PROG_MAIN
        (driver_at CC_LPF3_FLASH_STAGE_ERASE).statics).1 = true ∧
      d1.statics.cc27xx_flash_stage = CC_LPF3_FLASH_STAGE_MAIN ∧
      (cc27xx_check_allowed_flash_op CC_LPF3_FLASH_OP_PROG_CCFG d1.statics).1 = true ∧
      d2.statics.cc27xx_flash_stage = CC_LPF3_FLASH_STAGE_CCFG ∧
      (cc27xx_check_allowed_flash_op CC_LPF3_FLASH_OP_PROG_SCFG d2.statics).1 = true ∧
      (cc27xx_stage_switch d2.statics.cc27xx_flash_stage d2.statics.b_ccfg d2.statics.b_scfg
        d2.statics.b_main CC_LPF3_FLASH_OP_PROG_SCFG).2 = CC_LPF3_FLASH_STAGE_COMPLETE ∧
      d3.statics.cc27xx_flash_stage = CC_LPF3_FLASH_STAGE_INIT) :=
  ⟨three_regions_any_order_reach_complete 8 willing_device Region.ccfg Region.scfg Region.main
      (by decide) (by decide) (by decide)
      (empty_write Region.ccfg) (empty_write Region.scfg) (empty_write Region.main)
      (by decide) (by decide) (by decide) (driver_at CC_LPF3_FLASH_STAGE_ERASE) rfl
      ⟨rfl, rfl, rfl⟩ (by decide),
    three_regions_any_order_reach_complete 8 willing_device Region.main Region.ccfg Region.scfg
      (by decide) (by decide) (by decide)
      (empty_write Region.main) (empty_write Region.ccfg) (empty_write Region.scfg)
      (by decide) (by decide) (by decide) (driver_at CC_LPF3_FLASH_STAGE_ERASE) rfl
      ⟨rfl, rfl, rfl⟩ (by decide)⟩

theorem region_pending_step (z x : Region) (hxz : x ≠ z) (s : Statics)
    (hs : region_pending z s) :
    region_pending z (x.set_flag (cc27xx_check_allowed_flash_op x.prog_op s).2) := by
  obtain ⟨s23, s27, bc, bs, bm⟩ := s
  obtain ⟨h1, h2, h3, h4⟩ := hs
  cases z <;> cases x <;> first | exact absurd rfl hxz | skip
  all_goals
    simp only [Region.flag, Region.stage] at h1 h2 h3 h4
    cases s27 <;> first | exact absurd rfl h1 | exact absurd rfl h2 | exact absurd rfl h3 | skip
  all_goals
    cases bc <;> cases bs <;> cases bm <;>
      simp [region_pending, cc27xx_check_allowed_flash_op, cc27xx_stage_switch, Region.set_flag, Region.prog_op, Region.flag, Region.stage] at h4 ⊢

theorem region_pending_sequence (fuel : Nat) (dev : Device) (z : Region) :
    ∀ (reqs : List (WriteReq × Region)) (d0 : Driver),
      (∀ p ∈ reqs, p.1.is_for p.2 ∧ p.2 ≠ z) → region_pending z d0.statics →
      writes_succeed fuel dev reqs d0 = true →
      ∃ ds : List Driver,
        cc27xx_write_sequence fuel dev (reqs.map Prod.fst) d0 = Exec.ok ds ∧
        ds.length = reqs.length ∧ ∀ d ∈ ds, region_pending z d.statics := by
  intro reqs
  induction reqs with
  | nil => intro d0 _ _ _; exact ⟨[], rfl, rfl, by simp⟩
  | cons p rest ih =>
    intro d0 hreqs hinv hok
    obtain ⟨r, x⟩ := p
    obtain ⟨hfor, hxz⟩ := hreqs (r, x) (List.mem_cons_self _ _)
    simp only [writes_succeed, Bool.and_eq_true] at hok
    obtain ⟨hok1, hok⟩ := hok
    obtain ⟨b1, h1, e1⟩ := cc27xx_write_of_success fuel dev r x hfor d0 hok1
    rw [e1] at hok
    simp only at hok
    have hinv1 := region_pending_step z x hxz d0.statics hinv
    obtain ⟨ds, hds, hlen, hall⟩ := ih
      { statics := x.set_flag (cc27xx_check_allowed_flash_op x.prog_op d0.statics).2, host := h1 }
      (fun q hq => hreqs q (List.mem_cons_of_mem _ hq)) hinv1 hok
    refine ⟨{ statics := x.set_flag (cc27xx_check_allowed_flash_op x.prog_op d0.statics).2,
              host := h1 } :: ds, ?_, ?_, ?_⟩
    · simp only [List.map_cons, cc27xx_write_sequence, e1, hds]
    · simp [hlen]
    · intro d hd
      rcases List.mem_cons.mp hd with h | h
      · subst h; exact hinv1
      · exact hall d h

/-- C5: in the three-region family, starting at stage Erase with the three completion flags
clear, a sequence of `cc27xx_write` calls that get their regions written successfully and none
of which is for region `z` (the writes touch only the other two regions) returns, and after
every one of the calls the stage is neither Init nor Complete: the stage never returns to
Init through those writes, and the completion flag of `z` stays clear. -/
theorem two_regions_never_reach_complete (fuel : Nat) (dev : Device) (z : Region)
    (reqs : List (WriteReq × Region)) (hreqs : ∀ p ∈ reqs, p.1.is_for p.2 ∧ p.2 ≠ z)
    (d0 : Driver) (hstage : d0.statics.cc27xx_flash_stage = CC_LPF3_FLASH_STAGE_ERASE)
    (hflags : d0.statics.b_ccfg = false ∧ d0.statics.b_scfg = false ∧ d0.statics.b_main = false)
    (hok : writes_succeed fuel dev reqs d0 = true) :
    ∃ ds : List Driver,
      cc27xx_write_sequence fuel dev (reqs.map Prod.fst) d0 = Exec.ok ds ∧
      ds.length = reqs.length ∧
      ∀ d ∈ ds, d.statics.cc27xx_flash_stage ≠ CC_LPF3_FLASH_STAGE_INIT ∧
        d.statics.cc27xx_flash_stage ≠ CC_LPF3_FLASH_STAGE_COMPLETE ∧ z.flag d.statics = false := by
  have hinv : region_pending z d0.statics := by
    refine ⟨by rw [hstage]; decide, by rw [hstage]; decide, ?_, ?_⟩
    · rw [hstage]; cases z <;> decide
    · obtain ⟨h1, h2, h3⟩ := hflags
      cases z <;> simp [Region.flag, h1, h2, h3]
  obtain ⟨ds, hds, hlen, hall⟩ := region_pending_sequence fuel dev z reqs d0 hreqs hinv hok
  exact ⟨ds, hds, hlen, fun d hd => ⟨(hall d hd).1, (hall d hd).2.1, (hall d hd).2.2.2⟩⟩

/-- Witness of C5: CCFG, MAIN, CCFG, MAIN written on a device that answers every command with
success; SCFG is never written. -/
theorem two_regions_never_reach_complete_witness :
    ∃ ds : List Driver,
      cc27xx_write_sequence 8 willing_device
          [empty_write Region.ccfg, empty_write Region.main, empty_write Region.ccfg,
            empty_write Region.main]
          (driver_at CC_LPF3_FLASH_STAGE_ERASE) = Exec.ok ds ∧
      ds.length = 4 ∧
      ∀ d ∈ ds, d.statics.cc27xx_flash_stage ≠ CC_LPF3_FLASH_STAGE_INIT ∧
        d.statics.cc27xx_flash_stage ≠ CC_LPF3_FLASH_STAGE_COMPLETE ∧
        Region.scfg.flag d.statics = false :=
  two_regions_never_reach_complete 8 willing_device Region.scfg
    [(empty_write Region.ccfg, Region.ccfg), (empty_write Region.main, Region.main),
      (empty_write Region.ccfg, Region.ccfg), (empty_write Region.main, Region.main)]
    (by decide) (driver_at CC_LPF3_FLASH_STAGE_ERASE) rfl ⟨rfl, rfl, rfl⟩ (by decide)

/-- Counterexample to C6 as stated: on a CC27xx device whose three completion flags are set
(all three regions were programmed, the stage is back at Init), a chip erase is granted, the
erase command is sent and answered with success, `cc_lpf3_base_erase` returns `ERROR_OK` with
the stage at Erase, and the three flags are still set. -/
theorem chip_erase_leaves_flags_set :
    cc_lpf3_base_erase 8 willing_device (cc27xx_bank Region.main) driver_after_full_cycle =
      Exec.ok (ERROR_OK,
        { statics :=
            { cc23xx_flash_stage := CC_LPF3_FLASH_STAGE_INIT
              cc27xx_flash_stage := CC_LPF3_FLASH_STAGE_ERASE
              b_ccfg := true, b_scfg := true, b_main := true },
          host := { seq_num := 1, log := erase_log } }) := by
  decide

/-- C6 (amended): a successful chip erase leaves the section-completion flags as they were.
When the boot status read is entered-SACI, chip operations are registered, the state machine
grants the chip erase and the erase command returns `ERROR_OK`, `cc_lpf3_base_erase` returns
`ERROR_OK` in the state the state machine left, and `b_ccfg`, `b_scfg` and `b_main` have the
values they had before the call; so they are all false afterwards exactly when they were all
false before. -/
theorem chip_erase_keeps_completion_flags (fuel : Nat) (dev : Device) (bank : flash_bank)
    (ops : cc_lpf3_chip_ops) (d : Driver) (h' : Host)
    (hops : bank.driver_priv.driver_priv = some ops)
    (hboot : (cc_lpf3_check_boot_status dev d.host).1 = BOOTSTA_BOOT_ENTERED_SACI)
    (hgrant : (ops.check_allowed_flash_op CC_LPF3_FLASH_OP_CHIP_ERASE d.statics).1 = true)
    (herase : cc_lpf3_saci_erase fuel dev (cc_lpf3_check_boot_status dev d.host).2
      = Exec.ok (ERROR_OK, h')) :
    cc_lpf3_base_erase fuel dev bank d =
      Exec.ok (ERROR_OK,
        { statics := (ops.check_allowed_flash_op CC_LPF3_FLASH_OP_CHIP_ERASE d.statics).2,
          host := h' }) ∧
    (ops.check_allowed_flash_op CC_LPF3_FLASH_OP_CHIP_ERASE d.statics).2.b_ccfg = d.statics.b_ccfg ∧
    (ops.check_allowed_flash_op CC_LPF3_FLASH_OP_CHIP_ERASE d.statics).2.b_scfg = d.statics.b_scfg ∧
    (ops.check_allowed_flash_op CC_LPF3_FLASH_OP_CHIP_ERASE d.statics).2.b_main = d.statics.b_main ∧
    (((ops.check_allowed_flash_op CC_LPF3_FLASH_OP_CHIP_ERASE d.statics).2.b_ccfg = false ∧
      (ops.check_allowed_flash_op CC_LPF3_FLASH_OP_CHIP_ERASE d.statics).2.b_scfg = false ∧
      (ops.check_allowed_flash_op CC_LPF3_FLASH_OP_CHIP_ERASE d.statics).2.b_main = false) ↔
     (d.statics.b_ccfg = false ∧ d.statics.b_scfg = false ∧ d.statics.b_main = false)) := by
  obtain ⟨f1, f2, f3⟩ := check_allowed_keeps_flags ops CC_LPF3_FLASH_OP_CHIP_ERASE d.statics
  refine ⟨?_, f1, f2, f3, by rw [f1, f2, f3]⟩
  unfold cc_lpf3_base_erase
  generalize hb : cc_lpf3_check_boot_status dev d.host = b at hboot herase
  obtain ⟨bootsta, h1⟩ := b
  simp only at hboot herase
  subst hboot
  simp only [hops]
  generalize ops.check_allowed_flash_op CC_LPF3_FLASH_OP_CHIP_ERASE d.statics = c at hgrant
  obtain ⟨allowed, st⟩ := c
  simp only at hgrant
  subst hgrant
  simp [herase]

/-- Witness of C6 (amended): the chip erase of a CC27xx device at stage Init with the three
flags set, on a device that answers with success. -/
theorem chip_erase_keeps_completion_flags_witness :
    cc_lpf3_base_erase 8 willing_device (cc27xx_bank Region.main) driver_after_full_cycle =
      Exec.ok (ERROR_OK,
        { statics := (cc_lpf3_chip_ops.cc27xx.check_allowed_flash_op CC_LPF3_FLASH_OP_CHIP_ERASE
            driver_after_full_cycle.statics).2,
          host := { seq_num := 1, log := erase_log } }) ∧
    (cc_lpf3_chip_ops.cc27xx.check_allowed_flash_op CC_LPF3_FLASH_OP_CHIP_ERASE
      driver_after_full_cycle.statics).2.b_ccfg = true :=
  ⟨(chip_erase_keeps_completion_flags 8 willing_device (cc27xx_bank Region.main)
      cc_lpf3_chip_ops.cc27xx driver_after_full_cycle { seq_num := 1, log := erase_log }
      rfl (by decide) (by decide) (by decide)).1,
    by decide⟩

/-- C7 (the code at the failing inputs): `cc27xx_write` sets the completion flag of a region
that was not programmed.  On a CC27xx device at stage Init (no chip erase done) a write to the
CCFG bank is refused by the state machine, nothing but the entry checks reaches the port, and
the call returns `ERROR_OK` with `b_ccfg` set.  At stage Erase, on a device that answers the
program command with flash-FSM-error, the write of CCFG fails and the stage is reverted to
Erase, yet the call returns `ERROR_OK` with `b_ccfg` set. -/
theorem cc27xx_write_flags_unprogrammed_region :
    cc27xx_write 8 willing_device (cc27xx_bank Region.ccfg) (some []) 0 0
        (driver_at CC_LPF3_FLASH_STAGE_INIT) =
      Exec.ok (ERROR_OK, cc27xx_bank Region.ccfg,
        { statics := { Statics.initial with b_ccfg := true },
          host := { seq_num := 0, log := write_checks_log } }) ∧
    (cc27xx_check_allowed_flash_op CC_LPF3_FLASH_OP_PROG_CCFG
      (driver_at CC_LPF3_FLASH_STAGE_INIT).statics).1 = false ∧
    region_write_succeeds 8 refusing_device (empty_write Region.ccfg) Region.ccfg
      (driver_at CC_LPF3_FLASH_STAGE_ERASE).host = false ∧
    (cc27xx_write 8 refusing_device (cc27xx_bank Region.ccfg) (some []) 0 0
        (driver_at CC_LPF3_FLASH_STAGE_ERASE)).code_and_statics =
      some (ERROR_OK,
        { Statics.initial with
          cc27xx_flash_stage := CC_LPF3_FLASH_STAGE_ERASE, b_ccfg := true }) := by
  decide

/-- With the flags left set by an earlier cycle, the state machine after a fresh chip erase
reaches Complete on the second region already: from Erase, ProgCcfg and then ProgScfg are
granted and end at Init although MAIN was not written since the erase, and the ProgMain that
follows is refused. -/
theorem stale_flags_shorten_sequence (s : Statics) :
    check_sequence cc27xx_check_allowed_flash_op
        [CC_LPF3_FLASH_OP_PROG_CCFG, CC_LPF3_FLASH_OP_PROG_SCFG, CC_LPF3_FLASH_OP_PROG_MAIN]
        { s with cc27xx_flash_stage := CC_LPF3_FLASH_STAGE_ERASE,
                 b_ccfg := true, b_scfg := true, b_main := true } =
      ([true, true, false],
        { s with cc27xx_flash_stage := CC_LPF3_FLASH_STAGE_INIT,
                 b_ccfg := true, b_scfg := true, b_main := true }) := rfl

theorem chip_erase_granted_iff_init (ops : cc_lpf3_chip_ops) (s : Statics) :
    (ops.check_allowed_flash_op CC_LPF3_FLASH_OP_CHIP_ERASE s).1 = true ↔
      ops.flash_stage s = CC_LPF3_FLASH_STAGE_INIT := by
  obtain ⟨s23, s27, bc, bs, bm⟩ := s
  cases ops
  · cases s23 <;> simp [cc_lpf3_chip_ops.check_allowed_flash_op, cc_lpf3_chip_ops.flash_stage, cc23xx_check_allowed_flash_op, cc23xx_stage_switch]
  · cases s27 <;> simp [cc_lpf3_chip_ops.check_allowed_flash_op, cc_lpf3_chip_ops.flash_stage, cc27xx_check_allowed_flash_op, cc27xx_stage_switch]

theorem chip_erase_refused_keeps_statics (ops : cc_lpf3_chip_ops) (s : Statics)
    (h1 : ops.flash_stage s ≠ CC_LPF3_FLASH_STAGE_INIT)
    (h2 : ops.flash_stage s ≠ CC_LPF3_FLASH_STAGE_COMPLETE) :
    ops.check_allowed_flash_op CC_LPF3_FLASH_OP_CHIP_ERASE s = (false, s) := by
  obtain ⟨s23, s27, bc, bs, bm⟩ := s
  cases ops
  · cases s23 <;> first | exact absurd rfl h1 | exact absurd rfl h2 | rfl
  · cases s27 <;> first | exact absurd rfl h1 | exact absurd rfl h2 | rfl

/-- Counterexample to C9 as stated: a second chip erase requested at stage Erase on a device
whose boot status is not entered-SACI (it reads `0x00`) does not return `ERROR_OK`; the call
returns `ERROR_FAIL` after the status read. -/
theorem chip_erase_outside_saci_fails :
    cc_lpf3_base_erase 8 idle_device (cc27xx_bank Region.main)
        (driver_at CC_LPF3_FLASH_STAGE_ERASE) =
      Exec.ok (ERROR_FAIL,
        { statics := (driver_at CC_LPF3_FLASH_STAGE_ERASE).statics,
          host := { seq_num := 0,
                    log := [PortEvent.ap_read DEBUGSS_CFG_AP CFG_AP_DEVICE_STATUS] } }) ∧
    ERROR_FAIL ≠ ERROR_OK := by
  decide

/-- C9 (amended): for both families the chip erase is granted exactly at stage Init.  When
`cc_lpf3_base_erase` is requested with chip operations registered at any other stage the
variable holds between calls (Erase, Main, Ccfg, Scfg), the call returns without consulting
the device further: its only port operation is the read of the device status register (no
SACI command is sent), the file-scope variables and the sequence counter are unchanged, and
the return code is `ERROR_OK` when the boot status read is entered-SACI (`0x20`) and
`ERROR_FAIL` otherwise. -/
theorem chip_erase_outside_init_is_dropped (fuel : Nat) (dev : Device) (bank : flash_bank)
    (ops : cc_lpf3_chip_ops) (d : Driver) (hops : bank.driver_priv.driver_priv = some ops)
    (hstage : ops.flash_stage d.statics ≠ CC_LPF3_FLASH_STAGE_INIT)
    (hpersisted : ops.flash_stage d.statics ≠ CC_LPF3_FLASH_STAGE_COMPLETE) :
    (∀ (o : cc_lpf3_chip_ops) (s : Statics),
      (o.check_allowed_flash_op CC_LPF3_FLASH_OP_CHIP_ERASE s).1 = true ↔
        o.flash_stage s = CC_LPF3_FLASH_STAGE_INIT) ∧
    cc_lpf3_base_erase fuel dev bank d =
      Exec.ok
        (if (cc_lpf3_check_boot_status dev d.host).1 = BOOTSTA_BOOT_ENTERED_SACI then ERROR_OK
          else ERROR_FAIL,
         { statics := d.statics,
           host := { seq_num := d.host.seq_num,
                     log := d.host.log ++
                       [PortEvent.ap_read DEBUGSS_CFG_AP CFG_AP_DEVICE_STATUS] } }) := by
  refine ⟨chip_erase_granted_iff_init, ?_⟩
  have hlog : (cc_lpf3_check_boot_status dev d.host).2 =
      { seq_num := d.host.seq_num,
        log := d.host.log ++ [PortEvent.ap_read DEBUGSS_CFG_AP CFG_AP_DEVICE_STATUS] } := by
    unfold cc_lpf3_check_boot_status cc_lpf3_read_from_AP
    simp only []
    split_ifs <;> rfl
  unfold cc_lpf3_base_erase
  generalize hb : cc_lpf3_check_boot_status dev d.host = b at hlog
  obtain ⟨bootsta, h1⟩ := b
  simp only at hlog
  subst hlog
  simp only [hops, chip_erase_refused_keeps_statics ops d.statics hstage hpersisted]
  by_cases hs : bootsta = BOOTSTA_BOOT_ENTERED_SACI
  · subst hs; simp
  · have hs' : BOOTSTA_BOOT_ENTERED_SACI ≠ bootsta := fun h => hs h.symm
    simp [hs, hs']

/-- Witness of C9 (amended): a second chip erase at stage Erase on a CC27xx device in SACI
mode returns `ERROR_OK` after the status read alone. -/
theorem chip_erase_outside_init_is_dropped_witness :
    cc_lpf3_base_erase 8 willing_device (cc27xx_bank Region.main)
        (driver_at CC_LPF3_FLASH_STAGE_ERASE) =
      Exec.ok (ERROR_OK,
        { statics := (driver_at CC_LPF3_FLASH_STAGE_ERASE).statics,
          host := { seq_num := 0,
                    log := [PortEvent.ap_read DEBUGSS_CFG_AP CFG_AP_DEVICE_STATUS] } }) :=
  (chip_erase_outside_init_is_dropped 8 willing_device (cc27xx_bank Region.main)
    cc_lpf3_chip_ops.cc27xx (driver_at CC_LPF3_FLASH_STAGE_ERASE) rfl (by decide) (by decide)).2

/-! ## Theorems: pipelined sector write -/

/-- C10 (the code at the failing inputs): the response streams `{10,11,12}` (base 10, 3
sectors) and `{254,255,0}` (base 254, 3 sectors) are accepted, but the continuous stream
`{254,255,0,1}` (base 254, 4 sectors) and the continuous stream `{0,1,2}` (base 0, 3 sectors)
are rejected with `ERROR_FAIL`, although the device answers sector `i` with command id `0x0F`,
result success, payload-word count 0 and sequence number `(base + i) mod 256` and every port
operation succeeds. -/
theorem send_sector_tx_rejects_continuous_stream :
    send_sectors_result 8 10 3 = some ERROR_OK ∧
    send_sectors_result 8 254 3 = some ERROR_OK ∧
    send_sectors_result 8 254 4 = some ERROR_FAIL ∧
    send_sectors_result 8 0 3 = some ERROR_FAIL := by
  decide

/-! ## Theorems: error handling of the engine -/

/-- C13 (the code at the failing inputs): `cc_lpf3_base_write` returns `ERROR_OK` without the
region having been programmed.  On a CC27xx device at stage Init the state machine refuses
ProgCcfg, nothing but the entry checks reaches the port, and the call returns `ERROR_OK`.  On
a CC23xx device at stage Erase whose answer to the program command is flash-FSM-error the
write of CCFG fails and the stage is reverted to Erase, and the call returns `ERROR_OK`. -/
theorem base_write_returns_ok_without_programming :
    (cc27xx_check_allowed_flash_op CC_LPF3_FLASH_OP_PROG_CCFG
      (driver_at CC_LPF3_FLASH_STAGE_INIT).statics).1 = false ∧
    cc_lpf3_base_write 8 willing_device (cc27xx_bank Region.ccfg) (some []) 0 0
        (driver_at CC_LPF3_FLASH_STAGE_INIT) =
      Exec.ok (ERROR_OK, cc27xx_bank Region.ccfg,
        { statics := Statics.initial, host := { seq_num := 0, log := write_checks_log } }) ∧
    (cc23xx_check_allowed_flash_op CC_LPF3_FLASH_OP_PROG_CCFG
      (driver23_at CC_LPF3_FLASH_STAGE_ERASE).statics).1 = true ∧
    region_write_succeeds 8 refusing_device
      { bank := cc23xx_bank Region.ccfg, buffer := some [], offset := 0, count := 0 }
      Region.ccfg (driver23_at CC_LPF3_FLASH_STAGE_ERASE).host = false ∧
    (cc_lpf3_base_write 8 refusing_device (cc23xx_bank Region.ccfg) (some []) 0 0
        (driver23_at CC_LPF3_FLASH_STAGE_ERASE)).code_and_statics =
      some (ERROR_OK, (driver23_at CC_LPF3_FLASH_STAGE_ERASE).statics) := by
  decide

/-- C16 (the code at the failing input): the device answers the erase-chip command with
result not-allowed (`0x86`), and `cc_lpf3_saci_erase` and `cc_lpf3_base_erase` both return
`ERROR_OK`; the stage moves to Erase as after a successful erase. -/
theorem chip_erase_ignores_result_code :
    (SACI_RESP_T.of_word (denying_device.read DEBUGSS_SEC_AP SEC_AP_RXD 0).2).result = 0x86 ∧
    cc_lpf3_saci_erase 8 denying_device { seq_num := 0, log := [] } =
      Exec.ok (ERROR_OK, { seq_num := 1, log := erase_log.tail }) ∧
    cc_lpf3_base_erase 8 denying_device (cc27xx_bank Region.main)
        (driver_at CC_LPF3_FLASH_STAGE_INIT) =
      Exec.ok (ERROR_OK,
        { statics := (driver_at CC_LPF3_FLASH_STAGE_ERASE).statics,
          host := { seq_num := 1, log := erase_log } }) := by
  decide

/-! ## Theorems: command framing -/

theorem cmd_id_lt (cmd : SACI_PARAM_T) : cmd.cmd_id < 256 :=
  Nat.and_lt_two_pow _ (n := 8) (by decide)

theorem cmd_id_of_single (id : Nat) (h : id < 256) :
    (SACI_PARAM_T.mk [id]).cmd_id = id := by
  have := Nat.and_pow_two_sub_one_eq_mod id 8
  simp only [SACI_PARAM_T.cmd_id, SACI_PARAM_T.val, List.getD_cons_zero]
  simpa [Nat.mod_eq_of_lt h] using this

set_option maxRecDepth 100000 in
theorem cmd_length_table_small : ∀ id : Fin 256,
    cc_lpf3_get_cmd_word_length (SACI_PARAM_T.mk [id.val]) =
      match cmd_length_table id.val with
      | some l => (l : Int)
      | none => ERROR_FAIL := by
  decide

set_option maxRecDepth 100000 in
theorem cmd_length_table_parameterized : ∀ id : Fin 256,
    (match cmd_length_table id.val with
     | some l => decide (id.val ∈ spec_single_word_commands) || decide (2 ≤ l)
     | none => true) = true := by
  decide

theorem get_cmd_word_length_eq_table (cmd : SACI_PARAM_T) :
    cc_lpf3_get_cmd_word_length cmd =
      match cmd_length_table cmd.cmd_id with
      | some l => (l : Int)
      | none => ERROR_FAIL := by
  have h1 := cmd_length_table_small ⟨cmd.cmd_id, cmd_id_lt cmd⟩
  have h2 := cmd_id_of_single cmd.cmd_id (cmd_id_lt cmd)
  simp only at h1
  rw [← h1]
  unfold cc_lpf3_get_cmd_word_length
  rw [h2]

/-- C17: the length `cc_lpf3_get_cmd_word_length` returns depends only on the command
identifier; it is the table entry `SIZE_IN_WORDS (sizeof (parameter structure))` of the
identifier: 1 for each of the ten single-word commands, 2 for erase-chip, 17 for
submit-debug-auth, and for each of the other parameterized commands of the table the number of
32-bit words of its packed parameter structure (2, 2, 34, 3, 4, 5, 2, 5 and 9), which is at
least 2. -/
theorem cmd_word_length_is_table_of_identifier :
    (∀ c1 c2 : SACI_PARAM_T, c1.cmd_id = c2.cmd_id →
      cc_lpf3_get_cmd_word_length c1 = cc_lpf3_get_cmd_word_length c2) ∧
    (∀ cmd : SACI_PARAM_T, ∀ l : Nat, cmd_length_table cmd.cmd_id = some l →
      cc_lpf3_get_cmd_word_length cmd = (l : Int)) ∧
    (∀ cmd : SACI_PARAM_T, cmd.cmd_id ∈ spec_single_word_commands →
      cc_lpf3_get_cmd_word_length cmd = 1) ∧
    (∀ cmd : SACI_PARAM_T, cmd.cmd_id = SACI_FLASH_ERASE_CHIP →
      cc_lpf3_get_cmd_word_length cmd = 2) ∧
    (∀ cmd : SACI_PARAM_T, cmd.cmd_id = SACI_DEBUG_SUBMIT_AUTH →
      cc_lpf3_get_cmd_word_length cmd = 17) ∧
    (∀ cmd : SACI_PARAM_T, ∀ l : Nat, cmd_length_table cmd.cmd_id = some l →
      cmd.cmd_id ∉ spec_single_word_commands → 2 ≤ l) ∧
    [SACI_FLASH_PROG_CCFG_SECTOR, SACI_FLASH_PROG_SCFG_SECTOR, SACI_FLASH_PROG_CCFG_USER_REC,
      SACI_FLASH_PROG_MAIN_PIPELINED, SACI_FLASH_VERIFY_MAIN_SECTORS,
      SACI_FLASH_VERIFY_CCFG_SECTOR, SACI_FLASH_VERIFY_SCFG_SECTOR, SACI_LIFECYCLE_INCR_STATE,
      SACI_LIFECYCLE_REQ_FIRST_BDAY].map cmd_length_table =
      [some 2, some 2, some 34, some 3, some 4, some 5, some 2, some 5, some 9] := by
  refine ⟨?_, ?_, ?_, ?_, ?_, ?_, by decide⟩
  · intro c1 c2 h
    rw [get_cmd_word_length_eq_table, get_cmd_word_length_eq_table, h]
  · intro cmd l h
    rw [get_cmd_word_length_eq_table, h]
  · intro cmd h
    rw [get_cmd_word_length_eq_table]
    simp only [spec_single_word_commands, List.mem_cons, List.mem_singleton,
      List.not_mem_nil, or_false] at h
    rcases h with h | h | h | h | h | h | h | h | h | h <;> rw [h] <;> rfl
  · intro cmd h
    rw [get_cmd_word_length_eq_table, h]; rfl
  · intro cmd h
    rw [get_cmd_word_length_eq_table, h]; rfl
  · intro cmd l h hns
    have h1 := cmd_length_table_parameterized ⟨cmd.cmd_id, cmd_id_lt cmd⟩
    simp only [h, Bool.or_eq_true, decide_eq_true_eq] at h1
    exact h1.resolve_left hns

theorem base_write_program (fuel : Nat) (dev : Device) (bank bank' : flash_bank)
    (buffer : Option (List Byte)) (offset count : Nat) (d : Driver) (x : Region)
    (ops : cc_lpf3_chip_ops) (h1 : Host)
    (hck : cc_lpf3_base_write_checks fuel dev bank offset d.host = Exec.ok (none, bank', h1))
    (hbase : bank.base = x.base) (hops : bank.driver_priv.driver_priv = some ops) :
    cc_lpf3_base_write fuel dev bank buffer offset count d =
      match program_block ops true x.prog_op (x.write fuel dev bank' buffer count)
          { d with host := h1 } with
      | Exec.error f => Exec.error f
      | Exec.ok d' => Exec.ok (ERROR_OK, bank', d') := by
  obtain ⟨hb, _, ho⟩ := base_write_checks_bank fuel dev bank bank' offset d.host h1 none hck
  rw [hbase] at hb
  rw [hops] at ho
  unfold cc_lpf3_base_write
  rw [hck]
  simp only [ho]
  cases x
  · have hb1 : decide (bank'.base = LPF3_FLASH_BASE_CCFG) = true := by simp [hb, Region.base]
    have hb2 : decide (bank'.base = LPF3_FLASH_BASE_SCFG) = false := by simp [hb, Region.base]
    have hb3 : decide (bank'.base = LPF3_FLASH_BASE_MAIN) = false := by simp [hb, Region.base]
    rw [hb1, hb2, hb3]
    simp only [Region.prog_op, Region.write]
    generalize program_block ops true CC_LPF3_FLASH_OP_PROG_CCFG
      (cc_lpf3_write_ccfg fuel dev buffer count) { d with host := h1 } = r
    rcases r with d' | f <;> simp [program_block_skip]
  · have hb1 : decide (bank'.base = LPF3_FLASH_BASE_CCFG) = false := by simp [hb, Region.base]
    have hb2 : decide (bank'.base = LPF3_FLASH_BASE_SCFG) = true := by simp [hb, Region.base]
    have hb3 : decide (bank'.base = LPF3_FLASH_BASE_MAIN) = false := by simp [hb, Region.base]
    rw [hb1, hb2, hb3]
    simp only [Region.prog_op, Region.write, program_block_skip]
  · have hb1 : decide (bank'.base = LPF3_FLASH_BASE_CCFG) = false := by simp [hb, Region.base]
    have hb2 : decide (bank'.base = LPF3_FLASH_BASE_SCFG) = false := by simp [hb, Region.base]
    have hb3 : decide (bank'.base = LPF3_FLASH_BASE_MAIN) = true := by simp [hb, Region.base]
    rw [hb1, hb2, hb3]
    simp only [Region.prog_op, Region.write, program_block_skip]

theorem program_block_failure (ops : cc_lpf3_chip_ops) (op : CC_LPF3_FLASH_OP_T)
    (write : Host → Exec (Int × Host)) (d : Driver) (ret : Int) (h' : Host)
    (hgrant : (ops.check_allowed_flash_op op d.statics).1 = true)
    (hw : write d.host = Exec.ok (ret, h')) (hret : ret ≠ ERROR_OK) :
    program_block ops true op write d =
      Exec.ok
        { statics := (ops.check_allowed_flash_op CC_LPF3_FLASH_OP_REVERT_STAGE
            (ops.check_allowed_flash_op op d.statics).2).2,
          host := h' } := by
  unfold program_block
  simp only [if_true]
  generalize ops.check_allowed_flash_op op d.statics = c at hgrant
  obtain ⟨allowed, st⟩ := c
  simp only at hgrant
  subst hgrant
  have hret' : ERROR_OK ≠ ret := fun h => hret h.symm
  simp [hw, hret']

theorem revert_after_grant_stage (ops : cc_lpf3_chip_ops) (op : CC_LPF3_FLASH_OP_T)
    (s : Statics) (hgrant : (ops.check_allowed_flash_op op s).1 = true) :
    ops.flash_stage (ops.check_allowed_flash_op CC_LPF3_FLASH_OP_REVERT_STAGE
        (ops.check_allowed_flash_op op s).2).2 = CC_LPF3_FLASH_STAGE_INIT ∨
      ops.flash_stage (ops.check_allowed_flash_op CC_LPF3_FLASH_OP_REVERT_STAGE
        (ops.check_allowed_flash_op op s).2).2 = CC_LPF3_FLASH_STAGE_ERASE := by
  obtain ⟨s23, s27, bc, bs, bm⟩ := s
  cases ops
  · cases s23 <;> cases op <;>
      simp [cc_lpf3_chip_ops.check_allowed_flash_op, cc_lpf3_chip_ops.flash_stage, cc23xx_check_allowed_flash_op, cc23xx_stage_switch] at hgrant ⊢
  · cases s27 <;> cases op <;> cases bc <;> cases bs <;> cases bm <;>
      simp [cc_lpf3_chip_ops.check_allowed_flash_op, cc_lpf3_chip_ops.flash_stage, cc27xx_check_allowed_flash_op, cc27xx_stage_switch] at hgrant ⊢

/-- Counterexample to C14 as stated: a write to the MAIN bank at offset 7 on a CC27xx device
in SACI mode returns the alignment error only after five register reads and the two register
writes of the no-op command (the log on return holds seven port operations); and on a device
whose application is running (boot status `0xC0`) the same write returns `ERROR_TARGET_INIT_FAILED`, not the alignment
error. -/
theorem misaligned_write_touches_port_first :
    cc_lpf3_base_write 8 willing_device (cc27xx_bank Region.main) (some []) 7 0
        (driver_at CC_LPF3_FLASH_STAGE_ERASE) =
      Exec.ok (ERROR_FLASH_DST_BREAKS_ALIGNMENT, cc27xx_bank Region.main,
        { statics := (driver_at CC_LPF3_FLASH_STAGE_ERASE).statics,
          host := { seq_num := 0, log := write_checks_log } }) ∧
    write_checks_log.length = 7 ∧
    (cc_lpf3_base_write 8 application_device (cc27xx_bank Region.main) (some []) 7 0
        (driver_at CC_LPF3_FLASH_STAGE_ERASE)).code_and_statics =
      some (ERROR_TARGET_INIT_FAILED, (driver_at CC_LPF3_FLASH_STAGE_ERASE).statics) ∧
    ERROR_TARGET_INIT_FAILED ≠ ERROR_FLASH_DST_BREAKS_ALIGNMENT := by
  decide

/-- C14 (amended): for every write offset that is not a multiple of the bank's flash word size
(8 bytes on a probed bank), when the checks that come first pass (`cc_lpf3_check_device_info`
returns `ERROR_OK`, `cc_lpf3_prepare_write` returns `ERROR_OK` and the device identifier read
is not zero), `cc_lpf3_base_write` returns `ERROR_FLASH_DST_BREAKS_ALIGNMENT`.  The port
operations on return are those of the two checks; the state machine is not consulted and no
flash command is sent, so the file-scope variables, the flash stage among them, are
unchanged. -/
theorem misaligned_write_is_rejected (fuel : Nat) (dev : Device) (bank bank1 : flash_bank)
    (buffer : Option (List Byte)) (offset count : Nat) (d : Driver) (h1 h2 : Host)
    (hinfo : cc_lpf3_check_device_info dev bank d.host = (ERROR_OK, bank1, h1))
    (hprep : cc_lpf3_prepare_write fuel dev h1 = Exec.ok (ERROR_OK, h2))
    (hdid : bank1.driver_priv.did ≠ 0)
    (hword : bank1.driver_priv.flash_word_size_bytes ≠ 0)
    (hoffset : offset % bank1.driver_priv.flash_word_size_bytes ≠ 0) :
    cc_lpf3_base_write fuel dev bank buffer offset count d =
      Exec.ok (ERROR_FLASH_DST_BREAKS_ALIGNMENT, bank1,
        { statics := d.statics, host := h2 }) := by
  unfold cc_lpf3_base_write cc_lpf3_base_write_checks
  simp [hinfo, hprep, hdid, hword, hoffset]

/-- Witness of C14 (amended): offset 7 on the MAIN bank of a probed CC27xx device in SACI
mode. -/
theorem misaligned_write_is_rejected_witness :
    cc_lpf3_base_write 8 willing_device (cc27xx_bank Region.main) (some []) 7 0
        (driver_at CC_LPF3_FLASH_STAGE_ERASE) =
      Exec.ok (ERROR_FLASH_DST_BREAKS_ALIGNMENT, cc27xx_bank Region.main,
        { statics := (driver_at CC_LPF3_FLASH_STAGE_ERASE).statics,
          host := { seq_num := 0, log := write_checks_log } }) :=
  misaligned_write_is_rejected 8 willing_device (cc27xx_bank Region.main)
    (cc27xx_bank Region.main) (some []) 7 0 (driver_at CC_LPF3_FLASH_STAGE_ERASE)
    { seq_num := 0, log := write_checks_log.take 2 } { seq_num := 0, log := write_checks_log }
    (by decide) (by decide) (by decide) (by decide) (by decide)

/-- A granted chip erase moves the stage to Erase. -/
theorem chip_erase_grant_stage (ops : cc_lpf3_chip_ops) (s : Statics)
    (hgrant : (ops.check_allowed_flash_op CC_LPF3_FLASH_OP_CHIP_ERASE s).1 = true) :
    ops.flash_stage (ops.check_allowed_flash_op CC_LPF3_FLASH_OP_CHIP_ERASE s).2 =
      CC_LPF3_FLASH_STAGE_ERASE := by
  obtain ⟨s23, s27, bc, bs, bm⟩ := s
  cases ops
  · cases s23 <;>
      simp [cc_lpf3_chip_ops.check_allowed_flash_op, cc_lpf3_chip_ops.flash_stage,
        cc23xx_check_allowed_flash_op, cc23xx_stage_switch] at hgrant ⊢
  · cases s27 <;>
      simp [cc_lpf3_chip_ops.check_allowed_flash_op, cc_lpf3_chip_ops.flash_stage,
        cc27xx_check_allowed_flash_op, cc27xx_stage_switch] at hgrant ⊢

/-- The result of `cc_lpf3_base_erase` once the erase is granted, in terms of what
`cc_lpf3_saci_erase` returns. -/
theorem base_erase_granted (ops : cc_lpf3_chip_ops) (s : Statics) (fuel : Nat) (dev : Device)
    (bank : flash_bank) (h h' : Host) (ret : Int)
    (hgrant : (ops.check_allowed_flash_op CC_LPF3_FLASH_OP_CHIP_ERASE s).1 = true)
    (hops : bank.driver_priv.driver_priv = some ops)
    (hboot : (cc_lpf3_check_boot_status dev h).1 = BOOTSTA_BOOT_ENTERED_SACI)
    (herase : cc_lpf3_saci_erase fuel dev (cc_lpf3_check_boot_status dev h).2 =
      Exec.ok (ret, h')) :
    cc_lpf3_base_erase fuel dev bank { statics := s, host := h } =
      if ERROR_OK ≠ ret then
        Exec.ok (ERROR_FAIL,
          { statics := (ops.check_allowed_flash_op CC_LPF3_FLASH_OP_REVERT_STAGE
              (ops.check_allowed_flash_op CC_LPF3_FLASH_OP_CHIP_ERASE s).2).2,
            host := h' })
      else
        Exec.ok (ERROR_OK,
          { statics := (ops.check_allowed_flash_op CC_LPF3_FLASH_OP_CHIP_ERASE s).2,
            host := h' }) := by
  unfold cc_lpf3_base_erase
  generalize cc_lpf3_check_boot_status dev h = b at hboot herase
  obtain ⟨bootsta, hb⟩ := b
  simp only at hboot herase
  subst hboot
  simp only [hops]
  generalize ops.check_allowed_flash_op CC_LPF3_FLASH_OP_CHIP_ERASE s = c at hgrant
  obtain ⟨allowed, st⟩ := c
  simp only at hgrant
  subst hgrant
  by_cases hret : ERROR_OK ≠ ret
  · simp [herase, hret]
  · simp [herase, hret]

/-- The erase rejected by the device, for both families: `cc_lpf3_base_erase` returns
`ERROR_OK` in the state the grant left. -/
theorem rejected_erase_runs :
    cc_lpf3_base_erase 8 denying_device (cc27xx_bank Region.main)
        (driver_at CC_LPF3_FLASH_STAGE_INIT) =
      Exec.ok (ERROR_OK,
        { statics := (cc_lpf3_chip_ops.cc27xx.check_allowed_flash_op
            CC_LPF3_FLASH_OP_CHIP_ERASE (driver_at CC_LPF3_FLASH_STAGE_INIT).statics).2,
          host := { seq_num := 1, log := erase_log } }) ∧
    cc_lpf3_base_erase 8 denying_device (cc23xx_bank Region.main)
        (driver23_at CC_LPF3_FLASH_STAGE_INIT) =
      Exec.ok (ERROR_OK,
        { statics := (cc_lpf3_chip_ops.cc23xx.check_allowed_flash_op
            CC_LPF3_FLASH_OP_CHIP_ERASE (driver23_at CC_LPF3_FLASH_STAGE_INIT).statics).2,
          host := { seq_num := 1, log := erase_log } }) := by
  decide

/-- The failures the engine does revert, at concrete inputs: a chip erase from Init whose
command is never taken (TXD stays full), and a program of the CCFG region from Erase that the
device answers with the result flash-FSM-error. -/
theorem reverted_failure_runs :
    cc_lpf3_base_erase 8 stuck_device (cc27xx_bank Region.main)
        (driver_at CC_LPF3_FLASH_STAGE_INIT) =
      Exec.ok (ERROR_FAIL,
        { statics := (driver_at CC_LPF3_FLASH_STAGE_INIT).statics,
          host := { seq_num := 1,
                    log := PortEvent.ap_read DEBUGSS_CFG_AP CFG_AP_DEVICE_STATUS ::
                      exhausted_poll_log SEC_AP_TXCTL 100 } }) ∧
    (cc_lpf3_chip_ops.cc27xx.check_allowed_flash_op CC_LPF3_FLASH_OP_PROG_CCFG
        (driver_at CC_LPF3_FLASH_STAGE_ERASE).statics).1 = true ∧
    (cc_lpf3_chip_ops.cc27xx.check_allowed_flash_op CC_LPF3_FLASH_OP_PROG_CCFG
        (driver_at CC_LPF3_FLASH_STAGE_ERASE).statics).2.cc27xx_flash_stage =
      CC_LPF3_FLASH_STAGE_CCFG ∧
    region_write_succeeds 8 refusing_device
      { bank := cc27xx_bank Region.ccfg, buffer := some [], offset := 0, count := 0 }
      Region.ccfg (driver_at CC_LPF3_FLASH_STAGE_ERASE).host = false ∧
    (cc_lpf3_base_write 8 refusing_device (cc27xx_bank Region.ccfg) (some []) 0 0
        (driver_at CC_LPF3_FLASH_STAGE_ERASE)).code_and_statics =
      some (ERROR_OK, (driver_at CC_LPF3_FLASH_STAGE_ERASE).statics) := by
  decide

/-- C15 (the code at the failing input): a chip erase from Init, granted by the state machine,
on a device that answers the erase-chip command with the result not-allowed (`0x86`).  The
device transaction has failed, but `cc_lpf3_saci_erase` returns `ERROR_OK`, so
`cc_lpf3_base_erase` does not call Revert: it returns `ERROR_OK` in the state the grant left,
with the stage at Erase, where Revert would have put it back at Init.  This holds for both
families, and for every device and state in which `cc_lpf3_saci_erase` returns `ERROR_OK`.
What holds: Revert after a granted operation leaves the stage at Init or Erase; a granted
chip erase for which `cc_lpf3_saci_erase` returns an error (a transport failure) makes
`cc_lpf3_base_erase` call Revert and return `ERROR_FAIL` with the stage back at Init; a
granted region program whose region write returns an error (a transport failure or a result
other than success) makes `cc_lpf3_base_write` call Revert. -/
theorem rejected_erase_is_not_reverted :
    ((SACI_RESP_T.of_word (denying_device.read DEBUGSS_SEC_AP SEC_AP_RXD 0).2).result =
        SCR_NOT_ALLOWED ∧ SCR_NOT_ALLOWED ≠ SCR_SUCCESS) ∧
    ((cc_lpf3_chip_ops.cc27xx.check_allowed_flash_op CC_LPF3_FLASH_OP_CHIP_ERASE
        (driver_at CC_LPF3_FLASH_STAGE_INIT).statics).1 = true ∧
      cc_lpf3_base_erase 8 denying_device (cc27xx_bank Region.main)
          (driver_at CC_LPF3_FLASH_STAGE_INIT) =
        Exec.ok (ERROR_OK,
          { statics := (cc_lpf3_chip_ops.cc27xx.check_allowed_flash_op
              CC_LPF3_FLASH_OP_CHIP_ERASE (driver_at CC_LPF3_FLASH_STAGE_INIT).statics).2,
            host := { seq_num := 1, log := erase_log } }) ∧
      (cc_lpf3_chip_ops.cc27xx.check_allowed_flash_op CC_LPF3_FLASH_OP_CHIP_ERASE
        (driver_at CC_LPF3_FLASH_STAGE_INIT).statics).2.cc27xx_flash_stage =
        CC_LPF3_FLASH_STAGE_ERASE ∧
      (cc_lpf3_chip_ops.cc27xx.check_allowed_flash_op CC_LPF3_FLASH_OP_REVERT_STAGE
        (cc_lpf3_chip_ops.cc27xx.check_allowed_flash_op CC_LPF3_FLASH_OP_CHIP_ERASE
          (driver_at CC_LPF3_FLASH_STAGE_INIT).statics).2).2.cc27xx_flash_stage =
        CC_LPF3_FLASH_STAGE_INIT) ∧
    ((cc_lpf3_chip_ops.cc23xx.check_allowed_flash_op CC_LPF3_FLASH_OP_CHIP_ERASE
        (driver23_at CC_LPF3_FLASH_STAGE_INIT).statics).1 = true ∧
      cc_lpf3_base_erase 8 denying_device (cc23xx_bank Region.main)
          (driver23_at CC_LPF3_FLASH_STAGE_INIT) =
        Exec.ok (ERROR_OK,
          { statics := (cc_lpf3_chip_ops.cc23xx.check_allowed_flash_op
              CC_LPF3_FLASH_OP_CHIP_ERASE (driver23_at CC_LPF3_FLASH_STAGE_INIT).statics).2,
            host := { seq_num := 1, log := erase_log } }) ∧
      (cc_lpf3_chip_ops.cc23xx.check_allowed_flash_op CC_LPF3_FLASH_OP_CHIP_ERASE
        (driver23_at CC_LPF3_FLASH_STAGE_INIT).statics).2.cc23xx_flash_stage =
        CC_LPF3_FLASH_STAGE_ERASE ∧
      (cc_lpf3_chip_ops.cc23xx.check_allowed_flash_op CC_LPF3_FLASH_OP_REVERT_STAGE
        (cc_lpf3_chip_ops.cc23xx.check_allowed_flash_op CC_LPF3_FLASH_OP_CHIP_ERASE
          (driver23_at CC_LPF3_FLASH_STAGE_INIT).statics).2).2.cc23xx_flash_stage =
        CC_LPF3_FLASH_STAGE_INIT) ∧
    (∀ (ops : cc_lpf3_chip_ops) (s : Statics) (fuel : Nat) (dev : Device) (bank : flash_bank)
      (h h' : Host),
      (ops.check_allowed_flash_op CC_LPF3_FLASH_OP_CHIP_ERASE s).1 = true →
      bank.driver_priv.driver_priv = some ops →
      (cc_lpf3_check_boot_status dev h).1 = BOOTSTA_BOOT_ENTERED_SACI →
      cc_lpf3_saci_erase fuel dev (cc_lpf3_check_boot_status dev h).2 =
        Exec.ok (ERROR_OK, h') →
      cc_lpf3_base_erase fuel dev bank { statics := s, host := h } =
        Exec.ok (ERROR_OK,
          { statics := (ops.check_allowed_flash_op CC_LPF3_FLASH_OP_CHIP_ERASE s).2,
            host := h' }) ∧
      ops.flash_stage (ops.check_allowed_flash_op CC_LPF3_FLASH_OP_CHIP_ERASE s).2 =
        CC_LPF3_FLASH_STAGE_ERASE ∧
      ops.flash_stage (ops.check_allowed_flash_op CC_LPF3_FLASH_OP_REVERT_STAGE
        (ops.check_allowed_flash_op CC_LPF3_FLASH_OP_CHIP_ERASE s).2).2 =
        CC_LPF3_FLASH_STAGE_INIT) ∧
    (∀ (ops : cc_lpf3_chip_ops) (op : CC_LPF3_FLASH_OP_T) (s : Statics),
      (ops.check_allowed_flash_op op s).1 = true →
      ops.flash_stage (ops.check_allowed_flash_op CC_LPF3_FLASH_OP_REVERT_STAGE
          (ops.check_allowed_flash_op op s).2).2 = CC_LPF3_FLASH_STAGE_INIT ∨
        ops.flash_stage (ops.check_allowed_flash_op CC_LPF3_FLASH_OP_REVERT_STAGE
          (ops.check_allowed_flash_op op s).2).2 = CC_LPF3_FLASH_STAGE_ERASE) ∧
    (∀ (ops : cc_lpf3_chip_ops) (s : Statics) (fuel : Nat) (dev : Device) (bank : flash_bank)
      (h h' : Host) (ret : Int),
      (ops.check_allowed_flash_op CC_LPF3_FLASH_OP_CHIP_ERASE s).1 = true →
      bank.driver_priv.driver_priv = some ops →
      (cc_lpf3_check_boot_status dev h).1 = BOOTSTA_BOOT_ENTERED_SACI →
      cc_lpf3_saci_erase fuel dev (cc_lpf3_check_boot_status dev h).2 = Exec.ok (ret, h') →
      ret ≠ ERROR_OK →
      cc_lpf3_base_erase fuel dev bank { statics := s, host := h } =
        Exec.ok (ERROR_FAIL,
          { statics := (ops.check_allowed_flash_op CC_LPF3_FLASH_OP_REVERT_STAGE
              (ops.check_allowed_flash_op CC_LPF3_FLASH_OP_CHIP_ERASE s).2).2,
            host := h' })) ∧
    (∀ (ops : cc_lpf3_chip_ops) (s : Statics) (fuel : Nat) (dev : Device)
      (bank bank' : flash_bank) (buffer : Option (List Byte)) (offset count : Nat)
      (h h1 h' : Host) (ret : Int) (x : Region),
      (ops.check_allowed_flash_op x.prog_op s).1 = true →
      bank.driver_priv.driver_priv = some ops → bank.base = x.base →
      cc_lpf3_base_write_checks fuel dev bank offset h = Exec.ok (none, bank', h1) →
      x.write fuel dev bank' buffer count h1 = Exec.ok (ret, h') → ret ≠ ERROR_OK →
      cc_lpf3_base_write fuel dev bank buffer offset count { statics := s, host := h } =
        Exec.ok (ERROR_OK, bank',
          { statics := (ops.check_allowed_flash_op CC_LPF3_FLASH_OP_REVERT_STAGE
              (ops.check_allowed_flash_op x.prog_op s).2).2,
            host := h' })) ∧
    cc_lpf3_base_erase 8 stuck_device (cc27xx_bank Region.main)
        (driver_at CC_LPF3_FLASH_STAGE_INIT) =
      Exec.ok (ERROR_FAIL,
        { statics := (driver_at CC_LPF3_FLASH_STAGE_INIT).statics,
          host := { seq_num := 1,
                    log := PortEvent.ap_read DEBUGSS_CFG_AP CFG_AP_DEVICE_STATUS ::
                      exhausted_poll_log SEC_AP_TXCTL 100 } }) ∧
    ((cc_lpf3_chip_ops.cc27xx.check_allowed_flash_op CC_LPF3_FLASH_OP_PROG_CCFG
        (driver_at CC_LPF3_FLASH_STAGE_ERASE).statics).1 = true ∧
      (cc_lpf3_chip_ops.cc27xx.check_allowed_flash_op CC_LPF3_FLASH_OP_PROG_CCFG
          (driver_at CC_LPF3_FLASH_STAGE_ERASE).statics).2.cc27xx_flash_stage =
        CC_LPF3_FLASH_STAGE_CCFG ∧
      region_write_succeeds 8 refusing_device
        { bank := cc27xx_bank Region.ccfg, buffer := some [], offset := 0, count := 0 }
        Region.ccfg (driver_at CC_LPF3_FLASH_STAGE_ERASE).host = false ∧
      (cc_lpf3_base_write 8 refusing_device (cc27xx_bank Region.ccfg) (some []) 0 0
          (driver_at CC_LPF3_FLASH_STAGE_ERASE)).code_and_statics =
        some (ERROR_OK, (driver_at CC_LPF3_FLASH_STAGE_ERASE).statics)) := by
  refine ⟨by decide, ⟨by decide, rejected_erase_runs.1, by decide, by decide⟩,
    ⟨by decide, rejected_erase_runs.2, by decide, by decide⟩, ?_,
    fun ops op s hgrant => revert_after_grant_stage ops op s hgrant, ?_, ?_,
    reverted_failure_runs.1, reverted_failure_runs.2⟩
  · intro ops s fuel dev bank h h' hgrant hops hboot herase
    refine ⟨?_, chip_erase_grant_stage ops s hgrant, ?_⟩
    · rw [base_erase_granted ops s fuel dev bank h h' ERROR_OK hgrant hops hboot herase]
      simp
    · have hinit := (chip_erase_granted_iff_init ops s).mp hgrant
      obtain ⟨s23, s27, bc, bs, bm⟩ := s
      cases ops <;> simp only [cc_lpf3_chip_ops.flash_stage] at hinit <;> subst hinit <;> rfl
  · intro ops s fuel dev bank h h' ret hgrant hops hboot herase hret
    rw [base_erase_granted ops s fuel dev bank h h' ret hgrant hops hboot herase]
    have hret' : ERROR_OK ≠ ret := fun e => hret e.symm
    rw [if_pos hret']
  · intro ops s fuel dev bank bank' buffer offset count h h1 h' ret x hgrant hops hbase hck hw
      hret
    rw [base_write_program fuel dev bank bank' buffer offset count { statics := s, host := h } x
      ops h1 hck hbase hops]
    rw [program_block_failure ops x.prog_op (x.write fuel dev bank' buffer count)
      { statics := s, host := h1 } ret h' hgrant hw hret]
/-! ## Theorems: flag polls -/

theorem read_from_AP_host (dev : Device) (ap_num reg data : Nat) (h : Host) :
    (cc_lpf3_read_from_AP dev ap_num reg data h).2.2 =
      { h with log := h.log ++ [PortEvent.ap_read ap_num reg] } := by
  unfold cc_lpf3_read_from_AP
  by_cases hr : (dev.read ap_num reg (h.log.count (PortEvent.ap_read ap_num reg))).1 ≠ ERROR_OK
  · simp only [if_pos hr]
  · simp only [if_neg hr]

theorem read_from_AP_value (dev : Device) (ap_num reg data : Nat) (h : Host)
    (hr : (dev.read ap_num reg (h.log.count (PortEvent.ap_read ap_num reg))).1 = ERROR_OK) :
    (cc_lpf3_read_from_AP dev ap_num reg data h).1 = ERROR_OK ∧
    (cc_lpf3_read_from_AP dev ap_num reg data h).2.1 =
      last_read_value dev ap_num reg (cc_lpf3_read_from_AP dev ap_num reg data h).2.2 := by
  rw [read_from_AP_host]
  unfold cc_lpf3_read_from_AP last_read_value
  simp [hr]

theorem replicate_succ_flatten (m : Nat) (x : List PortEvent) :
    (List.replicate (m + 1) x).flatten = x ++ (List.replicate m x).flatten := by
  simp [List.replicate_succ]

theorem tx_clear_loop_spec (dev : Device) (check_interval : Nat) :
    ∀ (polls value : Nat) (h : Host),
      ∃ m, m ≤ polls ∧
        (tx_clear_loop dev check_interval polls value h).2 =
          { h with log := h.log ++ (List.replicate m
              [PortEvent.alive_sleep check_interval,
               PortEvent.ap_read DEBUGSS_SEC_AP SEC_AP_TXCTL]).flatten } ∧
        ((∀ k, (dev.read DEBUGSS_SEC_AP SEC_AP_TXCTL k).1 = ERROR_OK) →
          value = last_read_value dev DEBUGSS_SEC_AP SEC_AP_TXCTL h →
          (tx_clear_loop dev check_interval polls value h).1 =
            last_read_value dev DEBUGSS_SEC_AP SEC_AP_TXCTL
              (tx_clear_loop dev check_interval polls value h).2) := by
  intro polls
  induction polls with
  | zero =>
    intro value h
    exact ⟨0, le_refl 0, by simp [tx_clear_loop], fun _ hv => by simpa [tx_clear_loop] using hv⟩
  | succ n ih =>
    intro value h
    by_cases hfull : value &&& SACI_TXCTL_TXD_FULL = SACI_TXCTL_TXD_FULL
    · have hstep : tx_clear_loop dev check_interval (n + 1) value h =
          tx_clear_loop dev check_interval n
            (cc_lpf3_read_from_AP dev DEBUGSS_SEC_AP SEC_AP_TXCTL value
              { h with log := h.log ++ [PortEvent.alive_sleep check_interval] }).2.1
            (cc_lpf3_read_from_AP dev DEBUGSS_SEC_AP SEC_AP_TXCTL value
              { h with log := h.log ++ [PortEvent.alive_sleep check_interval] }).2.2 := by
        rw [tx_clear_loop, if_pos hfull]
      obtain ⟨m, hm, hlog, hval⟩ := ih
        (cc_lpf3_read_from_AP dev DEBUGSS_SEC_AP SEC_AP_TXCTL value
          { h with log := h.log ++ [PortEvent.alive_sleep check_interval] }).2.1
        (cc_lpf3_read_from_AP dev DEBUGSS_SEC_AP SEC_AP_TXCTL value
          { h with log := h.log ++ [PortEvent.alive_sleep check_interval] }).2.2
      refine ⟨m + 1, Nat.succ_le_succ hm, ?_, ?_⟩
      · rw [hstep, hlog, read_from_AP_host, replicate_succ_flatten]
        simp
      · intro hok _
        rw [hstep]
        exact hval hok (read_from_AP_value dev _ _ value _ (hok _)).2
    · refine ⟨0, Nat.zero_le _, ?_, ?_⟩
      · rw [tx_clear_loop, if_neg hfull]
        simp
      · intro _ hv
        rw [tx_clear_loop, if_neg hfull]
        exact hv

theorem rx_ready_loop_spec (dev : Device) (check_interval : Nat) :
    ∀ (polls value : Nat) (h : Host),
      ∃ m, m ≤ polls ∧
        (rx_ready_loop dev check_interval polls value h).2 =
          { h with log := h.log ++ (List.replicate m
              [PortEvent.alive_sleep check_interval,
               PortEvent.ap_read DEBUGSS_SEC_AP SEC_AP_RXCTL]).flatten } ∧
        ((∀ k, (dev.read DEBUGSS_SEC_AP SEC_AP_RXCTL k).1 = ERROR_OK) →
          value = last_read_value dev DEBUGSS_SEC_AP SEC_AP_RXCTL h →
          (rx_ready_loop dev check_interval polls value h).1 =
            last_read_value dev DEBUGSS_SEC_AP SEC_AP_RXCTL
              (rx_ready_loop dev check_interval polls value h).2) := by
  intro polls
  induction polls with
  | zero =>
    intro value h
    exact ⟨0, le_refl 0, by simp [rx_ready_loop], fun _ hv => by simpa [rx_ready_loop] using hv⟩
  | succ n ih =>
    intro value h
    by_cases hfull : value &&& SACI_RXCTL_RXD_FULL ≠ SACI_RXCTL_RXD_FULL
    · have hstep : rx_ready_loop dev check_interval (n + 1) value h =
          rx_ready_loop dev check_interval n
            (cc_lpf3_read_from_AP dev DEBUGSS_SEC_AP SEC_AP_RXCTL value
              { h with log := h.log ++ [PortEvent.alive_sleep check_interval] }).2.1
            (cc_lpf3_read_from_AP dev DEBUGSS_SEC_AP SEC_AP_RXCTL value
              { h with log := h.log ++ [PortEvent.alive_sleep check_interval] }).2.2 := by
        rw [rx_ready_loop, if_pos hfull]
      obtain ⟨m, hm, hlog, hval⟩ := ih
        (cc_lpf3_read_from_AP dev DEBUGSS_SEC_AP SEC_AP_RXCTL value
          { h with log := h.log ++ [PortEvent.alive_sleep check_interval] }).2.1
        (cc_lpf3_read_from_AP dev DEBUGSS_SEC_AP SEC_AP_RXCTL value
          { h with log := h.log ++ [PortEvent.alive_sleep check_interval] }).2.2
      refine ⟨m + 1, Nat.succ_le_succ hm, ?_, ?_⟩
      · rw [hstep, hlog, read_from_AP_host, replicate_succ_flatten]
        simp
      · intro hok _
        rw [hstep]
        exact hval hok (read_from_AP_value dev _ _ value _ (hok _)).2
    · refine ⟨0, Nat.zero_le _, ?_, ?_⟩
      · rw [rx_ready_loop, if_neg hfull]
        simp
      · intro _ hv
        rw [rx_ready_loop, if_neg hfull]
        exact hv

theorem wait_tx_unfold (dev : Device) (h : Host) :
    cc_lpf3_wait_tx_data_clear dev h =
      if (tx_clear_loop dev 100 10
            (cc_lpf3_read_from_AP dev DEBUGSS_SEC_AP SEC_AP_TXCTL dev.uninit h).2.1
            (cc_lpf3_read_from_AP dev DEBUGSS_SEC_AP SEC_AP_TXCTL dev.uninit h).2.2).1 &&&
          SACI_TXCTL_TXD_FULL = SACI_TXCTL_TXD_FULL
      then (SACI_ERROR_TXD_FULL_TO,
        (tx_clear_loop dev 100 10
            (cc_lpf3_read_from_AP dev DEBUGSS_SEC_AP SEC_AP_TXCTL dev.uninit h).2.1
            (cc_lpf3_read_from_AP dev DEBUGSS_SEC_AP SEC_AP_TXCTL dev.uninit h).2.2).2)
      else (ERROR_OK,
        (tx_clear_loop dev 100 10
            (cc_lpf3_read_from_AP dev DEBUGSS_SEC_AP SEC_AP_TXCTL dev.uninit h).2.1
            (cc_lpf3_read_from_AP dev DEBUGSS_SEC_AP SEC_AP_TXCTL dev.uninit h).2.2).2) :=
  rfl

theorem wait_rx_unfold (dev : Device) (h : Host) :
    cc_lpf3_wait_rx_data_ready dev h =
      if (rx_ready_loop dev 300 10
            (cc_lpf3_read_from_AP dev DEBUGSS_SEC_AP SEC_AP_RXCTL dev.uninit h).2.1
            (cc_lpf3_read_from_AP dev DEBUGSS_SEC_AP SEC_AP_RXCTL dev.uninit h).2.2).1 &&&
          SACI_RXCTL_RXD_FULL ≠ SACI_RXCTL_RXD_FULL
      then (SACI_ERROR_TXD_FULL_TO,
        (rx_ready_loop dev 300 10
            (cc_lpf3_read_from_AP dev DEBUGSS_SEC_AP SEC_AP_RXCTL dev.uninit h).2.1
            (cc_lpf3_read_from_AP dev DEBUGSS_SEC_AP SEC_AP_RXCTL dev.uninit h).2.2).2)
      else (ERROR_OK,
        (rx_ready_loop dev 300 10
            (cc_lpf3_read_from_AP dev DEBUGSS_SEC_AP SEC_AP_RXCTL dev.uninit h).2.1
            (cc_lpf3_read_from_AP dev DEBUGSS_SEC_AP SEC_AP_RXCTL dev.uninit h).2.2).2) :=
  rfl

/-- The poll of TXD-full: its port operations, its return codes and, when the reads succeed,
which of the two it returns. -/
theorem wait_tx_spec (dev : Device) (h : Host) :
    (∃ m, m ≤ 10 ∧ (cc_lpf3_wait_tx_data_clear dev h).2 =
      { h with log := h.log ++ poll_log SEC_AP_TXCTL 100 m }) ∧
    ((cc_lpf3_wait_tx_data_clear dev h).1 = ERROR_OK ∨
      (cc_lpf3_wait_tx_data_clear dev h).1 = SACI_ERROR_TXD_FULL_TO) ∧
    ((∀ k, (dev.read DEBUGSS_SEC_AP SEC_AP_TXCTL k).1 = ERROR_OK) →
      ((cc_lpf3_wait_tx_data_clear dev h).1 = ERROR_OK ↔
        last_read_value dev DEBUGSS_SEC_AP SEC_AP_TXCTL (cc_lpf3_wait_tx_data_clear dev h).2 &&&
          SACI_TXCTL_TXD_FULL ≠ SACI_TXCTL_TXD_FULL)) := by
  obtain ⟨m, hm, hlog, hval⟩ := tx_clear_loop_spec dev 100 10
    (cc_lpf3_read_from_AP dev DEBUGSS_SEC_AP SEC_AP_TXCTL dev.uninit h).2.1
    (cc_lpf3_read_from_AP dev DEBUGSS_SEC_AP SEC_AP_TXCTL dev.uninit h).2.2
  rw [wait_tx_unfold]
  refine ⟨⟨m, hm, ?_⟩, ?_, ?_⟩
  · have : ∀ c : Prop, ∀ [Decidable c], ∀ (a b : Int) (x : Host),
        (if c then (a, x) else (b, x)).2 = x := by
      intro c _ a b x; split <;> rfl
    rw [this, hlog, read_from_AP_host]
    simp [poll_log]
  · split
    · exact Or.inr rfl
    · exact Or.inl rfl
  · intro hok
    have hv := hval hok (read_from_AP_value dev _ _ dev.uninit h (hok _)).2
    split
    · rename_i hfull
      rw [hv] at hfull
      simp only [hfull]
      decide
    · rename_i hfull
      rw [hv] at hfull
      simp only [true_iff]
      exact hfull

/-- The poll of RXD-full: its port operations, its return codes and, when the reads succeed,
which of the two it returns. -/
theorem wait_rx_spec (dev : Device) (h : Host) :
    (∃ m, m ≤ 10 ∧ (cc_lpf3_wait_rx_data_ready dev h).2 =
      { h with log := h.log ++ poll_log SEC_AP_RXCTL 300 m }) ∧
    ((cc_lpf3_wait_rx_data_ready dev h).1 = ERROR_OK ∨
      (cc_lpf3_wait_rx_data_ready dev h).1 = SACI_ERROR_TXD_FULL_TO) ∧
    ((∀ k, (dev.read DEBUGSS_SEC_AP SEC_AP_RXCTL k).1 = ERROR_OK) →
      ((cc_lpf3_wait_rx_data_ready dev h).1 = ERROR_OK ↔
        last_read_value dev DEBUGSS_SEC_AP SEC_AP_RXCTL (cc_lpf3_wait_rx_data_ready dev h).2 &&&
          SACI_RXCTL_RXD_FULL = SACI_RXCTL_RXD_FULL)) := by
  obtain ⟨m, hm, hlog, hval⟩ := rx_ready_loop_spec dev 300 10
    (cc_lpf3_read_from_AP dev DEBUGSS_SEC_AP SEC_AP_RXCTL dev.uninit h).2.1
    (cc_lpf3_read_from_AP dev DEBUGSS_SEC_AP SEC_AP_RXCTL dev.uninit h).2.2
  rw [wait_rx_unfold]
  refine ⟨⟨m, hm, ?_⟩, ?_, ?_⟩
  · have : ∀ c : Prop, ∀ [Decidable c], ∀ (a b : Int) (x : Host),
        (if c then (a, x) else (b, x)).2 = x := by
      intro c _ a b x; split <;> rfl
    rw [this, hlog, read_from_AP_host]
    simp [poll_log]
  · split
    · exact Or.inr rfl
    · exact Or.inl rfl
  · intro hok
    have hv := hval hok (read_from_AP_value dev _ _ dev.uninit h (hok _)).2
    split
    · rename_i hfull
      rw [hv] at hfull
      simp only [hfull]
      decide
    · rename_i hfull
      rw [hv] at hfull
      simp only [true_iff]
      exact not_not.mp hfull

theorem poll_log_counts (reg check_interval m : Nat) :
    (poll_log reg check_interval m).count (PortEvent.ap_read DEBUGSS_SEC_AP reg) = m + 1 ∧
    (poll_log reg check_interval m).count (PortEvent.alive_sleep check_interval) = m ∧
    (poll_log reg check_interval m).length = 2 * m + 1 := by
  induction m with
  | zero => simp [poll_log]
  | succ n ih =>
    unfold poll_log at ih ⊢
    rw [replicate_succ_flatten]
    simp only [List.count_cons, List.count_append, List.length_cons, List.length_append] at ih ⊢
    simp at ih ⊢
    omega

theorem wait_rx_ok_of_ready (dev : Device)
    (hready : ∀ k, dev.read DEBUGSS_SEC_AP SEC_AP_RXCTL k = (ERROR_OK, SACI_RXCTL_RXD_FULL))
    (x : Host) : (cc_lpf3_wait_rx_data_ready dev x).1 = ERROR_OK := by
  have hok : ∀ k, (dev.read DEBUGSS_SEC_AP SEC_AP_RXCTL k).1 = ERROR_OK := by
    intro k; rw [hready k]
  refine ((wait_rx_spec dev x).2.2 hok).mpr ?_
  unfold last_read_value
  rw [hready]
  decide

theorem wait_tx_ok_of_clear (dev : Device)
    (hclear : ∀ k, dev.read DEBUGSS_SEC_AP SEC_AP_TXCTL k = (ERROR_OK, 0))
    (x : Host) : (cc_lpf3_wait_tx_data_clear dev x).1 = ERROR_OK := by
  have hok : ∀ k, (dev.read DEBUGSS_SEC_AP SEC_AP_TXCTL k).1 = ERROR_OK := by
    intro k; rw [hclear k]
  refine ((wait_tx_spec dev x).2.2 hok).mpr ?_
  unfold last_read_value
  rw [hclear]
  decide

/-- C20: each flag poll is bounded.  From any state and on any device,
`cc_lpf3_wait_tx_data_clear` appends to the log one read of TXCTL and then `m ≤ 10` times a
sleep of 100 ms (one tenth of the 1000 ms budget) and another read of TXCTL, so at most 11
reads and 10 sleeps; it returns `ERROR_OK` or the timeout error; and when the reads succeed it
returns `ERROR_OK` exactly when the last value read has TXD-full clear.
`cc_lpf3_wait_rx_data_ready` does the same on RXCTL with sleeps of 300 ms (one tenth of
3000 ms), and returns `ERROR_OK` exactly when the last value read has RXD-full set.  The bound
is reached: on a device whose TXD stays full the poll makes 11 reads and 10 sleeps and returns
the timeout error. -/
theorem flag_polls_are_bounded (dev : Device) (h : Host) :
    (SACI_TXD_FULL_CHECK_TIMEOUT = 1000 ∧ SACI_RXD_READY_CHECK_TIMEOUT = 3000) ∧
    (∃ m, m ≤ 10 ∧
      (cc_lpf3_wait_tx_data_clear dev h).2 =
        { h with log := h.log ++ poll_log SEC_AP_TXCTL (SACI_TXD_FULL_CHECK_TIMEOUT / 10) m } ∧
      (poll_log SEC_AP_TXCTL (SACI_TXD_FULL_CHECK_TIMEOUT / 10) m).count
        (PortEvent.ap_read DEBUGSS_SEC_AP SEC_AP_TXCTL) = m + 1 ∧
      (poll_log SEC_AP_TXCTL (SACI_TXD_FULL_CHECK_TIMEOUT / 10) m).count
        (PortEvent.alive_sleep (SACI_TXD_FULL_CHECK_TIMEOUT / 10)) = m ∧
      (poll_log SEC_AP_TXCTL (SACI_TXD_FULL_CHECK_TIMEOUT / 10) m).length = 2 * m + 1) ∧
    ((cc_lpf3_wait_tx_data_clear dev h).1 = ERROR_OK ∨
      (cc_lpf3_wait_tx_data_clear dev h).1 = SACI_ERROR_TXD_FULL_TO) ∧
    ((∀ k, (dev.read DEBUGSS_SEC_AP SEC_AP_TXCTL k).1 = ERROR_OK) →
      ((cc_lpf3_wait_tx_data_clear dev h).1 = ERROR_OK ↔
        last_read_value dev DEBUGSS_SEC_AP SEC_AP_TXCTL (cc_lpf3_wait_tx_data_clear dev h).2 &&&
          SACI_TXCTL_TXD_FULL ≠ SACI_TXCTL_TXD_FULL)) ∧
    (∃ m, m ≤ 10 ∧
      (cc_lpf3_wait_rx_data_ready dev h).2 =
        { h with log := h.log ++ poll_log SEC_AP_RXCTL (SACI_RXD_READY_CHECK_TIMEOUT / 10) m } ∧
      (poll_log SEC_AP_RXCTL (SACI_RXD_READY_CHECK_TIMEOUT / 10) m).count
        (PortEvent.ap_read DEBUGSS_SEC_AP SEC_AP_RXCTL) = m + 1 ∧
      (poll_log SEC_AP_RXCTL (SACI_RXD_READY_CHECK_TIMEOUT / 10) m).count
        (PortEvent.alive_sleep (SACI_RXD_READY_CHECK_TIMEOUT / 10)) = m ∧
      (poll_log SEC_AP_RXCTL (SACI_RXD_READY_CHECK_TIMEOUT / 10) m).length = 2 * m + 1) ∧
    ((cc_lpf3_wait_rx_data_ready dev h).1 = ERROR_OK ∨
      (cc_lpf3_wait_rx_data_ready dev h).1 = SACI_ERROR_TXD_FULL_TO) ∧
    ((∀ k, (dev.read DEBUGSS_SEC_AP SEC_AP_RXCTL k).1 = ERROR_OK) →
      ((cc_lpf3_wait_rx_data_ready dev h).1 = ERROR_OK ↔
        last_read_value dev DEBUGSS_SEC_AP SEC_AP_RXCTL (cc_lpf3_wait_rx_data_ready dev h).2 &&&
          SACI_RXCTL_RXD_FULL = SACI_RXCTL_RXD_FULL)) ∧
    cc_lpf3_wait_tx_data_clear stuck_device { seq_num := 0, log := [] } =
      (SACI_ERROR_TXD_FULL_TO, { seq_num := 0, log := poll_log SEC_AP_TXCTL 100 10 }) ∧
    cc_lpf3_wait_tx_data_clear willing_device { seq_num := 0, log := [] } =
      (ERROR_OK, { seq_num := 0, log := poll_log SEC_AP_TXCTL 100 0 }) := by
  obtain ⟨⟨m, hm, hlog⟩, hcode, hiff⟩ := wait_tx_spec dev h
  obtain ⟨⟨n, hn, hlogr⟩, hcoder, hiffr⟩ := wait_rx_spec dev h
  have ht : SACI_TXD_FULL_CHECK_TIMEOUT / 10 = 100 := by decide
  have hr : SACI_RXD_READY_CHECK_TIMEOUT / 10 = 300 := by decide
  rw [ht, hr]
  refine ⟨⟨rfl, rfl⟩, ⟨m, hm, hlog, poll_log_counts _ _ m⟩, hcode, hiff,
    ⟨n, hn, hlogr, poll_log_counts _ _ n⟩, hcoder, hiffr, by decide, by decide⟩

/-! ## Theorems: sending a command -/

theorem wait_tx_of_ok (dev : Device) (h : Host)
    (hok : (cc_lpf3_wait_tx_data_clear dev h).1 = ERROR_OK) :
    ∃ m, m ≤ 10 ∧ cc_lpf3_wait_tx_data_clear dev h =
      (ERROR_OK, { seq_num := h.seq_num, log := h.log ++ poll_log SEC_AP_TXCTL 100 m }) := by
  obtain ⟨⟨m, hm, hlog⟩, _, _⟩ := wait_tx_spec dev h
  exact ⟨m, hm, Prod.ext hok hlog⟩

theorem write_to_AP_ok (dev : Device) (hwrite : ∀ k, dev.write k = ERROR_OK)
    (ap_num reg value : Nat) (h : Host) :
    cc_lpf3_write_to_AP dev ap_num reg value h =
      (ERROR_OK,
        { seq_num := h.seq_num, log := h.log ++ [PortEvent.ap_write ap_num reg value] }) := by
  simp [cc_lpf3_write_to_AP, hwrite]

set_option maxRecDepth 100000 in
theorem cmd_length_table_range : ∀ id : Fin 256,
    (match cmd_length_table id.val with
     | some l => decide (1 ≤ l) && decide (l ≤ 34)
     | none => true) = true := by
  decide

theorem cmd_length_table_bounds (cmd : SACI_PARAM_T) (L : Nat)
    (hlen : cmd_length_table cmd.cmd_id = some L) : 1 ≤ L ∧ L ≤ 34 := by
  have h := cmd_length_table_range ⟨cmd.cmd_id, cmd_id_lt cmd⟩
  simp only [hlen, Bool.and_eq_true, decide_eq_true_eq] at h
  exact h

theorem cmd_length_of_table (cmd : SACI_PARAM_T) (L : Nat)
    (hlen : cmd_length_table cmd.cmd_id = some L) :
    (cc_lpf3_get_cmd_word_length cmd % 65536).toNat = L := by
  have hb := cmd_length_table_bounds cmd L hlen
  rw [get_cmd_word_length_eq_table, hlen]
  simp only
  omega

/-- The parameter loop of `cc_lpf3_saci_send_cmd` when every write succeeds: it writes the
words `cmd_word .. cmd_length - 1` in order and returns `ERROR_OK`. -/
theorem send_param_loop_ok (dev : Device) (hwrite : ∀ k, dev.write k = ERROR_OK)
    (param_words : List Nat) (cmd_length : Nat) (hlen : cmd_length ≤ 255) :
    ∀ (fuel cmd_word : Nat) (h : Host), cmd_word ≤ cmd_length → cmd_length - cmd_word ≤ fuel →
      send_param_loop dev param_words cmd_length fuel cmd_word h =
        Exec.ok (ERROR_OK,
          { seq_num := h.seq_num,
            log := h.log ++ (List.range' cmd_word (cmd_length - cmd_word)).map
              (fun i => PortEvent.ap_write DEBUGSS_SEC_AP SEC_AP_TXD
                (param_words.getD i dev.uninit)) }) := by
  intro fuel
  induction fuel with
  | zero =>
    intro cmd_word h hle hfuel
    have hz : cmd_length - cmd_word = 0 := by omega
    have hnlt : ¬ cmd_word < cmd_length := by omega
    rw [send_param_loop, if_neg hnlt, hz]
    simp
  | succ n ih =>
    intro cmd_word h hle hfuel
    by_cases hlt : cmd_word < cmd_length
    · have hmod : (cmd_word + 1) % 256 = cmd_word + 1 := Nat.mod_eq_of_lt (by omega)
      have hsplit : cmd_length - cmd_word = (cmd_length - (cmd_word + 1)) + 1 := by omega
      rw [send_param_loop, if_pos hlt, write_to_AP_ok dev hwrite]
      simp only [ne_eq, not_true_eq_false, if_false, hmod]
      rw [ih (cmd_word + 1) _ (by omega) (by omega), hsplit, List.range'_succ]
      simp
    · have hz : cmd_length - cmd_word = 0 := by omega
      rw [send_param_loop, if_neg hlt, hz]
      simp

theorem saci_header_fields (cmd_id resp_seq_num cmd_specific : Nat) (hid : cmd_id < 256)
    (hseq : resp_seq_num < 256) (hspec : cmd_specific < 65536) :
    saci_header cmd_id resp_seq_num cmd_specific % 2 ^ 8 = cmd_id ∧
    saci_header cmd_id resp_seq_num cmd_specific / 2 ^ 8 % 2 ^ 8 = resp_seq_num ∧
    saci_header cmd_id resp_seq_num cmd_specific / 2 ^ 16 = cmd_specific ∧
    saci_header cmd_id resp_seq_num cmd_specific < 2 ^ 32 := by
  unfold saci_header
  rw [Nat.mod_eq_of_lt hid, Nat.mod_eq_of_lt hseq, Nat.mod_eq_of_lt hspec]
  omega

theorem param_writes_count (dev : Device) (cmd : SACI_PARAM_T) (L : Nat) :
    (param_writes dev cmd L).countP PortEvent.is_txd_write = L - 1 := by
  unfold param_writes
  rw [List.countP_map]
  have : (PortEvent.is_txd_write ∘ fun i =>
      PortEvent.ap_write DEBUGSS_SEC_AP SEC_AP_TXD (cmd.words.getD i dev.uninit)) =
      fun _ => true := by
    funext i
    simp [PortEvent.is_txd_write]
  rw [this]
  simp

theorem poll_log_no_txd_write (reg check_interval m : Nat) :
    (poll_log reg check_interval m).countP PortEvent.is_txd_write = 0 := by
  induction m with
  | zero => simp [poll_log, PortEvent.is_txd_write]
  | succ n ih =>
    unfold poll_log at ih ⊢
    rw [replicate_succ_flatten]
    simp only [List.countP_cons, List.countP_append] at ih ⊢
    simp [PortEvent.is_txd_write] at ih ⊢

theorem send_cmd_log_count (dev : Device) (cmd : SACI_PARAM_T) (L m1 m2 m3 : Nat)
    (hL : 1 ≤ L) :
    (send_cmd_log dev cmd L m1 m2 m3).countP PortEvent.is_txd_write = L := by
  unfold send_cmd_log
  by_cases hgt : L > 1
  · simp only [if_pos hgt, List.countP_append, poll_log_no_txd_write, param_writes_count]
    simp [PortEvent.is_txd_write, DEBUGSS_SEC_AP, SEC_AP_TXD, SEC_AP_TXCTL]
    omega
  · simp only [if_neg hgt, List.countP_append, poll_log_no_txd_write]
    simp [PortEvent.is_txd_write, DEBUGSS_SEC_AP, SEC_AP_TXD, SEC_AP_TXCTL]
    omega

/-- C18: for every command whose identifier has table length `L`, when every TX-full poll
returns with the flag clear and every register write succeeds, `cc_lpf3_saci_send_cmd` (with
fuel for the `L - 1` rounds of its parameter loop) returns `ERROR_OK` and has performed, in
order: a TX-full poll, a write of the command-start bit (value 2) to TXCTL, a write of the
header word `common.val` to TXD; then, only if `L > 1`, a TX-full poll, a write of 0 to TXCTL
and the writes of the command words `1 .. L-1` to TXD; then a final TX-full poll.  Exactly `L`
words are written to TXD.  The header word packs the command id in bits 7:0, the sequence
number in bits 15:8 and the command-specific field in bits 31:16. -/
theorem send_cmd_frames_command (fuel : Nat) (dev : Device) (cmd : SACI_PARAM_T) (h : Host)
    (L : Nat) (hlen : cmd_length_table cmd.cmd_id = some L)
    (hpoll : ∀ x : Host, (cc_lpf3_wait_tx_data_clear dev x).1 = ERROR_OK)
    (hwrite : ∀ k, dev.write k = ERROR_OK) (hfuel : L - 1 ≤ fuel) :
    (∃ m1 m2 m3, m1 ≤ 10 ∧ m2 ≤ 10 ∧ m3 ≤ 10 ∧
      cc_lpf3_saci_send_cmd fuel dev cmd h =
        Exec.ok (ERROR_OK,
          { seq_num := h.seq_num, log := h.log ++ send_cmd_log dev cmd L m1 m2 m3 }) ∧
      (send_cmd_log dev cmd L m1 m2 m3).countP PortEvent.is_txd_write = L) ∧
    SACI_TXCTRL_CMD_START = 2 ∧
    (∀ cmd_id resp_seq_num cmd_specific : Nat, ∀ rest : List Nat,
      cmd_id < 256 → resp_seq_num < 256 → cmd_specific < 65536 →
      (SACI_PARAM_T.of_words (saci_header cmd_id resp_seq_num cmd_specific :: rest)).val =
        saci_header cmd_id resp_seq_num cmd_specific ∧
      saci_header cmd_id resp_seq_num cmd_specific % 2 ^ 8 = cmd_id ∧
      saci_header cmd_id resp_seq_num cmd_specific / 2 ^ 8 % 2 ^ 8 = resp_seq_num ∧
      saci_header cmd_id resp_seq_num cmd_specific / 2 ^ 16 = cmd_specific ∧
      saci_header cmd_id resp_seq_num cmd_specific < 2 ^ 32) := by
  have hb := cmd_length_table_bounds cmd L hlen
  have hlenN := cmd_length_of_table cmd L hlen
  refine ⟨?_, rfl, ?_⟩
  · obtain ⟨m1, hm1, hw1⟩ := wait_tx_of_ok dev h (hpoll h)
    by_cases hgt : L > 1
    · obtain ⟨m2, hm2, hw2⟩ := wait_tx_of_ok dev
        { seq_num := h.seq_num,
          log := h.log ++ poll_log SEC_AP_TXCTL 100 m1 ++
            [PortEvent.ap_write DEBUGSS_SEC_AP SEC_AP_TXCTL SACI_TXCTRL_CMD_START] ++
            [PortEvent.ap_write DEBUGSS_SEC_AP SEC_AP_TXD cmd.val] } (hpoll _)
      have hloop := send_param_loop_ok dev hwrite cmd.words L (by omega) fuel 1
        { seq_num := h.seq_num,
          log := h.log ++ poll_log SEC_AP_TXCTL 100 m1 ++
            [PortEvent.ap_write DEBUGSS_SEC_AP SEC_AP_TXCTL SACI_TXCTRL_CMD_START] ++
            [PortEvent.ap_write DEBUGSS_SEC_AP SEC_AP_TXD cmd.val] ++
            poll_log SEC_AP_TXCTL 100 m2 ++
            [PortEvent.ap_write DEBUGSS_SEC_AP SEC_AP_TXCTL 0] } hb.1 hfuel
      obtain ⟨m3, hm3, hw3⟩ := wait_tx_of_ok dev
        { seq_num := h.seq_num,
          log := h.log ++ poll_log SEC_AP_TXCTL 100 m1 ++
            [PortEvent.ap_write DEBUGSS_SEC_AP SEC_AP_TXCTL SACI_TXCTRL_CMD_START] ++
            [PortEvent.ap_write DEBUGSS_SEC_AP SEC_AP_TXD cmd.val] ++
            poll_log SEC_AP_TXCTL 100 m2 ++
            [PortEvent.ap_write DEBUGSS_SEC_AP SEC_AP_TXCTL 0] ++
            (List.range' 1 (L - 1)).map
              (fun i => PortEvent.ap_write DEBUGSS_SEC_AP SEC_AP_TXD
                (cmd.words.getD i dev.uninit)) } (hpoll _)
      refine ⟨m1, m2, m3, hm1, hm2, hm3, ?_, send_cmd_log_count dev cmd L m1 m2 m3 hb.1⟩
      unfold cc_lpf3_saci_send_cmd
      simp only [hlenN, hw1, write_to_AP_ok dev hwrite, ne_eq, not_true_eq_false, if_false,
        if_pos hgt, hw2, hloop, hw3, send_cmd_log, param_writes]
      simp [SACI_TXCTRL_CMD_START]
    · obtain ⟨m3, hm3, hw3⟩ := wait_tx_of_ok dev
        { seq_num := h.seq_num,
          log := h.log ++ poll_log SEC_AP_TXCTL 100 m1 ++
            [PortEvent.ap_write DEBUGSS_SEC_AP SEC_AP_TXCTL SACI_TXCTRL_CMD_START] ++
            [PortEvent.ap_write DEBUGSS_SEC_AP SEC_AP_TXD cmd.val] } (hpoll _)
      refine ⟨m1, 0, m3, hm1, Nat.zero_le _, hm3, ?_, send_cmd_log_count dev cmd L m1 0 m3 hb.1⟩
      unfold cc_lpf3_saci_send_cmd
      simp only [hlenN, hw1, write_to_AP_ok dev hwrite, ne_eq, not_true_eq_false, if_false,
        if_neg hgt, hw3, send_cmd_log]
      simp [SACI_TXCTRL_CMD_START]
  · intro cmd_id resp_seq_num cmd_specific rest hid hseq hspec
    exact ⟨by simp [SACI_PARAM_T.of_words, SACI_PARAM_T.val, List.range_succ_eq_map],
      saci_header_fields cmd_id resp_seq_num cmd_specific hid hseq hspec⟩

/-- Witness of C18: the erase-chip command (table length 2) on a device that takes every
word at once. -/
theorem send_cmd_frames_command_witness :
    ∃ m1 m2 m3, m1 ≤ 10 ∧ m2 ≤ 10 ∧ m3 ≤ 10 ∧
      cc_lpf3_saci_send_cmd 8 willing_device
          (SACI_PARAM_T.of_words [saci_header SACI_FLASH_ERASE_CHIP 1 0, FLASH_KEY])
          { seq_num := 1, log := [] } =
        Exec.ok (ERROR_OK,
          { seq_num := 1,
            log := [] ++ send_cmd_log willing_device
              (SACI_PARAM_T.of_words [saci_header SACI_FLASH_ERASE_CHIP 1 0, FLASH_KEY])
              2 m1 m2 m3 }) ∧
      (send_cmd_log willing_device
        (SACI_PARAM_T.of_words [saci_header SACI_FLASH_ERASE_CHIP 1 0, FLASH_KEY])
        2 m1 m2 m3).countP PortEvent.is_txd_write = 2 :=
  (send_cmd_frames_command 8 willing_device
    (SACI_PARAM_T.of_words [saci_header SACI_FLASH_ERASE_CHIP 1 0, FLASH_KEY])
    { seq_num := 1, log := [] } 2 (by decide)
    (wait_tx_ok_of_clear willing_device (fun _ => rfl)) (fun _ => rfl) (by decide)).1

/-! ## Theorems: reading a response -/

theorem wait_rx_of_ok (dev : Device) (h : Host)
    (hok : (cc_lpf3_wait_rx_data_ready dev h).1 = ERROR_OK) :
    ∃ m, m ≤ 10 ∧ cc_lpf3_wait_rx_data_ready dev h =
      (ERROR_OK, { seq_num := h.seq_num, log := h.log ++ poll_log SEC_AP_RXCTL 300 m }) := by
  obtain ⟨⟨m, hm, hlog⟩, _, _⟩ := wait_rx_spec dev h
  exact ⟨m, hm, Prod.ext hok hlog⟩

theorem wait_rx_of_fail (dev : Device) (h : Host)
    (hfail : (cc_lpf3_wait_rx_data_ready dev h).1 ≠ ERROR_OK) :
    ∃ m, m ≤ 10 ∧ cc_lpf3_wait_rx_data_ready dev h =
      (SACI_ERROR_TXD_FULL_TO,
        { seq_num := h.seq_num, log := h.log ++ poll_log SEC_AP_RXCTL 300 m }) := by
  obtain ⟨⟨m, hm, hlog⟩, hcode, _⟩ := wait_rx_spec dev h
  rcases hcode with hc | hc
  · exact absurd hc hfail
  · exact ⟨m, hm, Prod.ext hc hlog⟩

theorem read_from_AP_eq (dev : Device) (ap_num reg data : Nat) (h : Host) :
    ∃ v, cc_lpf3_read_from_AP dev ap_num reg data h =
      ((dev.read ap_num reg (h.log.count (PortEvent.ap_read ap_num reg))).1, v,
        { seq_num := h.seq_num, log := h.log ++ [PortEvent.ap_read ap_num reg] }) := by
  unfold cc_lpf3_read_from_AP
  by_cases hr : (dev.read ap_num reg (h.log.count (PortEvent.ap_read ap_num reg))).1 ≠ ERROR_OK
  · exact ⟨data, by simp only [if_pos hr]⟩
  · refine ⟨(dev.read ap_num reg (h.log.count (PortEvent.ap_read ap_num reg))).2 % 2 ^ 32, ?_⟩
    simp only [if_neg hr]
    rw [not_not.mp hr]

/-- The payload loop of `cc_lpf3_saci_read_response` when every RX-ready poll succeeds: `n`
rounds of a poll and one read of RXD; only `status_flag` of the response changes. -/
theorem read_payload_loop_ok (dev : Device)
    (hpoll : ∀ x : Host, (cc_lpf3_wait_rx_data_ready dev x).1 = ERROR_OK) :
    ∀ (n : Nat) (cmd_resp : SACI_RESP_T) (h : Host),
      ∃ ms : List Nat, ms.length = n ∧ (∀ m ∈ ms, m ≤ 10) ∧ ∃ status_flag,
        read_payload_loop dev n cmd_resp h =
          (ERROR_OK, { cmd_resp with status_flag := status_flag },
            { seq_num := h.seq_num, log := h.log ++ read_response_log ms }) := by
  intro n
  induction n with
  | zero =>
    intro cmd_resp h
    exact ⟨[], rfl, by simp, cmd_resp.status_flag, by simp [read_payload_loop, read_response_log]⟩
  | succ k ih =>
    intro cmd_resp h
    obtain ⟨m, hm, hw⟩ := wait_rx_of_ok dev h (hpoll h)
    obtain ⟨v, hv⟩ := read_from_AP_eq dev DEBUGSS_SEC_AP SEC_AP_RXD cmd_resp.status_flag
      { seq_num := h.seq_num, log := h.log ++ poll_log SEC_AP_RXCTL 300 m }
    obtain ⟨ms, hlen, hms, sf, hloop⟩ := ih { cmd_resp with status_flag := v }
      { seq_num := h.seq_num,
        log := h.log ++ poll_log SEC_AP_RXCTL 300 m ++
          [PortEvent.ap_read DEBUGSS_SEC_AP SEC_AP_RXD] }
    refine ⟨m :: ms, by simp [hlen], ?_, sf, ?_⟩
    · intro x hx
      rcases List.mem_cons.mp hx with rfl | hx
      · exact hm
      · exact hms x hx
    · rw [read_payload_loop]
      simp only [hw, ne_eq, not_true_eq_false, if_false, hv, hloop]
      simp [read_response_log]

theorem poll_log_no_other_read (reg other check_interval m : Nat) (hne : reg ≠ other) :
    (poll_log reg check_interval m).count (PortEvent.ap_read DEBUGSS_SEC_AP other) = 0 := by
  induction m with
  | zero => simp [poll_log, List.count_cons, hne]
  | succ n ih =>
    unfold poll_log at ih ⊢
    rw [replicate_succ_flatten]
    simp only [List.count_cons, List.count_append] at ih ⊢
    simp [hne] at ih ⊢
    exact ih

theorem read_response_log_count (ms : List Nat) :
    (read_response_log ms).count (PortEvent.ap_read DEBUGSS_SEC_AP SEC_AP_RXD) = ms.length := by
  induction ms with
  | nil => simp [read_response_log]
  | cons m ms ih =>
    unfold read_response_log at ih ⊢
    simp only [List.map_cons, List.flatten_cons, List.count_append, ih,
      poll_log_no_other_read SEC_AP_RXCTL SEC_AP_RXD 300 m (by decide), List.length_cons]
    simp
    omega

theorem and_255_eq_mod (x : Nat) : x &&& 0xFF = x % 256 := by
  have := Nat.and_pow_two_sub_one_eq_mod x 8
  simpa using this

theorem of_word_fields (w : Nat) :
    (SACI_RESP_T.of_word w).cmd_id = w % 2 ^ 8 ∧
    (SACI_RESP_T.of_word w).resp_seq_num = w / 2 ^ 8 % 2 ^ 8 ∧
    (SACI_RESP_T.of_word w).result = w / 2 ^ 16 % 2 ^ 8 ∧
    (SACI_RESP_T.of_word w).data_word_count = w / 2 ^ 24 % 2 ^ 8 := by
  simp only [SACI_RESP_T.of_word, and_255_eq_mod, Nat.shiftRight_eq_div_pow]
  exact ⟨rfl, rfl, rfl, rfl⟩

/-- The call `cc_lpf3_saci_read_response` when its first RX-ready poll fails: `ERROR_FAIL`,
the response structure untouched, and no read of RXD. -/
theorem read_response_poll_fail (dev : Device) (cmd_resp : SACI_RESP_T) (h : Host)
    (hfail : (cc_lpf3_wait_rx_data_ready dev h).1 ≠ ERROR_OK) :
    cc_lpf3_saci_read_response dev cmd_resp h =
      (ERROR_FAIL, cmd_resp, (cc_lpf3_wait_rx_data_ready dev h).2) := by
  unfold cc_lpf3_saci_read_response
  generalize cc_lpf3_wait_rx_data_ready dev h = r at hfail
  obtain ⟨c, x⟩ := r
  simp only at hfail
  simp only [ne_eq, hfail, not_false_eq_true, if_true]

/-- The payload loop when the RX-ready poll of a round fails: `ERROR_FAIL` at once. -/
theorem read_payload_loop_poll_fail (dev : Device) (n : Nat) (cmd_resp : SACI_RESP_T)
    (h : Host) (hfail : (cc_lpf3_wait_rx_data_ready dev h).1 ≠ ERROR_OK) :
    read_payload_loop dev (n + 1) cmd_resp h =
      (ERROR_FAIL, cmd_resp, (cc_lpf3_wait_rx_data_ready dev h).2) := by
  rw [read_payload_loop]
  generalize cc_lpf3_wait_rx_data_ready dev h = r at hfail
  obtain ⟨c, x⟩ := r
  simp only at hfail
  simp only [ne_eq, hfail, not_false_eq_true, if_true]

/-- The call `cc_lpf3_saci_read_response` when every RX-ready poll succeeds and the read of
the header word succeeds. -/
theorem read_response_ok (dev : Device) (cmd_resp : SACI_RESP_T) (h : Host)
    (hpoll : ∀ x : Host, (cc_lpf3_wait_rx_data_ready dev x).1 = ERROR_OK)
    (hread : (dev.read DEBUGSS_SEC_AP SEC_AP_RXD
      (h.log.count (PortEvent.ap_read DEBUGSS_SEC_AP SEC_AP_RXD))).1 = ERROR_OK) :
    ∃ (ms : List Nat) (status_flag : Nat),
      ms.length = 1 + (SACI_RESP_T.of_word ((dev.read DEBUGSS_SEC_AP SEC_AP_RXD
        (h.log.count (PortEvent.ap_read DEBUGSS_SEC_AP SEC_AP_RXD))).2 % 2 ^ 32)).data_word_count ∧
      (∀ m ∈ ms, m ≤ 10) ∧
      cc_lpf3_saci_read_response dev cmd_resp h =
        (ERROR_OK,
          { SACI_RESP_T.of_word ((dev.read DEBUGSS_SEC_AP SEC_AP_RXD
              (h.log.count (PortEvent.ap_read DEBUGSS_SEC_AP SEC_AP_RXD))).2 % 2 ^ 32) with
            status_flag := status_flag },
          { seq_num := h.seq_num, log := h.log ++ read_response_log ms }) := by
  obtain ⟨m, hm, hw⟩ := wait_rx_of_ok dev h (hpoll h)
  have hcount : (h.log ++ poll_log SEC_AP_RXCTL 300 m).count
      (PortEvent.ap_read DEBUGSS_SEC_AP SEC_AP_RXD) =
      h.log.count (PortEvent.ap_read DEBUGSS_SEC_AP SEC_AP_RXD) := by
    rw [List.count_append, poll_log_no_other_read SEC_AP_RXCTL SEC_AP_RXD 300 m (by decide)]
    rfl
  have hrd : cc_lpf3_read_from_AP dev DEBUGSS_SEC_AP SEC_AP_RXD 0
      { seq_num := h.seq_num, log := h.log ++ poll_log SEC_AP_RXCTL 300 m } =
      (ERROR_OK, (dev.read DEBUGSS_SEC_AP SEC_AP_RXD
        (h.log.count (PortEvent.ap_read DEBUGSS_SEC_AP SEC_AP_RXD))).2 % 2 ^ 32,
        { seq_num := h.seq_num,
          log := h.log ++ poll_log SEC_AP_RXCTL 300 m ++
            [PortEvent.ap_read DEBUGSS_SEC_AP SEC_AP_RXD] }) := by
    unfold cc_lpf3_read_from_AP
    simp only [hcount, hread, ne_eq, not_true_eq_false, if_false]
  generalize (dev.read DEBUGSS_SEC_AP SEC_AP_RXD
      (h.log.count (PortEvent.ap_read DEBUGSS_SEC_AP SEC_AP_RXD))).2 % 2 ^ 32 = w at hrd ⊢
  have hn : (SACI_RESP_T.of_word w).data_word_count &&& 0xFF =
      (SACI_RESP_T.of_word w).data_word_count := by
    simp only [SACI_RESP_T.of_word, Nat.and_assoc, Nat.and_self]
  by_cases hzero : (SACI_RESP_T.of_word w).data_word_count = 0
  · refine ⟨[m], 0, by simp [hzero], by simpa using hm, ?_⟩
    unfold cc_lpf3_saci_read_response
    have hz : w >>> 24 &&& 255 = 0 := hzero
    simp only [hw, ne_eq, not_true_eq_false, if_false, hrd, hn, hzero]
    simp [read_response_log, SACI_RESP_T.of_word, hz]
  · obtain ⟨ms, hlen, hms, sf, hloop⟩ := read_payload_loop_ok dev hpoll
      (SACI_RESP_T.of_word w).data_word_count (SACI_RESP_T.of_word w)
      { seq_num := h.seq_num,
        log := h.log ++ poll_log SEC_AP_RXCTL 300 m ++
          [PortEvent.ap_read DEBUGSS_SEC_AP SEC_AP_RXD] }
    refine ⟨m :: ms, sf, by simp [hlen]; omega, ?_, ?_⟩
    · intro x hx
      rcases List.mem_cons.mp hx with rfl | hx
      · exact hm
      · exact hms x hx
    · unfold cc_lpf3_saci_read_response
      simp only [hw, ne_eq, not_true_eq_false, if_false, hrd, hn, hzero, not_false_eq_true,
        if_true, hloop]
      simp [read_response_log]

/-- C19: when every RX-ready poll succeeds (and the port read of the header word succeeds),
`cc_lpf3_saci_read_response` returns `ERROR_OK` after exactly `1 + n` reads of RXD, each
directly after its own RX-ready poll, where the first word read is the header: command id in
bits 7:0, sequence number in bits 15:8, result code in bits 23:16 and payload-word count `n`
in bits 31:24.  The response returned is the decoded header; the payload words go to
`status_flag` one after another.  On any device, a first poll that runs out of its budget
makes the call return `ERROR_FAIL` without a read of RXD, and a payload poll that runs out
makes the payload loop return `ERROR_FAIL` at once; a device that announces two payload words
and never presents them gets `ERROR_FAIL`. -/
theorem read_response_reads_header_and_payload (dev : Device) (cmd_resp : SACI_RESP_T)
    (h : Host) (hpoll : ∀ x : Host, (cc_lpf3_wait_rx_data_ready dev x).1 = ERROR_OK)
    (hread : (dev.read DEBUGSS_SEC_AP SEC_AP_RXD
      (h.log.count (PortEvent.ap_read DEBUGSS_SEC_AP SEC_AP_RXD))).1 = ERROR_OK) :
    (∃ (ms : List Nat) (status_flag : Nat),
      ms.length = 1 + (SACI_RESP_T.of_word ((dev.read DEBUGSS_SEC_AP SEC_AP_RXD
        (h.log.count (PortEvent.ap_read DEBUGSS_SEC_AP SEC_AP_RXD))).2 % 2 ^ 32)).data_word_count ∧
      (∀ m ∈ ms, m ≤ 10) ∧
      cc_lpf3_saci_read_response dev cmd_resp h =
        (ERROR_OK,
          { SACI_RESP_T.of_word ((dev.read DEBUGSS_SEC_AP SEC_AP_RXD
              (h.log.count (PortEvent.ap_read DEBUGSS_SEC_AP SEC_AP_RXD))).2 % 2 ^ 32) with
            status_flag := status_flag },
          { seq_num := h.seq_num, log := h.log ++ read_response_log ms }) ∧
      (read_response_log ms).count (PortEvent.ap_read DEBUGSS_SEC_AP SEC_AP_RXD) =
        1 + (SACI_RESP_T.of_word ((dev.read DEBUGSS_SEC_AP SEC_AP_RXD
          (h.log.count (PortEvent.ap_read DEBUGSS_SEC_AP SEC_AP_RXD))).2 % 2 ^ 32)).data_word_count) ∧
    (∀ w : Nat,
      (SACI_RESP_T.of_word w).cmd_id = w % 2 ^ 8 ∧
      (SACI_RESP_T.of_word w).resp_seq_num = w / 2 ^ 8 % 2 ^ 8 ∧
      (SACI_RESP_T.of_word w).result = w / 2 ^ 16 % 2 ^ 8 ∧
      (SACI_RESP_T.of_word w).data_word_count = w / 2 ^ 24 % 2 ^ 8) ∧
    (∀ (other : Device) (r : SACI_RESP_T) (x : Host),
      (cc_lpf3_wait_rx_data_ready other x).1 ≠ ERROR_OK →
      cc_lpf3_saci_read_response other r x =
        (ERROR_FAIL, r, (cc_lpf3_wait_rx_data_ready other x).2)) ∧
    (∀ (other : Device) (k : Nat) (r : SACI_RESP_T) (x : Host),
      (cc_lpf3_wait_rx_data_ready other x).1 ≠ ERROR_OK →
      read_payload_loop other (k + 1) r x =
        (ERROR_FAIL, r, (cc_lpf3_wait_rx_data_ready other x).2)) ∧
    cc_lpf3_saci_read_response truncating_device (SACI_RESP_T.of_word 0)
        { seq_num := 0, log := [] } =
      (ERROR_FAIL, SACI_RESP_T.of_word 0x02000009,
        { seq_num := 0,
          log := read_response_log [0] ++ poll_log SEC_AP_RXCTL 300 10 }) ∧
    cc_lpf3_saci_read_response silent_device (SACI_RESP_T.of_word 0)
        { seq_num := 0, log := [] } =
      (ERROR_FAIL, SACI_RESP_T.of_word 0,
        { seq_num := 0, log := poll_log SEC_AP_RXCTL 300 10 }) := by
  obtain ⟨ms, sf, hlen, hms, heq⟩ := read_response_ok dev cmd_resp h hpoll hread
  refine ⟨⟨ms, sf, hlen, hms, heq, ?_⟩, of_word_fields, ?_, ?_, by decide, by decide⟩
  · rw [read_response_log_count, hlen]
  · intro other r x hfail
    exact read_response_poll_fail other r x hfail
  · intro other k r x hfail
    exact read_payload_loop_poll_fail other k r x hfail

/-- Witness of C19: a device whose response header announces two payload words; the call
reads three words of RXD, each after its own poll. -/
theorem read_response_reads_header_and_payload_witness :
    ∃ (ms : List Nat) (status_flag : Nat),
      ms.length = 1 + (SACI_RESP_T.of_word 0x02000009).data_word_count ∧
      (∀ m ∈ ms, m ≤ 10) ∧
      cc_lpf3_saci_read_response payload_device (SACI_RESP_T.of_word 0)
          { seq_num := 0, log := [] } =
        (ERROR_OK, { SACI_RESP_T.of_word 0x02000009 with status_flag := status_flag },
          { seq_num := 0, log := [] ++ read_response_log ms }) ∧
      (read_response_log ms).count (PortEvent.ap_read DEBUGSS_SEC_AP SEC_AP_RXD) =
        1 + (SACI_RESP_T.of_word 0x02000009).data_word_count :=
  (read_response_reads_header_and_payload payload_device (SACI_RESP_T.of_word 0)
    { seq_num := 0, log := [] } (wait_rx_ok_of_ready payload_device (fun _ => rfl)) rfl).1

/-! ## Theorems: response checks of the pipelined write -/

/-- One round of the sector loop that consumes a response: the sector is sent, the response
read, and the checks of lines 474-499 applied to it. -/
theorem sector_loop_consume (dev : Device) (tx_data : List Nat) (base k sector_index : Nat)
    (s : SectorTx) (ret_val : Int) (cmd_resp : SACI_RESP_T) (h2 : Host)
    (hlt : s.last_resp_seq_num < (base + sector_index + 2 ^ 32 - 1) % 2 ^ 32)
    (hread : cc_lpf3_saci_read_response dev s.cmd_resp
      (cc_lpf3_saci_send_tx_words dev (tx_data.drop (sector_index * MAIN_SECTOR_SIZE_WORDS))
        MAIN_SECTOR_SIZE_WORDS s.host).2 = (ret_val, cmd_resp, h2)) :
    sector_loop dev tx_data base (k + 1) sector_index s =
      if ret_val ≠ ERROR_OK then s.break_with cmd_resp h2
      else if cmd_resp.cmd_id ≠ SACI_FLASH_PROG_MAIN_PIPELINED then s.break_with cmd_resp h2
      else if cmd_resp.result ≠ SCR_SUCCESS then s.break_with cmd_resp h2
      else if cmd_resp.data_word_count ≠ 0 then s.break_with cmd_resp h2
      else if adjust_seq_num cmd_resp.resp_seq_num s.last_resp_seq_num ≠
            (base + sector_index) % 2 ^ 32
          ∧ adjust_seq_num cmd_resp.resp_seq_num s.last_resp_seq_num ≠
            (base + sector_index + 2 ^ 32 - 1) % 2 ^ 32 then
        s.break_with cmd_resp h2
      else
        sector_loop dev tx_data base k (sector_index + 1)
          { ret_val := ret_val,
            last_resp_seq_num := adjust_seq_num cmd_resp.resp_seq_num s.last_resp_seq_num,
            cmd_resp := cmd_resp, host := h2 } := by
  rw [sector_loop]
  simp only [hlt, if_true, hread, SectorTx.break_with]

/-- One round of the drain loop that runs: the response is read, whatever the read returns,
and the checks of lines 508-531 applied to it. -/
theorem drain_loop_consume (dev : Device) (base num_sectors fuel : Nat) (s : SectorTx)
    (hne : s.last_resp_seq_num ≠ (base + num_sectors + 2 ^ 32 - 1) % 2 ^ 32) :
    drain_loop dev base num_sectors (fuel + 1) s =
      if (cc_lpf3_saci_read_response dev s.cmd_resp s.host).2.1.cmd_id ≠
          SACI_FLASH_PROG_MAIN_PIPELINED then
        Exec.ok (s.break_with (cc_lpf3_saci_read_response dev s.cmd_resp s.host).2.1
          (cc_lpf3_saci_read_response dev s.cmd_resp s.host).2.2)
      else if (cc_lpf3_saci_read_response dev s.cmd_resp s.host).2.1.result ≠ SCR_SUCCESS then
        Exec.ok (s.break_with (cc_lpf3_saci_read_response dev s.cmd_resp s.host).2.1
          (cc_lpf3_saci_read_response dev s.cmd_resp s.host).2.2)
      else if (cc_lpf3_saci_read_response dev s.cmd_resp s.host).2.1.data_word_count ≠ 0 then
        Exec.ok (s.break_with (cc_lpf3_saci_read_response dev s.cmd_resp s.host).2.1
          (cc_lpf3_saci_read_response dev s.cmd_resp s.host).2.2)
      else if adjust_seq_num (cc_lpf3_saci_read_response dev s.cmd_resp s.host).2.1.resp_seq_num
            s.last_resp_seq_num ≠ (base + num_sectors + 2 ^ 32 - 1) % 2 ^ 32
          ∧ adjust_seq_num (cc_lpf3_saci_read_response dev s.cmd_resp s.host).2.1.resp_seq_num
            s.last_resp_seq_num ≠ (base + num_sectors + 2 ^ 32 - 2) % 2 ^ 32 then
        Exec.ok (s.break_with (cc_lpf3_saci_read_response dev s.cmd_resp s.host).2.1
          (cc_lpf3_saci_read_response dev s.cmd_resp s.host).2.2)
      else
        drain_loop dev base num_sectors fuel
          { s with
            last_resp_seq_num :=
              adjust_seq_num (cc_lpf3_saci_read_response dev s.cmd_resp s.host).2.1.resp_seq_num
                s.last_resp_seq_num,
            cmd_resp := (cc_lpf3_saci_read_response dev s.cmd_resp s.host).2.1,
            host := (cc_lpf3_saci_read_response dev s.cmd_resp s.host).2.2 } := by
  rw [drain_loop]
  simp only [hne, ne_eq, not_false_eq_true, if_true, SectorTx.break_with]

/-- The drain loop never sets `ret_val` back to success. -/
theorem drain_loop_keeps_failure (dev : Device) (base num_sectors : Nat) :
    ∀ (fuel : Nat) (s s' : SectorTx), drain_loop dev base num_sectors fuel s = Exec.ok s' →
      s.ret_val = ERROR_FAIL → s'.ret_val = ERROR_FAIL := by
  intro fuel
  induction fuel with
  | zero =>
    intro s s' hrun hfail
    rw [drain_loop] at hrun
    by_cases hne : s.last_resp_seq_num ≠ (base + num_sectors + 2 ^ 32 - 1) % 2 ^ 32
    · rw [if_pos hne] at hrun
      cases hrun
    · rw [if_neg hne] at hrun
      cases hrun
      exact hfail
  | succ n ih =>
    intro s s' hrun hfail
    by_cases hne : s.last_resp_seq_num ≠ (base + num_sectors + 2 ^ 32 - 1) % 2 ^ 32
    · rw [drain_loop_consume dev base num_sectors n s hne] at hrun
      split_ifs at hrun
      · cases hrun; rfl
      · cases hrun; rfl
      · cases hrun; rfl
      · cases hrun; rfl
      · exact ih _ s' hrun hfail
    · rw [drain_loop, if_neg hne] at hrun
      cases hrun
      exact hfail

/-- The drain loop has no undefined step: when it gives no result, the fuel ran out. -/
theorem drain_loop_fault (dev : Device) (base num_sectors : Nat) :
    ∀ (fuel : Nat) (s : SectorTx) (f : Fault), drain_loop dev base num_sectors fuel s =
      Exec.error f → f = Fault.out_of_fuel := by
  intro fuel
  induction fuel with
  | zero =>
    intro s f hrun
    rw [drain_loop] at hrun
    by_cases hne : s.last_resp_seq_num ≠ (base + num_sectors + 2 ^ 32 - 1) % 2 ^ 32
    · rw [if_pos hne] at hrun
      cases hrun
      rfl
    · rw [if_neg hne] at hrun
      cases hrun
  | succ n ih =>
    intro s f hrun
    by_cases hne : s.last_resp_seq_num ≠ (base + num_sectors + 2 ^ 32 - 1) % 2 ^ 32
    · rw [drain_loop_consume dev base num_sectors n s hne] at hrun
      split_ifs at hrun
      · exact ih _ f hrun
    · rw [drain_loop, if_neg hne] at hrun
      cases hrun

/-- After a `break` of the sector loop `cc_lpf3_saci_send_sector_tx` cannot return success:
it returns `ERROR_FAIL` when the drain loop ends. -/
theorem send_sector_tx_after_break (fuel : Nat) (dev : Device) (tx_data : List Nat)
    (length : Nat) (cmd : SACI_PARAM_T) (h : Host)
    (hbreak : (sector_loop dev tx_data cmd.resp_seq_num
      (((length + LPF3_MAIN_FLASH_SECTOR_SIZE - 1) % 2 ^ 32) / LPF3_MAIN_FLASH_SECTOR_SIZE) 0
      { ret_val := ERROR_OK, last_resp_seq_num := (cmd.resp_seq_num + 2 ^ 32 - 1) % 2 ^ 32,
        cmd_resp := SACI_RESP_T.uninit dev, host := h }).ret_val = ERROR_FAIL) :
    cc_lpf3_saci_send_sector_tx fuel dev tx_data length cmd h = Exec.error Fault.out_of_fuel ∨
    ∃ h', cc_lpf3_saci_send_sector_tx fuel dev tx_data length cmd h =
      Exec.ok (ERROR_FAIL, h') := by
  unfold cc_lpf3_saci_send_sector_tx
  simp only
  generalize hs : sector_loop dev tx_data cmd.resp_seq_num
      (((length + LPF3_MAIN_FLASH_SECTOR_SIZE - 1) % 2 ^ 32) / LPF3_MAIN_FLASH_SECTOR_SIZE) 0
      { ret_val := ERROR_OK, last_resp_seq_num := (cmd.resp_seq_num + 2 ^ 32 - 1) % 2 ^ 32,
        cmd_resp := SACI_RESP_T.uninit dev, host := h } = sb at hbreak
  generalize hd : drain_loop dev cmd.resp_seq_num
      (((length + LPF3_MAIN_FLASH_SECTOR_SIZE - 1) % 2 ^ 32) / LPF3_MAIN_FLASH_SECTOR_SIZE)
      fuel sb = r
  rcases r with s' | f
  · right
    exact ⟨s'.host, by simp only [drain_loop_keeps_failure dev _ _ fuel sb s' hd hbreak]⟩
  · left
    rw [drain_loop_fault dev _ _ fuel sb f hd]

/-- Counterexample to C11 as stated: with 3 sectors and base sequence number 10, on a device
whose responses carry the sequence numbers 10 and then 12 (12 is not the successor of 10),
`cc_lpf3_saci_send_sector_tx` sends all three sectors, reads the two responses and returns
`ERROR_OK`; the stream 10, 11, 12 is accepted as well. -/
theorem gapped_stream_is_accepted :
    (10 + 1) % 256 ≠ 12 ∧
    send_script_result 8 10 3 [sector_response 10, sector_response 12] =
      some (ERROR_OK, 3, 2) ∧
    send_script_result 8 10 3 [sector_response 10, sector_response 11, sector_response 12] =
      some (ERROR_OK, 3, 3) := by
  decide

/-- C11 (amended): in a pipelined write a response that passes the field checks is rejected
exactly when its sequence number, lifted over a wrap of the low byte, is neither the number of
the sector just sent (`base + sector_index`) nor the one before it.  While streaming, such a
response ends the sector loop with `ret_val = ERROR_FAIL` and the port log ending at the read
of that response, and the function then cannot return success; a response inside the window
lets the loop go on with `last_resp_seq_num` set to it.  While draining, the window is
`base + num_sectors - 1` and `base + num_sectors - 2`, and a response outside it makes the
drain loop return at once with `ERROR_FAIL`.  With 3 sectors and base 10 the streams 10, 13
and 12 and 10, 11, 14 are rejected; the stream 12 is rejected before the third sector is
sent. -/
theorem out_of_window_response_is_rejected (dev : Device) (tx_data : List Nat) (base : Nat) :
    (∀ (k sector_index : Nat) (s : SectorTx) (cmd_resp : SACI_RESP_T) (h2 : Host),
      s.last_resp_seq_num < (base + sector_index + 2 ^ 32 - 1) % 2 ^ 32 →
      cc_lpf3_saci_read_response dev s.cmd_resp
        (cc_lpf3_saci_send_tx_words dev (tx_data.drop (sector_index * MAIN_SECTOR_SIZE_WORDS))
          MAIN_SECTOR_SIZE_WORDS s.host).2 = (ERROR_OK, cmd_resp, h2) →
      cmd_resp.cmd_id = SACI_FLASH_PROG_MAIN_PIPELINED → cmd_resp.result = SCR_SUCCESS →
      cmd_resp.data_word_count = 0 →
      (adjust_seq_num cmd_resp.resp_seq_num s.last_resp_seq_num ≠ (base + sector_index) % 2 ^ 32 →
        adjust_seq_num cmd_resp.resp_seq_num s.last_resp_seq_num ≠
          (base + sector_index + 2 ^ 32 - 1) % 2 ^ 32 →
        sector_loop dev tx_data base (k + 1) sector_index s = s.break_with cmd_resp h2) ∧
      (adjust_seq_num cmd_resp.resp_seq_num s.last_resp_seq_num = (base + sector_index) % 2 ^ 32 ∨
        adjust_seq_num cmd_resp.resp_seq_num s.last_resp_seq_num =
          (base + sector_index + 2 ^ 32 - 1) % 2 ^ 32 →
        sector_loop dev tx_data base (k + 1) sector_index s =
          sector_loop dev tx_data base k (sector_index + 1)
            { ret_val := ERROR_OK,
              last_resp_seq_num := adjust_seq_num cmd_resp.resp_seq_num s.last_resp_seq_num,
              cmd_resp := cmd_resp, host := h2 })) ∧
    (∀ (num_sectors fuel : Nat) (s : SectorTx),
      s.last_resp_seq_num ≠ (base + num_sectors + 2 ^ 32 - 1) % 2 ^ 32 →
      (cc_lpf3_saci_read_response dev s.cmd_resp s.host).2.1.cmd_id =
        SACI_FLASH_PROG_MAIN_PIPELINED →
      (cc_lpf3_saci_read_response dev s.cmd_resp s.host).2.1.result = SCR_SUCCESS →
      (cc_lpf3_saci_read_response dev s.cmd_resp s.host).2.1.data_word_count = 0 →
      adjust_seq_num (cc_lpf3_saci_read_response dev s.cmd_resp s.host).2.1.resp_seq_num
        s.last_resp_seq_num ≠ (base + num_sectors + 2 ^ 32 - 1) % 2 ^ 32 →
      adjust_seq_num (cc_lpf3_saci_read_response dev s.cmd_resp s.host).2.1.resp_seq_num
        s.last_resp_seq_num ≠ (base + num_sectors + 2 ^ 32 - 2) % 2 ^ 32 →
      drain_loop dev base num_sectors (fuel + 1) s =
        Exec.ok (s.break_with (cc_lpf3_saci_read_response dev s.cmd_resp s.host).2.1
          (cc_lpf3_saci_read_response dev s.cmd_resp s.host).2.2)) ∧
    (∀ (s : SectorTx) (cmd_resp : SACI_RESP_T) (h2 : Host),
      (s.break_with cmd_resp h2).ret_val = ERROR_FAIL ∧ (s.break_with cmd_resp h2).host = h2) ∧
    (∀ (fuel length : Nat) (cmd : SACI_PARAM_T) (h : Host),
      (sector_loop dev tx_data cmd.resp_seq_num
        (((length + LPF3_MAIN_FLASH_SECTOR_SIZE - 1) % 2 ^ 32) / LPF3_MAIN_FLASH_SECTOR_SIZE) 0
        { ret_val := ERROR_OK, last_resp_seq_num := (cmd.resp_seq_num + 2 ^ 32 - 1) % 2 ^ 32,
          cmd_resp := SACI_RESP_T.uninit dev, host := h }).ret_val = ERROR_FAIL →
      cc_lpf3_saci_send_sector_tx fuel dev tx_data length cmd h =
        Exec.error Fault.out_of_fuel ∨
      ∃ h', cc_lpf3_saci_send_sector_tx fuel dev tx_data length cmd h =
        Exec.ok (ERROR_FAIL, h')) ∧
    send_script_result 8 10 3 [sector_response 10, sector_response 13] =
      some (ERROR_FAIL, 3, 3) ∧
    send_script_result 8 10 3 [sector_response 12] = some (ERROR_FAIL, 2, 2) ∧
    send_script_result 8 10 3 [sector_response 10, sector_response 11, sector_response 14] =
      some (ERROR_FAIL, 3, 3) := by
  refine ⟨?_, ?_, fun _ _ _ => ⟨rfl, rfl⟩, ?_, by decide, by decide, by decide⟩
  · intro k sector_index s cmd_resp h2 hlt hread hid hres hcnt
    rw [sector_loop_consume dev tx_data base k sector_index s ERROR_OK cmd_resp h2 hlt hread]
    refine ⟨fun h1 h0 => ?_, fun hin => ?_⟩
    · simp only [ne_eq, not_true_eq_false, if_false, hid, hres, hcnt, h1, h0,
        not_false_eq_true, and_self, if_true]
    · have hnot : ¬ (adjust_seq_num cmd_resp.resp_seq_num s.last_resp_seq_num ≠
            (base + sector_index) % 2 ^ 32
          ∧ adjust_seq_num cmd_resp.resp_seq_num s.last_resp_seq_num ≠
            (base + sector_index + 2 ^ 32 - 1) % 2 ^ 32) := by
        rintro ⟨h1, h0⟩
        rcases hin with hin | hin
        · exact h1 hin
        · exact h0 hin
      simp only [ne_eq, not_true_eq_false, if_false, hid, hres, hcnt]
      rw [if_neg hnot]
  · intro num_sectors fuel s hne hid hres hcnt h1 h0
    rw [drain_loop_consume dev base num_sectors fuel s hne]
    simp only [ne_eq, not_true_eq_false, if_false, hid, hres, hcnt, h1, h0,
      not_false_eq_true, and_self, if_true]
  · intro fuel length cmd h hbreak
    exact send_sector_tx_after_break fuel dev tx_data length cmd h hbreak

/-- On `faulting_device` an RX-ready poll started after the second read of RXCTL runs out of
its budget. -/
theorem faulting_poll_fails (h : Host)
    (hcount : 2 ≤ h.log.count (PortEvent.ap_read DEBUGSS_SEC_AP SEC_AP_RXCTL)) :
    (cc_lpf3_wait_rx_data_ready faulting_device h).1 ≠ ERROR_OK := by
  obtain ⟨⟨m, _, hlog⟩, _, hiff⟩ := wait_rx_spec faulting_device h
  intro hok
  have hset := (hiff (fun _ => rfl)).mp hok
  rw [hlog] at hset
  have hidx : ¬ (h.log ++ poll_log SEC_AP_RXCTL 300 m).count
      (PortEvent.ap_read DEBUGSS_SEC_AP SEC_AP_RXCTL) - 1 < 2 := by
    rw [List.count_append, (poll_log_counts SEC_AP_RXCTL 300 m).1]
    omega
  have hval : last_read_value faulting_device DEBUGSS_SEC_AP SEC_AP_RXCTL
      { seq_num := h.seq_num, log := h.log ++ poll_log SEC_AP_RXCTL 300 m } = 0 := by
    unfold last_read_value
    simp only [faulting_device, and_self, if_true, hidx, if_false]
    rfl
  rw [hval] at hset
  exact absurd hset (by decide)

/-- The drain loop on `faulting_device` for three sectors and base 10, once the response to
the second sector was read: every read of a response times out, the response read before is
tested again and accepted, and the loop goes on. -/
theorem faulting_drain_runs_on :
    ∀ (fuel : Nat) (s : SectorTx), s.last_resp_seq_num = 11 →
      s.cmd_resp = SACI_RESP_T.of_word (sector_response 11) →
      2 ≤ s.host.log.count (PortEvent.ap_read DEBUGSS_SEC_AP SEC_AP_RXCTL) →
      drain_loop faulting_device 10 3 fuel s = Exec.error Fault.out_of_fuel := by
  intro fuel
  induction fuel with
  | zero =>
    intro s hlast _ _
    rw [drain_loop, hlast]
    rfl
  | succ n ih =>
    intro s hlast hresp hcount
    have hne : s.last_resp_seq_num ≠ (10 + 3 + 2 ^ 32 - 1) % 2 ^ 32 := by
      rw [hlast]; decide
    have hfail := faulting_poll_fails s.host hcount
    have hread := read_response_poll_fail faulting_device s.cmd_resp s.host hfail
    obtain ⟨m, _, hw⟩ := wait_rx_of_fail faulting_device s.host hfail
    rw [drain_loop_consume faulting_device 10 3 n s hne, hread, hw]
    simp only [hresp, hlast]
    have hstep : ∀ x : SectorTx, x = { s with
        last_resp_seq_num := 11,
        cmd_resp := SACI_RESP_T.of_word (sector_response 11),
        host := { seq_num := s.host.seq_num,
                  log := s.host.log ++ poll_log SEC_AP_RXCTL 300 m } } →
        drain_loop faulting_device 10 3 n x = Exec.error Fault.out_of_fuel := by
      intro x hx
      refine ih x (by rw [hx]) (by rw [hx]) ?_
      rw [hx]
      simp only [List.count_append]
      omega
    exact hstep _ rfl

/-- The sector loop on `faulting_device`: two of the three sectors are sent, the response to
the first one is read, and its result code ends the loop with `ret_val = ERROR_FAIL`. -/
theorem faulting_break_state_eq :
    faulting_break_state.ret_val = ERROR_FAIL ∧
    faulting_break_state.last_resp_seq_num = 9 ∧
    faulting_break_state.cmd_resp =
      SACI_RESP_T.of_word (sector_response 10 + SCR_FLASH_FSM_ERROR * 2 ^ 16) ∧
    faulting_break_state.host.log.countP PortEvent.is_sector = 2 ∧
    faulting_break_state.host.log.count (PortEvent.ap_read DEBUGSS_SEC_AP SEC_AP_RXD) = 1 := by
  decide

/-- The first round of the drain loop after the break on `faulting_device`: the response to
the second sector is read and passes every check. -/
theorem faulting_first_drain :
    (cc_lpf3_saci_read_response faulting_device faulting_break_state.cmd_resp
      faulting_break_state.host).2.1 = SACI_RESP_T.of_word (sector_response 11) ∧
    2 ≤ (cc_lpf3_saci_read_response faulting_device faulting_break_state.cmd_resp
      faulting_break_state.host).2.2.log.count (PortEvent.ap_read DEBUGSS_SEC_AP SEC_AP_RXCTL) ∧
    (cc_lpf3_saci_read_response faulting_device faulting_break_state.cmd_resp
      faulting_break_state.host).2.2.log.countP PortEvent.is_sector = 2 := by
  decide

/-- The call `cc_lpf3_saci_send_sector_tx` on `faulting_device` does not return. -/
theorem faulting_write_runs_on (fuel : Nat) :
    faulting_write fuel = Exec.error Fault.out_of_fuel := by
  have hrun : faulting_write fuel =
      match drain_loop faulting_device 10 3 fuel faulting_break_state with
      | Exec.error f => Exec.error f
      | Exec.ok s => Exec.ok (s.ret_val, s.host) := rfl
  have hlast := faulting_break_state_eq.2.1
  have hne : faulting_break_state.last_resp_seq_num ≠ (10 + 3 + 2 ^ 32 - 1) % 2 ^ 32 := by
    rw [hlast]; decide
  rw [hrun]
  cases fuel with
  | zero =>
    rw [drain_loop, if_pos hne]
  | succ n =>
    obtain ⟨hresp, hcount, _⟩ := faulting_first_drain
    rw [drain_loop_consume faulting_device 10 3 n faulting_break_state hne, hresp, hlast]
    have hstep : ∀ x : SectorTx, x.last_resp_seq_num = 11 →
        x.cmd_resp = SACI_RESP_T.of_word (sector_response 11) →
        x.host = (cc_lpf3_saci_read_response faulting_device faulting_break_state.cmd_resp
          faulting_break_state.host).2.2 →
        drain_loop faulting_device 10 3 n x = Exec.error Fault.out_of_fuel := by
      intro x h1 h2 h3
      exact faulting_drain_runs_on n x h1 h2 (by rw [h3]; exact hcount)
    have hid : (SACI_RESP_T.of_word (sector_response 11)).cmd_id =
        SACI_FLASH_PROG_MAIN_PIPELINED := by decide
    have hres : (SACI_RESP_T.of_word (sector_response 11)).result = SCR_SUCCESS := by decide
    have hcnt : (SACI_RESP_T.of_word (sector_response 11)).data_word_count = 0 := by decide
    have hseq : adjust_seq_num (SACI_RESP_T.of_word (sector_response 11)).resp_seq_num 9 =
        (10 + 3 + 2 ^ 32 - 2) % 2 ^ 32 := by decide
    simp only [hid, hres, hcnt, hseq, ne_eq, not_true_eq_false, if_false, and_false]
    rw [hstep _ rfl rfl rfl]

/-- C12 (the code at the failing input): three sectors, base sequence number 10, on a device
whose response to the first sector carries the result flash-FSM-error (`0x84`), whose response
to the second sector is a success with sequence number 11 and which then presents no further
response.  The check of the result code ends the sector loop with `ret_val = ERROR_FAIL` after
two sectors, and the third sector is never sent.  The function does not return then: the
`break` leaves only the `for` loop, the drain loop starts because the last expected sequence
number was not seen, reads the response to the second sector, accepts its sequence number 11 as
`base + num_sectors - 2`, and from then on every read of a response times out, the return
code of `cc_lpf3_saci_read_response` is not tested and the old response is accepted again:
`cc_lpf3_saci_send_sector_tx` does not return for any amount of fuel.  What holds for every
device: a response with a wrong command id, a result other than success or a payload-word
count other than zero ends the sector loop with `ERROR_FAIL` and the port log ending at the
read of that response, and makes the drain loop return at once; after such an end of the
sector loop the function never returns `ERROR_OK`.  On a device that goes on answering, with
a header of zeros, the write returns `ERROR_FAIL`. -/
theorem failed_sector_response_stalls_write :
    (SACI_FLASH_PROG_MAIN_PIPELINED = 0x0F ∧ SCR_SUCCESS = 0 ∧ SCR_FLASH_FSM_ERROR = 0x84) ∧
    (faulting_break_state.ret_val = ERROR_FAIL ∧
      faulting_break_state.cmd_resp.result = SCR_FLASH_FSM_ERROR ∧
      faulting_break_state.host.log.countP PortEvent.is_sector = 2 ∧
      faulting_break_state.host.log.count (PortEvent.ap_read DEBUGSS_SEC_AP SEC_AP_RXD) = 1) ∧
    (∀ fuel : Nat, faulting_write fuel = Exec.error Fault.out_of_fuel) ∧
    ((cc_lpf3_saci_read_response faulting_device faulting_break_state.cmd_resp
        faulting_break_state.host).2.1 = SACI_RESP_T.of_word (sector_response 11) ∧
      (cc_lpf3_saci_read_response faulting_device faulting_break_state.cmd_resp
        faulting_break_state.host).2.2.log.countP PortEvent.is_sector = 2) ∧
    (∀ (dev : Device) (tx_data : List Nat) (base k sector_index : Nat) (s : SectorTx)
      (cmd_resp : SACI_RESP_T) (h2 : Host),
      s.last_resp_seq_num < (base + sector_index + 2 ^ 32 - 1) % 2 ^ 32 →
      cc_lpf3_saci_read_response dev s.cmd_resp
        (cc_lpf3_saci_send_tx_words dev (tx_data.drop (sector_index * MAIN_SECTOR_SIZE_WORDS))
          MAIN_SECTOR_SIZE_WORDS s.host).2 = (ERROR_OK, cmd_resp, h2) →
      cmd_resp.cmd_id ≠ SACI_FLASH_PROG_MAIN_PIPELINED ∨ cmd_resp.result ≠ SCR_SUCCESS ∨
        cmd_resp.data_word_count ≠ 0 →
      sector_loop dev tx_data base (k + 1) sector_index s = s.break_with cmd_resp h2) ∧
    (∀ (dev : Device) (base num_sectors fuel : Nat) (s : SectorTx),
      s.last_resp_seq_num ≠ (base + num_sectors + 2 ^ 32 - 1) % 2 ^ 32 →
      (cc_lpf3_saci_read_response dev s.cmd_resp s.host).2.1.cmd_id ≠
          SACI_FLASH_PROG_MAIN_PIPELINED ∨
        (cc_lpf3_saci_read_response dev s.cmd_resp s.host).2.1.result ≠ SCR_SUCCESS ∨
        (cc_lpf3_saci_read_response dev s.cmd_resp s.host).2.1.data_word_count ≠ 0 →
      drain_loop dev base num_sectors (fuel + 1) s =
        Exec.ok (s.break_with (cc_lpf3_saci_read_response dev s.cmd_resp s.host).2.1
          (cc_lpf3_saci_read_response dev s.cmd_resp s.host).2.2)) ∧
    (∀ (s : SectorTx) (cmd_resp : SACI_RESP_T) (h2 : Host),
      (s.break_with cmd_resp h2).ret_val = ERROR_FAIL ∧ (s.break_with cmd_resp h2).host = h2) ∧
    (∀ (dev : Device) (tx_data : List Nat) (fuel length : Nat) (cmd : SACI_PARAM_T)
      (h h' : Host),
      (sector_loop dev tx_data cmd.resp_seq_num
        (((length + LPF3_MAIN_FLASH_SECTOR_SIZE - 1) % 2 ^ 32) / LPF3_MAIN_FLASH_SECTOR_SIZE) 0
        { ret_val := ERROR_OK, last_resp_seq_num := (cmd.resp_seq_num + 2 ^ 32 - 1) % 2 ^ 32,
          cmd_resp := SACI_RESP_T.uninit dev, host := h }).ret_val = ERROR_FAIL →
      cc_lpf3_saci_send_sector_tx fuel dev tx_data length cmd h ≠ Exec.ok (ERROR_OK, h')) ∧
    send_script_result 8 10 3 [0x0E + 10 * 2 ^ 8] = some (ERROR_FAIL, 2, 2) ∧
    send_script_result 8 10 3 [sector_response 10 + 0x84 * 2 ^ 16] = some (ERROR_FAIL, 2, 2) ∧
    send_script_result 8 10 3 [sector_response 10 + 1 * 2 ^ 24] = some (ERROR_FAIL, 2, 3) ∧
    send_script_result 8 10 3
        [sector_response 10, sector_response 11, 0x0E + 12 * 2 ^ 8] =
      some (ERROR_FAIL, 3, 3) ∧
    send_script_result 8 10 3
        [sector_response 10, sector_response 11, sector_response 12 + 0x84 * 2 ^ 16] =
      some (ERROR_FAIL, 3, 3) ∧
    send_script_result 8 10 3
        [sector_response 10, sector_response 11, sector_response 12 + 1 * 2 ^ 24] =
      some (ERROR_FAIL, 3, 4) := by
  refine ⟨⟨rfl, rfl, rfl⟩, ⟨faulting_break_state_eq.1, ?_, faulting_break_state_eq.2.2.2.1,
      faulting_break_state_eq.2.2.2.2⟩, faulting_write_runs_on,
    ⟨faulting_first_drain.1, faulting_first_drain.2.2⟩, ?_, ?_, fun _ _ _ => ⟨rfl, rfl⟩, ?_,
    by decide, by decide, by decide, by decide, by decide, by decide⟩
  · rw [faulting_break_state_eq.2.2.1]
    decide
  · intro dev tx_data base k sector_index s cmd_resp h2 hlt hread hbad
    rw [sector_loop_consume dev tx_data base k sector_index s ERROR_OK cmd_resp h2 hlt hread]
    simp only [ne_eq, not_true_eq_false, if_false]
    by_cases hid : cmd_resp.cmd_id = SACI_FLASH_PROG_MAIN_PIPELINED
    · by_cases hres : cmd_resp.result = SCR_SUCCESS
      · have hcnt : ¬ cmd_resp.data_word_count = 0 := by
          rcases hbad with hb | hb | hb
          · exact absurd hid hb
          · exact absurd hres hb
          · exact hb
        simp only [hid, hres, hcnt, not_true_eq_false, not_false_eq_true, if_true, if_false]
      · simp only [hid, hres, not_true_eq_false, not_false_eq_true, if_true, if_false]
    · simp only [hid, not_false_eq_true, if_true]
  · intro dev base num_sectors fuel s hne hbad
    rw [drain_loop_consume dev base num_sectors fuel s hne]
    generalize cc_lpf3_saci_read_response dev s.cmd_resp s.host = r at hbad ⊢
    by_cases hid : r.2.1.cmd_id = SACI_FLASH_PROG_MAIN_PIPELINED
    · by_cases hres : r.2.1.result = SCR_SUCCESS
      · have hcnt : ¬ r.2.1.data_word_count = 0 := by
          rcases hbad with hb | hb | hb
          · exact absurd hid hb
          · exact absurd hres hb
          · exact hb
        simp only [ne_eq, hid, hres, hcnt, not_true_eq_false, not_false_eq_true, if_true,
          if_false]
      · simp only [ne_eq, hid, hres, not_true_eq_false, not_false_eq_true, if_true, if_false]
    · simp only [ne_eq, hid, not_false_eq_true, if_true]
  · intro dev tx_data fuel length cmd h h' hbreak hok
    rcases send_sector_tx_after_break fuel dev tx_data length cmd h hbreak with hf | ⟨x, hx⟩
    · rw [hf] at hok
      cases hok
    · rw [hx] at hok
      have hcode : (ERROR_FAIL : Int) = ERROR_OK := congrArg Prod.fst (Exec.ok.inj hok)
      exact absurd hcode (by decide)
/-! ## Theorems: which commands the engine sends -/

/-- C23 (the code at the failing input): `cc_lpf3_base_verify` on the SCFG bank calls
`cc_lpf3_saci_verify_ccfg`, for every device, buffer and state, so the command it sends is
verify-ccfg-sector (`0x11`), not verify-scfg-sector (`0x1B`); on the CCFG bank it sends `0x11`
and on the MAIN bank verify-main-sectors (`0x10`).  Shown for a one-sector image of `0xFF`
bytes and for the blank check on a device that answers with success. -/
theorem base_verify_sends_ccfg_command_for_scfg :
    (SACI_FLASH_VERIFY_MAIN_SECTORS = 0x10 ∧ SACI_FLASH_VERIFY_CCFG_SECTOR = 0x11 ∧
      SACI_FLASH_VERIFY_SCFG_SECTOR = 0x1B) ∧
    (∀ (fuel : Nat) (dev : Device) (bank : flash_bank) (buffer : Option (List Byte))
        (count : Nat) (h : Host), bank.base = LPF3_FLASH_BASE_SCFG →
      cc_lpf3_base_verify fuel dev bank buffer count h =
        cc_lpf3_saci_verify_ccfg fuel dev buffer h) ∧
    (cc_lpf3_base_verify 8 willing_device (cc27xx_bank Region.scfg) (some blank_image) 0x400
        { seq_num := 0, log := [] }).code_and_commands = some (ERROR_OK, [(0x11, 0)]) ∧
    (cc_lpf3_base_verify 8 willing_device (cc27xx_bank Region.scfg) none 0
        { seq_num := 0, log := [] }).code_and_commands = some (ERROR_OK, [(0x11, 0)]) ∧
    (cc_lpf3_saci_verify_scfg 8 willing_device (some blank_image)
        { seq_num := 0, log := [] }).code_and_commands = some (ERROR_OK, [(0x1B, 0)]) ∧
    (cc_lpf3_base_verify 8 willing_device (cc27xx_bank Region.ccfg) (some blank_image) 0x800
        { seq_num := 0, log := [] }).code_and_commands = some (ERROR_OK, [(0x11, 0)]) ∧
    (cc_lpf3_base_verify 8 willing_device (cc27xx_bank Region.main) (some blank_image) 0x800
        { seq_num := 0, log := [] }).code_and_commands = some (ERROR_OK, [(0x10, 0)]) := by
  refine ⟨by decide, ?_, by decide, by decide, by decide, by decide, by decide⟩
  intro fuel dev bank buffer count h hbase
  unfold cc_lpf3_base_verify
  rw [if_pos (Or.inr hbase)]

/-- C24 (the code at the failing input): in one programming cycle of a CC27xx device (chip
erase, then writes to CCFG, SCFG and MAIN) ten commands are sent; the sequence numbers in
their headers are 0, 0, 0, 1, 0, 2, 3, 0, 4, 5 and not 0, 1, ..., 9.  The no-op command of
`cc_lpf3_prepare_write` and the program-ccfg-sector command of `cc_lpf3_write_ccfg` carry
sequence number 0 whatever the counter holds, and sending them leaves the counter as it was;
the commands built by `cc_lpf3_update_cmd_word` carry the counter and advance it by one
modulo 256. -/
theorem noop_and_prog_ccfg_skip_sequence_counter :
    cycle_commands =
      some [(0x09, 0), (0x01, 0), (0x0C, 0), (0x11, 1), (0x01, 0), (0x1A, 2), (0x1B, 3),
        (0x01, 0), (0x0F, 4), (0x10, 5)] ∧
    (cc_lpf3_prepare_write 8 willing_device
        { seq_num := 7, log := [] }).code_and_commands = some (ERROR_OK, [(0x01, 0)]) ∧
    (match cc_lpf3_prepare_write 8 willing_device { seq_num := 7, log := [] } with
      | Exec.ok (_, h) => some h.seq_num
      | Exec.error _ => none) = some 7 ∧
    (cc_lpf3_write_ccfg 8 willing_device (some blank_image) 0x800
        { seq_num := 7, log := [] }).code_and_commands =
      some (ERROR_OK, [(0x0C, 0), (0x11, 7)]) ∧
    (cc_lpf3_write_scfg 8 willing_device (some blank_image) 0x400
        { seq_num := 7, log := [] }).code_and_commands =
      some (ERROR_OK, [(0x1A, 7), (0x1B, 8)]) ∧
    (∀ (cmd_id cmd_specific : Nat) (h : Host),
      cc_lpf3_update_cmd_word cmd_id cmd_specific h =
        (saci_header cmd_id h.seq_num cmd_specific,
          { seq_num := (h.seq_num + 1) % 256, log := h.log })) := by
  refine ⟨by decide, by decide, by decide, by decide, by decide, ?_⟩
  intro cmd_id cmd_specific h
  rfl

/-! ## Theorems: the guards of the write entry point -/

theorem check_device_info_keeps_word_size (dev : Device) (bank bank1 : flash_bank)
    (h h1 : Host) (ret_val : Int)
    (hinfo : cc_lpf3_check_device_info dev bank h = (ret_val, bank1, h1)) :
    bank1.driver_priv.flash_word_size_bytes = bank.driver_priv.flash_word_size_bytes ∧
    bank1.driver_priv.driver_priv = bank.driver_priv.driver_priv ∧
    bank1.base = bank.base := by
  unfold cc_lpf3_check_device_info at hinfo
  generalize cc_lpf3_read_from_AP dev DEBUGSS_CFG_AP CFG_AP_DEVICE_STATUS
    (dev.uninit % 2 ^ 32) h = r1 at hinfo
  obtain ⟨c1, v1, x1⟩ := r1
  simp only at hinfo
  by_cases hc1 : c1 ≠ ERROR_OK
  · rw [if_pos hc1] at hinfo
    cases hinfo
    exact ⟨rfl, rfl, rfl⟩
  · rw [if_neg hc1] at hinfo
    generalize cc_lpf3_read_from_AP dev DEBUGSS_CFG_AP CFG_AP_DEVICE_ID_READ v1 x1 = r2
      at hinfo
    obtain ⟨c2, v2, x2⟩ := r2
    simp only at hinfo
    by_cases hc2 : c2 = ERROR_OK
    · rw [if_pos hc2] at hinfo
      cases hinfo
      exact ⟨rfl, rfl, rfl⟩
    · rw [if_neg hc2] at hinfo
      cases hinfo
      exact ⟨rfl, rfl, rfl⟩

/-- C25 (the code at the failing input): a write to the MAIN bank of a bank that was never
identified (`did` and `flash_word_size_bytes` zero), on a device in SACI mode whose
device-identifier register reads a non-zero value, reaches the alignment test
`offset % flash_word_size_bytes` with a zero flash word size: the call has no defined result.
This holds for every device and bank with a zero flash word size once
`cc_lpf3_check_device_info` and `cc_lpf3_prepare_write` succeed and the identifier read is not
zero, because `cc_lpf3_check_device_info` stores the identifier in `did` just before the
`did == 0` guard is tested. -/
theorem unidentified_bank_reaches_zero_modulus :
    cc_lpf3_base_write 8 willing_device (unidentified_bank Region.main) (some []) 0 0
        (driver_at CC_LPF3_FLASH_STAGE_ERASE) = Exec.error Fault.undefined_behaviour ∧
    (unidentified_bank Region.main).driver_priv.did = 0 ∧
    (cc_lpf3_check_device_info willing_device (unidentified_bank Region.main)
        { seq_num := 0, log := [] }).2.1.driver_priv.did = 0x0BB9802F ∧
    (∀ (fuel : Nat) (dev : Device) (bank bank1 : flash_bank) (buffer : Option (List Byte))
        (offset count : Nat) (d : Driver) (h1 h2 : Host),
      bank.driver_priv.flash_word_size_bytes = 0 →
      cc_lpf3_check_device_info dev bank d.host = (ERROR_OK, bank1, h1) →
      cc_lpf3_prepare_write fuel dev h1 = Exec.ok (ERROR_OK, h2) →
      bank1.driver_priv.did ≠ 0 →
      cc_lpf3_base_write fuel dev bank buffer offset count d =
        Exec.error Fault.undefined_behaviour) := by
  refine ⟨by decide, by decide, by decide, ?_⟩
  intro fuel dev bank bank1 buffer offset count d h1 h2 hzero hinfo hprep hdid
  have hws := (check_device_info_keeps_word_size dev bank bank1 d.host h1 ERROR_OK hinfo).1
  rw [hzero] at hws
  unfold cc_lpf3_base_write cc_lpf3_base_write_checks
  simp [hinfo, hprep, hdid, hws]

/-- The call `cc_lpf3_prepare_write` on a device whose boot status is not entered-SACI: it
returns the boot status as its return code, after the one read of the status register. -/
theorem prepare_write_outside_saci (fuel : Nat) (dev : Device) (h : Host)
    (hboot : (cc_lpf3_check_boot_status dev h).1 ≠ BOOTSTA_BOOT_ENTERED_SACI) :
    cc_lpf3_prepare_write fuel dev h =
      Exec.ok (((cc_lpf3_check_boot_status dev h).1 : Int),
        { seq_num := h.seq_num,
          log := h.log ++ [PortEvent.ap_read DEBUGSS_CFG_AP CFG_AP_DEVICE_STATUS] }) := by
  have hhost : (cc_lpf3_check_boot_status dev h).2 =
      { seq_num := h.seq_num,
        log := h.log ++ [PortEvent.ap_read DEBUGSS_CFG_AP CFG_AP_DEVICE_STATUS] } := by
    unfold cc_lpf3_check_boot_status
    exact read_from_AP_host dev _ _ _ h
  unfold cc_lpf3_prepare_write
  generalize cc_lpf3_check_boot_status dev h = r at hboot hhost
  obtain ⟨bootsta, x⟩ := r
  simp only at hboot hhost
  subst hhost
  have hne : BOOTSTA_BOOT_ENTERED_SACI ≠ bootsta := fun e => hboot e.symm
  simp only [hne, ne_eq, not_false_eq_true, if_true]

/-- C30 (the code at the failing input): on a device whose boot status reads `0x00`
(`BOOTSTA_BOOT_RESET`, not in SACI mode) `cc_lpf3_prepare_write` returns 0, which is
`ERROR_OK`, without sending the no-op command; `cc_lpf3_base_write` on the CCFG bank then goes
on, sends the program-ccfg-sector and verify-ccfg-sector commands, moves the stage to Ccfg and
returns `ERROR_OK`.  In general, outside SACI mode `cc_lpf3_prepare_write` returns the boot
status itself, so its return code is `ERROR_OK` exactly for boot status 0; for a boot status
that is neither `0x00` nor `0x20` (for example `0xC0`) the write returns
`ERROR_TARGET_INIT_FAILED` and sends no command. -/
theorem prepare_write_accepts_boot_status_zero :
    (cc_lpf3_check_boot_status idle_device { seq_num := 0, log := [] }).1 = BOOTSTA_BOOT_RESET ∧
    BOOTSTA_BOOT_RESET ≠ BOOTSTA_BOOT_ENTERED_SACI ∧
    cc_lpf3_prepare_write 8 idle_device { seq_num := 0, log := [] } =
      Exec.ok (ERROR_OK,
        { seq_num := 0, log := [PortEvent.ap_read DEBUGSS_CFG_AP CFG_AP_DEVICE_STATUS] }) ∧
    (match cc_lpf3_base_write 8 idle_device (cc27xx_bank Region.ccfg) (some blank_image) 0
          0x800 (driver_at CC_LPF3_FLASH_STAGE_ERASE) with
      | Exec.ok (ret_val, _, d) =>
        some (ret_val, (command_headers d.host.log).map header_id_and_seq,
          d.statics.cc27xx_flash_stage)
      | Exec.error _ => none) =
      some (ERROR_OK, [(0x0C, 0), (0x11, 0)], CC_LPF3_FLASH_STAGE_CCFG) ∧
    (match cc_lpf3_base_write 8 application_device (cc27xx_bank Region.ccfg) (some blank_image)
          0 0x800 (driver_at CC_LPF3_FLASH_STAGE_ERASE) with
      | Exec.ok (ret_val, _, d) =>
        some (ret_val, (command_headers d.host.log).map header_id_and_seq,
          d.statics.cc27xx_flash_stage)
      | Exec.error _ => none) =
      some (ERROR_TARGET_INIT_FAILED, [], CC_LPF3_FLASH_STAGE_ERASE) ∧
    (∀ (fuel : Nat) (dev : Device) (h : Host),
      (cc_lpf3_check_boot_status dev h).1 ≠ BOOTSTA_BOOT_ENTERED_SACI →
      cc_lpf3_prepare_write fuel dev h =
        Exec.ok (((cc_lpf3_check_boot_status dev h).1 : Int),
          { seq_num := h.seq_num,
            log := h.log ++ [PortEvent.ap_read DEBUGSS_CFG_AP CFG_AP_DEVICE_STATUS] })) := by
  refine ⟨by decide, by decide, by decide, by decide, by decide, ?_⟩
  intro fuel dev h hboot
  exact prepare_write_outside_saci fuel dev h hboot

/-! ## Theorems: loops without a bound -/

/-- The parameter loop of `cc_lpf3_saci_send_cmd` for the word count 65532: the 8-bit counter
never reaches it, so while the writes succeed the loop goes on. -/
theorem send_param_loop_runs_on (dev : Device) (hwrite : ∀ k, dev.write k = ERROR_OK)
    (param_words : List Nat) :
    ∀ (fuel cmd_word : Nat) (h : Host), cmd_word < 256 →
      send_param_loop dev param_words 65532 fuel cmd_word h = Exec.error Fault.out_of_fuel := by
  intro fuel
  induction fuel with
  | zero =>
    intro cmd_word h hlt
    have hc : cmd_word < 65532 := by omega
    rw [send_param_loop, if_pos hc]
  | succ n ih =>
    intro cmd_word h hlt
    have hc : cmd_word < 65532 := by omega
    rw [send_param_loop, if_pos hc, write_to_AP_ok dev hwrite]
    simp only [ne_eq, not_true_eq_false, if_false]
    exact ih _ _ (Nat.mod_lt _ (by decide))

theorem cmd_length_of_unknown (cmd : SACI_PARAM_T)
    (hnone : cmd_length_table cmd.cmd_id = none) :
    cc_lpf3_get_cmd_word_length cmd = ERROR_FAIL ∧
    (cc_lpf3_get_cmd_word_length cmd % 65536).toNat = 65532 := by
  have h : cc_lpf3_get_cmd_word_length cmd = ERROR_FAIL := by
    rw [get_cmd_word_length_eq_table, hnone]
  rw [h]
  exact ⟨rfl, by decide⟩

/-- The call `cc_lpf3_saci_send_cmd` for a command id without an entry in the length table,
on a device that takes every word: it does not return. -/
theorem send_cmd_unknown_runs_on (fuel : Nat) (dev : Device) (cmd : SACI_PARAM_T) (h : Host)
    (hnone : cmd_length_table cmd.cmd_id = none)
    (hpoll : ∀ x : Host, (cc_lpf3_wait_tx_data_clear dev x).1 = ERROR_OK)
    (hwrite : ∀ k, dev.write k = ERROR_OK) :
    cc_lpf3_saci_send_cmd fuel dev cmd h = Exec.error Fault.out_of_fuel := by
  have hlen := (cmd_length_of_unknown cmd hnone).2
  obtain ⟨m1, hm1, hw1⟩ := wait_tx_of_ok dev h (hpoll h)
  obtain ⟨m2, hm2, hw2⟩ := wait_tx_of_ok dev
    { seq_num := h.seq_num,
      log := h.log ++ poll_log SEC_AP_TXCTL 100 m1 ++
        [PortEvent.ap_write DEBUGSS_SEC_AP SEC_AP_TXCTL SACI_TXCTRL_CMD_START] ++
        [PortEvent.ap_write DEBUGSS_SEC_AP SEC_AP_TXD cmd.val] } (hpoll _)
  have hloop := send_param_loop_runs_on dev hwrite cmd.words fuel 1
    { seq_num := h.seq_num,
      log := h.log ++ poll_log SEC_AP_TXCTL 100 m1 ++
        [PortEvent.ap_write DEBUGSS_SEC_AP SEC_AP_TXCTL SACI_TXCTRL_CMD_START] ++
        [PortEvent.ap_write DEBUGSS_SEC_AP SEC_AP_TXD cmd.val] ++
        poll_log SEC_AP_TXCTL 100 m2 ++
        [PortEvent.ap_write DEBUGSS_SEC_AP SEC_AP_TXCTL 0] } (by decide)
  have hgt : 65532 > 1 := by decide
  unfold cc_lpf3_saci_send_cmd
  simp only [hlen, hw1, write_to_AP_ok dev hwrite, ne_eq, not_true_eq_false, if_false,
    if_pos hgt, hw2, hloop]

set_option maxRecDepth 100000 in
theorem send_cmd_wearing_run :
    (match cc_lpf3_saci_send_cmd 300 wearing_device (bare_cmd SACI_FLASH_PROG_MAIN_SECTOR)
          { seq_num := 0, log := [] } with
      | Exec.ok (ret_val, h) => some (ret_val, h.log.countP PortEvent.is_txd_write)
      | Exec.error _ => none) = some (ERROR_FAIL, 99) := by
  decide

/-- C29 (the code at the failing input): for the command id program-main-sector (`0x0E`),
which has no entry in the length table, `cc_lpf3_get_cmd_word_length` returns `ERROR_FAIL`
(-4) and `cc_lpf3_saci_send_cmd` takes it as the 16-bit word count 65532.  Its 8-bit loop
counter never reaches that count: on a device that takes every word the call does not return
for any amount of fuel, and on a device whose 101st write fails it has written 99 words to TXD
when it returns `ERROR_FAIL`, more than the 34 of the longest command.  The same holds for
every command id without an entry in the table, such as `0x16` and `0x18`. -/
theorem send_cmd_unknown_id_does_not_end :
    (cmd_length_table SACI_FLASH_PROG_MAIN_SECTOR = none ∧
      cmd_length_table SACI_MODE_REQ_FLASHLESS_TEST = none ∧
      cmd_length_table SACI_FLASH_VERIFY_FCFG_SECTOR = none) ∧
    cc_lpf3_get_cmd_word_length (bare_cmd SACI_FLASH_PROG_MAIN_SECTOR) = ERROR_FAIL ∧
    (cc_lpf3_get_cmd_word_length (bare_cmd SACI_FLASH_PROG_MAIN_SECTOR) % 65536).toNat =
      65532 ∧
    (∀ fuel : Nat,
      cc_lpf3_saci_send_cmd fuel willing_device (bare_cmd SACI_FLASH_PROG_MAIN_SECTOR)
        { seq_num := 0, log := [] } = Exec.error Fault.out_of_fuel) ∧
    (match cc_lpf3_saci_send_cmd 300 wearing_device (bare_cmd SACI_FLASH_PROG_MAIN_SECTOR)
          { seq_num := 0, log := [] } with
      | Exec.ok (ret_val, h) => some (ret_val, h.log.countP PortEvent.is_txd_write)
      | Exec.error _ => none) = some (ERROR_FAIL, 99) ∧
    (∀ (fuel : Nat) (dev : Device) (cmd : SACI_PARAM_T) (h : Host),
      cmd_length_table cmd.cmd_id = none →
      (∀ x : Host, (cc_lpf3_wait_tx_data_clear dev x).1 = ERROR_OK) →
      (∀ k, dev.write k = ERROR_OK) →
      cc_lpf3_saci_send_cmd fuel dev cmd h = Exec.error Fault.out_of_fuel) := by
  refine ⟨by decide, by decide, by decide, ?_, send_cmd_wearing_run, ?_⟩
  · intro fuel
    exact send_cmd_unknown_runs_on fuel willing_device _ _ (by decide)
      (wait_tx_ok_of_clear willing_device (fun _ => rfl)) (fun _ => rfl)
  · intro fuel dev cmd h hnone hpoll hwrite
    exact send_cmd_unknown_runs_on fuel dev cmd h hnone hpoll hwrite

/-- On `fading_device` an RX-ready poll started after the first read of RXCTL runs out of its
budget. -/
theorem fading_poll_fails (h : Host)
    (hcount : 1 ≤ h.log.count (PortEvent.ap_read DEBUGSS_SEC_AP SEC_AP_RXCTL)) :
    (cc_lpf3_wait_rx_data_ready fading_device h).1 ≠ ERROR_OK := by
  obtain ⟨⟨m, _, hlog⟩, _, hiff⟩ := wait_rx_spec fading_device h
  intro hok
  have hset := (hiff (fun _ => rfl)).mp hok
  rw [hlog] at hset
  have hidx : (h.log ++ poll_log SEC_AP_RXCTL 300 m).count
      (PortEvent.ap_read DEBUGSS_SEC_AP SEC_AP_RXCTL) - 1 ≠ 0 := by
    rw [List.count_append, (poll_log_counts SEC_AP_RXCTL 300 m).1]
    omega
  have hval : last_read_value fading_device DEBUGSS_SEC_AP SEC_AP_RXCTL
      { seq_num := h.seq_num, log := h.log ++ poll_log SEC_AP_RXCTL 300 m } = 0 := by
    unfold last_read_value
    simp only [fading_device, and_self, if_true, hidx, if_false]
    rfl
  rw [hval] at hset
  exact absurd hset (by decide)

/-- The drain loop on `fading_device` for two sectors and base 10, entered after the response
to the first sector was read: every read of a response times out, the response read before is
tested again and accepted, and the loop goes on. -/
theorem fading_drain_runs_on :
    ∀ (fuel : Nat) (s : SectorTx), s.last_resp_seq_num = 10 →
      s.cmd_resp = SACI_RESP_T.of_word (sector_response 10) →
      1 ≤ s.host.log.count (PortEvent.ap_read DEBUGSS_SEC_AP SEC_AP_RXCTL) →
      drain_loop fading_device 10 2 fuel s = Exec.error Fault.out_of_fuel := by
  intro fuel
  induction fuel with
  | zero =>
    intro s hlast _ _
    rw [drain_loop, hlast]
    rfl
  | succ n ih =>
    intro s hlast hresp hcount
    have hne : s.last_resp_seq_num ≠ (10 + 2 + 2 ^ 32 - 1) % 2 ^ 32 := by
      rw [hlast]; decide
    have hfail := fading_poll_fails s.host hcount
    have hread := read_response_poll_fail fading_device s.cmd_resp s.host hfail
    obtain ⟨m, _, hw⟩ := wait_rx_of_fail fading_device s.host hfail
    rw [drain_loop_consume fading_device 10 2 n s hne, hread, hw]
    simp only [hresp, hlast]
    have hstep : ∀ x : SectorTx, x = { s with
        last_resp_seq_num := 10,
        cmd_resp := SACI_RESP_T.of_word (sector_response 10),
        host := { seq_num := s.host.seq_num,
                  log := s.host.log ++ poll_log SEC_AP_RXCTL 300 m } } →
        drain_loop fading_device 10 2 n x = Exec.error Fault.out_of_fuel := by
      intro x hx
      refine ih x (by rw [hx]) (by rw [hx]) ?_
      rw [hx]
      simp only [List.count_append]
      omega
    exact hstep _ rfl

theorem fading_sector_loop_state :
    (sector_loop fading_device (List.replicate (2 * MAIN_SECTOR_SIZE_WORDS) 0) 10 2 0
      { ret_val := ERROR_OK, last_resp_seq_num := 9,
        cmd_resp := SACI_RESP_T.uninit fading_device,
        host := { seq_num := 0, log := [] } }).last_resp_seq_num = 10 ∧
    (sector_loop fading_device (List.replicate (2 * MAIN_SECTOR_SIZE_WORDS) 0) 10 2 0
      { ret_val := ERROR_OK, last_resp_seq_num := 9,
        cmd_resp := SACI_RESP_T.uninit fading_device,
        host := { seq_num := 0, log := [] } }).cmd_resp =
      SACI_RESP_T.of_word (sector_response 10) ∧
    (sector_loop fading_device (List.replicate (2 * MAIN_SECTOR_SIZE_WORDS) 0) 10 2 0
      { ret_val := ERROR_OK, last_resp_seq_num := 9,
        cmd_resp := SACI_RESP_T.uninit fading_device,
        host := { seq_num := 0, log := [] } }).host.log.count
      (PortEvent.ap_read DEBUGSS_SEC_AP SEC_AP_RXCTL) = 1 ∧
    (sector_loop fading_device (List.replicate (2 * MAIN_SECTOR_SIZE_WORDS) 0) 10 2 0
      { ret_val := ERROR_OK, last_resp_seq_num := 9,
        cmd_resp := SACI_RESP_T.uninit fading_device,
        host := { seq_num := 0, log := [] } }).host.log.countP PortEvent.is_sector = 2 := by
  decide

/-- C27 (the code at the failing input): two sectors, base sequence number 10, on a device
that presents the response to the first sector (sequence number 10) and then no further
response.  Both sectors are sent and the first response is read while streaming.  In the
drain loop every read of a response then runs out of its RX-ready budget;
`cc_lpf3_saci_read_response` returns `ERROR_FAIL` and leaves the response structure as it was,
the drain loop does not test that return code, checks the old response again, accepts its
sequence number 10 as `base + num_sectors - 2`, and waits again:
`cc_lpf3_saci_send_sector_tx` does not return for any amount of fuel. -/
theorem drain_loop_retries_after_timeout :
    (∀ fuel : Nat, fading_write fuel = Exec.error Fault.out_of_fuel) ∧
    cc_lpf3_saci_read_response fading_device (SACI_RESP_T.of_word (sector_response 10))
        { seq_num := 0, log := [PortEvent.ap_read DEBUGSS_SEC_AP SEC_AP_RXCTL] } =
      (ERROR_FAIL, SACI_RESP_T.of_word (sector_response 10),
        { seq_num := 0,
          log := PortEvent.ap_read DEBUGSS_SEC_AP SEC_AP_RXCTL ::
            exhausted_poll_log SEC_AP_RXCTL 300 }) ∧
    (∀ (dev : Device) (cmd_resp : SACI_RESP_T) (h : Host),
      (cc_lpf3_wait_rx_data_ready dev h).1 ≠ ERROR_OK →
      cc_lpf3_saci_read_response dev cmd_resp h =
        (ERROR_FAIL, cmd_resp, (cc_lpf3_wait_rx_data_ready dev h).2)) ∧
    (∀ (dev : Device) (base num_sectors fuel : Nat) (s : SectorTx),
      s.last_resp_seq_num ≠ (base + num_sectors + 2 ^ 32 - 1) % 2 ^ 32 →
      (cc_lpf3_wait_rx_data_ready dev s.host).1 ≠ ERROR_OK →
      s.cmd_resp.cmd_id = SACI_FLASH_PROG_MAIN_PIPELINED → s.cmd_resp.result = SCR_SUCCESS →
      s.cmd_resp.data_word_count = 0 →
      adjust_seq_num s.cmd_resp.resp_seq_num s.last_resp_seq_num =
        (base + num_sectors + 2 ^ 32 - 2) % 2 ^ 32 →
      drain_loop dev base num_sectors (fuel + 1) s =
        drain_loop dev base num_sectors fuel
          { s with
            last_resp_seq_num := (base + num_sectors + 2 ^ 32 - 2) % 2 ^ 32,
            host := (cc_lpf3_wait_rx_data_ready dev s.host).2 }) := by
  refine ⟨?_, by decide, ?_, ?_⟩
  · intro fuel
    have hrun : fading_write fuel =
        match drain_loop fading_device 10 2 fuel
          (sector_loop fading_device (List.replicate (2 * MAIN_SECTOR_SIZE_WORDS) 0) 10 2 0
            { ret_val := ERROR_OK, last_resp_seq_num := 9,
              cmd_resp := SACI_RESP_T.uninit fading_device,
              host := { seq_num := 0, log := [] } }) with
        | Exec.error f => Exec.error f
        | Exec.ok s => Exec.ok (s.ret_val, s.host) := rfl
    rw [hrun, fading_drain_runs_on fuel _ fading_sector_loop_state.1
      fading_sector_loop_state.2.1 (le_of_eq fading_sector_loop_state.2.2.1.symm)]
  · intro dev cmd_resp h hfail
    exact read_response_poll_fail dev cmd_resp h hfail
  · intro dev base num_sectors fuel s hne hfail hid hres hcnt hseq
    rw [drain_loop_consume dev base num_sectors fuel s hne,
      read_response_poll_fail dev s.cmd_resp s.host hfail]
    simp only [hid, hres, hcnt, hseq, ne_eq, not_true_eq_false, if_false, and_false]

/-! ## Theorems: the checksum is the bitwise CRC-32 -/

theorem xor_cancel_left (p a b : Nat) : (p ^^^ a) ^^^ (p ^^^ b) = a ^^^ b := by
  rw [Nat.xor_comm p a, Nat.xor_assoc, ← Nat.xor_assoc p p b, Nat.xor_self, Nat.zero_xor]

/-- One bit of the division is linear over XOR. -/
theorem crc32_bit_xor (a b : Nat) : crc32_bit (a ^^^ b) = crc32_bit a ^^^ crc32_bit b := by
  unfold crc32_bit
  simp only [Nat.and_one_is_mod, Nat.shiftRight_eq_div_pow, pow_one, Nat.xor_div_two,
    Nat.xor_mod_two_eq]
  have ha := Nat.mod_two_eq_zero_or_one a
  have hb := Nat.mod_two_eq_zero_or_one b
  rcases ha with ha | ha <;> rcases hb with hb | hb
  · have hx : (a + b) % 2 = 0 := by omega
    simp [hx, ha, hb]
  · have hx : (a + b) % 2 = 1 := by omega
    simp only [hx, ha, hb, if_true]
    simp only [Nat.zero_ne_one, if_false]
    rw [← Nat.xor_assoc, Nat.xor_comm _ (a / 2), Nat.xor_assoc]
  · have hx : (a + b) % 2 = 1 := by omega
    simp only [hx, ha, hb, if_true]
    simp only [Nat.zero_ne_one, if_false]
    rw [Nat.xor_assoc]
  · have hx : (a + b) % 2 = 0 := by omega
    simp only [hx, ha, hb, if_true]
    simp only [Nat.zero_ne_one, if_false]
    rw [xor_cancel_left]

theorem crc32_iter_xor (n : Nat) : ∀ a b : Nat,
    crc32_bit^[n] (a ^^^ b) = crc32_bit^[n] a ^^^ crc32_bit^[n] b := by
  induction n with
  | zero => intro a b; rfl
  | succ k ih =>
    intro a b
    simp only [Function.iterate_succ_apply]
    rw [crc32_bit_xor, ih]

theorem crc32_bit_double (y : Nat) : crc32_bit (2 * y) = y := by
  unfold crc32_bit
  have h1 : (2 * y) &&& 1 ≠ 1 := by
    rw [Nat.and_one_is_mod]; omega
  rw [if_neg h1, Nat.shiftRight_eq_div_pow]
  omega

theorem crc32_iter4_mul16 (q : Nat) : crc32_bit^[4] (16 * q) = q := by
  have h : 16 * q = 2 * (2 * (2 * (2 * q))) := by omega
  simp only [Function.iterate_succ_apply, Function.iterate_zero, id]
  rw [h, crc32_bit_double, crc32_bit_double, crc32_bit_double, crc32_bit_double]

/-- A number is its bits from 4 up XOR its low four bits. -/
theorem split16 (c : Nat) : c = (16 * (c / 16)) ^^^ (c % 16) := by
  apply Nat.eq_of_testBit_eq
  intro i
  have h16 : (16 : Nat) = 2 ^ 4 := by norm_num
  rw [Nat.testBit_xor, h16, Nat.testBit_mod_two_pow]
  rw [show 2 ^ 4 * (c / 2 ^ 4) = (c >>> 4) <<< 4 by
    rw [Nat.shiftLeft_eq, Nat.shiftRight_eq_div_pow, Nat.mul_comm]]
  rw [Nat.testBit_shiftLeft, Nat.testBit_shiftRight]
  by_cases hi : i < 4
  · have : ¬ i ≥ 4 := by omega
    simp [hi, this]
  · have h4 : i ≥ 4 := by omega
    have : 4 + (i - 4) = i := by omega
    simp [hi, h4, this]

/-- Four bits of the division at once: shift by four and look up the low nibble. -/
theorem crc32_iter4 (c : Nat) : crc32_bit^[4] c = (c / 16) ^^^ crc32_bit^[4] (c % 16) := by
  conv_lhs => rw [split16 c]
  rw [crc32_iter_xor, crc32_iter4_mul16]

theorem spec_nibble_table_eq (i : Nat) : spec_nibble_table i = crc32_bit^[4] i := by
  unfold spec_nibble_table crc32_ieee_table
  rw [show (8 : Nat) = 4 + 4 from rfl, Function.iterate_add_apply, crc32_iter4_mul16]

theorem xor_div16 (a b : Nat) : (a ^^^ b) / 16 = a / 16 ^^^ b / 16 := by
  have h : ∀ x : Nat, x / 16 = x / 2 / 2 / 2 / 2 := by intro x; omega
  rw [h (a ^^^ b), h a, h b, Nat.xor_div_two, Nat.xor_div_two, Nat.xor_div_two,
    Nat.xor_div_two]

/-- The nibble reduction of the specification is four bit reductions. -/
theorem spec_nibble_step_eq (acc n : Nat) (hn : n < 16) :
    spec_nibble_step acc n = crc32_bit^[4] (acc ^^^ n) := by
  have hz : n / 16 = 0 := by omega
  have hand : (acc ^^^ n) &&& 0xF = (acc ^^^ n) % 16 := Nat.and_pow_two_sub_one_eq_mod _ 4
  rw [crc32_iter4 (acc ^^^ n), xor_div16, hz, Nat.xor_zero]
  unfold spec_nibble_step
  rw [spec_nibble_table_eq, hand, Nat.shiftRight_eq_div_pow]

/-- The two nibble reductions of one byte are eight bit reductions. -/
theorem spec_byte_step_eq (acc : Nat) (x : Byte) :
    spec_nibble_step (spec_nibble_step acc (x.val % 16)) (x.val / 16) =
      crc32_bit^[8] (acc ^^^ x.val) := by
  have hlo : x.val % 16 < 16 := Nat.mod_lt _ (by decide)
  have hhi : x.val / 16 < 16 := by have := x.isLt; omega
  rw [spec_nibble_step_eq _ _ hhi, spec_nibble_step_eq _ _ hlo,
    show (8 : Nat) = 4 + 4 from rfl, Function.iterate_add_apply]
  congr 1
  conv_rhs => rw [split16 x.val, Nat.xor_comm (16 * (x.val / 16)), ← Nat.xor_assoc,
    crc32_iter_xor, crc32_iter4_mul16]

theorem spec_fold_eq (b : List Byte) : ∀ acc : Nat,
    b.foldl (fun acc x => spec_nibble_step (spec_nibble_step acc (x.val % 16)) (x.val / 16))
      acc = b.foldl (fun c x => crc32_bit^[8] (c ^^^ x.val)) acc := by
  induction b with
  | nil => intro acc; rfl
  | cons d rest ih =>
    intro acc
    simp only [List.foldl_cons]
    rw [spec_byte_step_eq, ih]

theorem calculate_crc_eq_bitwise (beyond : Byte) (b : List Byte) :
    cc_lpf3_calculate_crc beyond (some b) b.length = crc32_bitwise b := by
  simp only [cc_lpf3_calculate_crc, crc32_bitwise, crc_loop_eq, spec_fold_eq]

set_option maxRecDepth 100000 in
theorem check_string_bitwise : crc32_bitwise check_string = 0xCBF43926 := by
  decide

theorem check_string_crc :
    (∀ beyond : Byte, cc_lpf3_calculate_crc beyond (some check_string) 9 = 0xCBF43926) ∧
    crc32_bitwise check_string = 0xCBF43926 :=
  ⟨fun beyond => (calculate_crc_eq_bitwise beyond check_string).trans check_string_bitwise,
    check_string_bitwise⟩

/-- C28: for every byte sequence `b`, whatever the storage after it holds,
`cc_lpf3_calculate_crc` over the `b.length` bytes of `b` equals the standard bitwise
CRC-32/IEEE of `b` (reflected polynomial `0xEDB88320`, initial
value `0xFFFFFFFF`, final XOR `0xFFFFFFFF`, one bit at a time); the ASCII bytes of
`"123456789"` give `0xCBF43926`. -/
theorem calculate_crc_is_bitwise_crc32 :
    (∀ (beyond : Byte) (b : List Byte),
      cc_lpf3_calculate_crc beyond (some b) b.length = crc32_bitwise b) ∧
    (∀ beyond : Byte, cc_lpf3_calculate_crc beyond (some check_string) 9 = 0xCBF43926) ∧
    crc32_bitwise check_string = 0xCBF43926 :=
  ⟨calculate_crc_eq_bitwise, check_string_crc.1, check_string_crc.2⟩

/-! ## Theorems: boot status -/

set_option maxRecDepth 100000 in
theorem bootsta_mode_bits : ∀ bootsta : Fin 256,
    (bootsta.val &&& BOOTSTA_MODE_M = BOOTSTA_MODE_BOOT ↔ bootsta.val / 64 = 0) ∧
    (bootsta.val &&& BOOTSTA_MODE_M = BOOTSTA_MODE_BLDR ↔ bootsta.val / 64 = 2) ∧
    (bootsta.val &&& BOOTSTA_MODE_M = BOOTSTA_MODE_APP ↔ bootsta.val / 64 = 3) := by
  decide

/-- C26: when the read of the device-status register succeeds with the 32-bit value `s`,
`cc_lpf3_check_boot_status` returns the bootsta field `(s >> 8) & 0xFF`, bits 15:8 of `s`, a
value in 0..255.  The top two bits of a boot status (mask `0xC0`) give the mode: `00` boot
code, `10` bootloader, `11` application.  Entered-SACI is `0x20` (boot mode), waiting for the
debug probe at bootloader entry is `0x81` (bootloader mode) and at application entry `0xC1`
(application mode); `cc_lpf3_exit_saci_halt` returns `ERROR_OK` on a device whose status
reads `0x81` or `0xC1` in bits 15:8 and the timeout error on one that stays at `0x20`. -/
theorem check_boot_status_returns_bootsta (dev : Device) (h : Host)
    (hread : (dev.read DEBUGSS_CFG_AP CFG_AP_DEVICE_STATUS
      (h.log.count (PortEvent.ap_read DEBUGSS_CFG_AP CFG_AP_DEVICE_STATUS))).1 = ERROR_OK) :
    (cc_lpf3_check_boot_status dev h).1 =
      (((dev.read DEBUGSS_CFG_AP CFG_AP_DEVICE_STATUS
        (h.log.count (PortEvent.ap_read DEBUGSS_CFG_AP CFG_AP_DEVICE_STATUS))).2 % 2 ^ 32)
          >>> 8) &&& 0xFF ∧
    (cc_lpf3_check_boot_status dev h).1 =
      ((dev.read DEBUGSS_CFG_AP CFG_AP_DEVICE_STATUS
        (h.log.count (PortEvent.ap_read DEBUGSS_CFG_AP CFG_AP_DEVICE_STATUS))).2 % 2 ^ 32)
          / 2 ^ 8 % 2 ^ 8 ∧
    (cc_lpf3_check_boot_status dev h).1 < 256 ∧
    (BOOTSTA_MODE_M = 0xC0 ∧ BOOTSTA_MODE_BOOT = 0x00 ∧ BOOTSTA_MODE_BLDR = 0x80 ∧
      BOOTSTA_MODE_APP = 0xC0) ∧
    (∀ bootsta : Nat, bootsta < 256 →
      (bootsta &&& BOOTSTA_MODE_M = BOOTSTA_MODE_BOOT ↔ bootsta / 64 = 0) ∧
      (bootsta &&& BOOTSTA_MODE_M = BOOTSTA_MODE_BLDR ↔ bootsta / 64 = 2) ∧
      (bootsta &&& BOOTSTA_MODE_M = BOOTSTA_MODE_APP ↔ bootsta / 64 = 3)) ∧
    (BOOTSTA_BOOT_ENTERED_SACI = 0x20 ∧
      BOOTSTA_BOOT_ENTERED_SACI &&& BOOTSTA_MODE_M = BOOTSTA_MODE_BOOT) ∧
    (BOOTSTA_BLDR_WAITLOOP_DBGPROBE = 0x81 ∧
      BOOTSTA_BLDR_WAITLOOP_DBGPROBE &&& BOOTSTA_MODE_M = BOOTSTA_MODE_BLDR) ∧
    (BOOTSTA_APP_WAITLOOP_DBGPROBE = 0xC1 ∧
      BOOTSTA_APP_WAITLOOP_DBGPROBE &&& BOOTSTA_MODE_M = BOOTSTA_MODE_APP) ∧
    exit_halt_result 0x8100 = some (ERROR_OK, 1) ∧
    exit_halt_result 0xC100 = some (ERROR_OK, 1) ∧
    exit_halt_result 0x2000 = some (SACI_EXIT_HALT_TO, 10) := by
  have hval : (cc_lpf3_check_boot_status dev h).1 =
      (((dev.read DEBUGSS_CFG_AP CFG_AP_DEVICE_STATUS
        (h.log.count (PortEvent.ap_read DEBUGSS_CFG_AP CFG_AP_DEVICE_STATUS))).2 % 2 ^ 32)
          >>> 8) &&& 0xFF := by
    unfold cc_lpf3_check_boot_status cc_lpf3_read_from_AP
    simp only [hread, ne_eq, not_true_eq_false, if_false]
  refine ⟨hval, ?_, ?_, by decide, ?_, by decide, by decide, by decide, by decide, by decide,
    by decide⟩
  · rw [hval, and_255_eq_mod, Nat.shiftRight_eq_div_pow]
    rfl
  · rw [hval, and_255_eq_mod]
    exact Nat.mod_lt _ (by decide)
  · intro bootsta hlt
    exact bootsta_mode_bits ⟨bootsta, hlt⟩

/-- Witness of C26: a device whose status register reads `0x2000`. -/
theorem check_boot_status_returns_bootsta_witness :
    (cc_lpf3_check_boot_status willing_device { seq_num := 0, log := [] }).1 =
      ((0x2000 % 2 ^ 32) >>> 8) &&& 0xFF ∧
    (cc_lpf3_check_boot_status willing_device { seq_num := 0, log := [] }).1 = 0x20 :=
  ⟨(check_boot_status_returns_bootsta willing_device { seq_num := 0, log := [] } rfl).1,
    by decide⟩

/-! ## Theorems: the verify-ccfg-sector command -/

/-- The checksum loop over `n` bytes of a block consumes the first `n` bytes. -/
theorem crc_loop_take (beyond : Byte) (l : List Byte) : ∀ (n acc : Nat), n ≤ l.length →
    crc_loop beyond acc l n = crc_loop beyond acc (l.take n) (l.take n).length := by
  induction l with
  | nil =>
    intro n acc hn
    have h0 : n = 0 := Nat.le_zero.mp hn
    subst h0
    simp [crc_loop]
  | cons d rest ih =>
    intro n acc hn
    cases n with
    | zero => simp [crc_loop]
    | succ k =>
      simp only [List.take_succ_cons, List.length_cons, crc_loop]
      exact ih k _ (Nat.le_of_succ_le_succ hn)

theorem calculate_crc_slice (beyond : Byte) (l : List Byte) (n : Nat) (hn : n ≤ l.length) :
    cc_lpf3_calculate_crc beyond (some l) n = spec_checksum (l.take n) := by
  simp only [cc_lpf3_calculate_crc, spec_checksum]
  rw [crc_loop_take beyond l n _ hn, crc_loop_eq]

theorem verify_ccfg_eq_exchange (fuel : Nat) (dev : Device) (buffer : Option (List Byte))
    (h : Host) :
    cc_lpf3_saci_verify_ccfg fuel dev buffer h =
      command_exchange fuel dev (verify_ccfg_cmd dev h.seq_num buffer)
        { seq_num := (h.seq_num + 1) % 256, log := h.log } := by
  unfold cc_lpf3_saci_verify_ccfg command_exchange verify_ccfg_cmd cc_lpf3_update_cmd_word
    cc_lpf3_get_resp_seqnum
  simp only
  cases buffer <;>
  · simp only
    generalize cc_lpf3_saci_send_cmd fuel dev _ _ = r
    rcases r with ⟨sent, h1⟩ | f
    · dsimp only
      by_cases hs : sent ≠ ERROR_OK
      · rw [if_pos hs, if_pos hs]
      · rw [if_neg hs, if_neg hs]
        generalize cc_lpf3_saci_read_response dev (SACI_RESP_T.uninit dev) h1 = rr
        obtain ⟨c, resp, h2⟩ := rr
        simp only
        by_cases hc : c = ERROR_OK <;> by_cases hr : resp.result = SCR_SUCCESS <;>
          simp [hc, hr]
    · rfl

theorem of_words_getD (ws : List Nat) (i : Nat) (hi : i < 34) :
    (SACI_PARAM_T.of_words ws).words.getD i 0 = ws.getD i 0 := by
  unfold SACI_PARAM_T.of_words
  simp only [List.getD_eq_getElem?_getD, List.getElem?_map, List.getElem?_range hi,
    Option.map_some', Option.getD_some]

theorem and_one_eq_mod (x : Nat) : x &&& 1 = x % 2 := Nat.and_one_is_mod x

theorem and_1fff_eq_mod (x : Nat) : x &&& 0x1FFF = x % 8192 := by
  have := Nat.and_pow_two_sub_one_eq_mod x 13
  simpa using this

/-- The member `flash_verify_ccfg_sector` of a command given by its first five words. -/
theorem flash_verify_ccfg_sector_of_words (w c1 c2 c3 c4 : Nat) (rest : List Nat) :
    (SACI_PARAM_T.of_words (w :: c1 :: c2 :: c3 :: c4 :: rest)).flash_verify_ccfg_sector =
      { cmd_id := w &&& 0xFF
        resp_seq_num := (w >>> 8) &&& 0xFF
        check_exp_crc := (w >>> 16) &&& 1
        skip_user_rec := (w >>> 17) &&& 1
        reserved1 := (w >>> 18) &&& 0x1FFF
        blank_check := (w >>> 31) &&& 1
        exp_boot_config_crc32 := c1
        exp_central_crc32 := c2
        exp_userrec_crc32 := c3
        exp_debug_cfg_crc32 := c4 } := by
  simp only [SACI_PARAM_T.flash_verify_ccfg_sector, SACI_PARAM_T.val,
    of_words_getD _ 0 (by decide), of_words_getD _ 1 (by decide), of_words_getD _ 2 (by decide),
    of_words_getD _ 3 (by decide), of_words_getD _ 4 (by decide)]
  simp only [List.getD_cons_zero, List.getD_cons_succ]

theorem flash_verify_ccfg_sector_of_header (w : Nat) :
    (SACI_PARAM_T.of_words [w]).flash_verify_ccfg_sector =
      { cmd_id := w &&& 0xFF
        resp_seq_num := (w >>> 8) &&& 0xFF
        check_exp_crc := (w >>> 16) &&& 1
        skip_user_rec := (w >>> 17) &&& 1
        reserved1 := (w >>> 18) &&& 0x1FFF
        blank_check := (w >>> 31) &&& 1
        exp_boot_config_crc32 := 0
        exp_central_crc32 := 0
        exp_userrec_crc32 := 0
        exp_debug_cfg_crc32 := 0 } := by
  simp only [SACI_PARAM_T.flash_verify_ccfg_sector, SACI_PARAM_T.val,
    of_words_getD _ 0 (by decide), of_words_getD _ 1 (by decide), of_words_getD _ 2 (by decide),
    of_words_getD _ 3 (by decide), of_words_getD _ 4 (by decide)]
  simp only [List.getD_cons_zero, List.getD_cons_succ, List.getD_nil]

/-- The bit-fields of the header word of the verify command for an image. -/
theorem verify_header_bits (resp_seq_num : Nat) :
    (saci_header SACI_FLASH_VERIFY_CCFG_SECTOR resp_seq_num 0 + 1 * 2 ^ 16 + 1 * 2 ^ 17) &&&
        0xFF = 0x11 ∧
    ((saci_header SACI_FLASH_VERIFY_CCFG_SECTOR resp_seq_num 0 + 1 * 2 ^ 16 + 1 * 2 ^ 17)
        >>> 8) &&& 0xFF = resp_seq_num % 256 ∧
    ((saci_header SACI_FLASH_VERIFY_CCFG_SECTOR resp_seq_num 0 + 1 * 2 ^ 16 + 1 * 2 ^ 17)
        >>> 16) &&& 1 = 1 ∧
    ((saci_header SACI_FLASH_VERIFY_CCFG_SECTOR resp_seq_num 0 + 1 * 2 ^ 16 + 1 * 2 ^ 17)
        >>> 17) &&& 1 = 1 ∧
    ((saci_header SACI_FLASH_VERIFY_CCFG_SECTOR resp_seq_num 0 + 1 * 2 ^ 16 + 1 * 2 ^ 17)
        >>> 18) &&& 0x1FFF = 0 ∧
    ((saci_header SACI_FLASH_VERIFY_CCFG_SECTOR resp_seq_num 0 + 1 * 2 ^ 16 + 1 * 2 ^ 17)
        >>> 31) &&& 1 = 0 := by
  have hlt : resp_seq_num % 256 < 256 := Nat.mod_lt _ (by decide)
  simp only [and_255_eq_mod, and_one_eq_mod, and_1fff_eq_mod, Nat.shiftRight_eq_div_pow]
  unfold saci_header
  simp only [SACI_FLASH_VERIFY_CCFG_SECTOR]
  refine ⟨?_, ?_, ?_, ?_, ?_, ?_⟩ <;> omega

/-- The bit-fields of the header word of the blank-check command. -/
theorem blank_header_bits (resp_seq_num : Nat) :
    (saci_header SACI_FLASH_VERIFY_CCFG_SECTOR resp_seq_num 0 + 1 * 2 ^ 31) &&& 0xFF = 0x11 ∧
    ((saci_header SACI_FLASH_VERIFY_CCFG_SECTOR resp_seq_num 0 + 1 * 2 ^ 31) >>> 8) &&& 0xFF =
      resp_seq_num % 256 ∧
    ((saci_header SACI_FLASH_VERIFY_CCFG_SECTOR resp_seq_num 0 + 1 * 2 ^ 31) >>> 16) &&& 1 = 0 ∧
    ((saci_header SACI_FLASH_VERIFY_CCFG_SECTOR resp_seq_num 0 + 1 * 2 ^ 31) >>> 17) &&& 1 = 0 ∧
    ((saci_header SACI_FLASH_VERIFY_CCFG_SECTOR resp_seq_num 0 + 1 * 2 ^ 31) >>> 18) &&&
      0x1FFF = 0 ∧
    ((saci_header SACI_FLASH_VERIFY_CCFG_SECTOR resp_seq_num 0 + 1 * 2 ^ 31) >>> 31) &&& 1 =
      1 := by
  have hlt : resp_seq_num % 256 < 256 := Nat.mod_lt _ (by decide)
  simp only [and_255_eq_mod, and_one_eq_mod, and_1fff_eq_mod, Nat.shiftRight_eq_div_pow]
  unfold saci_header
  simp only [SACI_FLASH_VERIFY_CCFG_SECTOR]
  refine ⟨?_, ?_, ?_, ?_, ?_, ?_⟩ <;> omega

/-- The fields of the command `cc_lpf3_saci_verify_ccfg` builds for an image. -/
theorem verify_ccfg_cmd_fields (dev : Device) (resp_seq_num : Nat) (b : List Byte)
    (hlen : DEBUG_CCFG_START_IDX + DEBUG_CCFG_CRC_LEN ≤ b.length) :
    (verify_ccfg_cmd dev resp_seq_num (some b)).flash_verify_ccfg_sector =
      { cmd_id := 0x11
        resp_seq_num := resp_seq_num % 256
        check_exp_crc := 1
        skip_user_rec := 1
        reserved1 := 0
        blank_check := 0
        exp_boot_config_crc32 := spec_checksum (b.take BOOT_CCFG_CRC_LEN)
        exp_central_crc32 :=
          spec_checksum ((b.drop CENTRAL_CCFG_START_IDX).take CENTRAL_CCFG_CRC_LEN)
        exp_userrec_crc32 := 0
        exp_debug_cfg_crc32 :=
          spec_checksum ((b.drop DEBUG_CCFG_START_IDX).take DEBUG_CCFG_CRC_LEN) } := by
  obtain ⟨h1, h2, h3, h4, h5, h6⟩ := verify_header_bits resp_seq_num
  unfold verify_ccfg_cmd
  simp only
  have hl : 0x7D0 + 0x2C ≤ b.length := hlen
  have hboot : BOOT_CCFG_CRC_LEN ≤ b.length := by
    show 0x0C ≤ b.length
    omega
  have hcentral : CENTRAL_CCFG_CRC_LEN ≤ (b.drop CENTRAL_CCFG_START_IDX).length := by
    rw [List.length_drop]
    show 0x73C ≤ b.length - 0x10
    omega
  have hdebug : DEBUG_CCFG_CRC_LEN ≤ (b.drop DEBUG_CCFG_START_IDX).length := by
    rw [List.length_drop]
    show 0x2C ≤ b.length - 0x7D0
    omega
  rw [flash_verify_ccfg_sector_of_words, h1, h2, h3, h4, h5, h6,
    calculate_crc_slice _ _ _ hboot, calculate_crc_slice _ _ _ hcentral,
    calculate_crc_slice _ _ _ hdebug]

/-- The fields of the blank-check command `cc_lpf3_saci_verify_ccfg` builds without an
image. -/
theorem verify_ccfg_cmd_fields_blank (dev : Device) (resp_seq_num : Nat) :
    (verify_ccfg_cmd dev resp_seq_num none).flash_verify_ccfg_sector =
      { cmd_id := 0x11
        resp_seq_num := resp_seq_num % 256
        check_exp_crc := 0
        skip_user_rec := 0
        reserved1 := 0
        blank_check := 1
        exp_boot_config_crc32 := 0
        exp_central_crc32 := 0
        exp_userrec_crc32 := 0
        exp_debug_cfg_crc32 := 0 } := by
  obtain ⟨h1, h2, h3, h4, h5, h6⟩ := blank_header_bits resp_seq_num
  unfold verify_ccfg_cmd
  simp only
  rw [flash_verify_ccfg_sector_of_header, h1, h2, h3, h4, h5, h6]

/-- The parameter loop of `cc_lpf3_saci_send_cmd` returns when the word count is at most 255
and the fuel covers the words left. -/
theorem send_param_loop_returns (dev : Device) (param_words : List Nat) (cmd_length : Nat)
    (hlen : cmd_length ≤ 255) :
    ∀ (fuel cmd_word : Nat) (h : Host), cmd_word ≤ cmd_length → cmd_length - cmd_word ≤ fuel →
      ∃ r, send_param_loop dev param_words cmd_length fuel cmd_word h = Exec.ok r := by
  intro fuel
  induction fuel with
  | zero =>
    intro cmd_word h hle hfuel
    have hnlt : ¬ cmd_word < cmd_length := by omega
    rw [send_param_loop, if_neg hnlt]
    exact ⟨_, rfl⟩
  | succ n ih =>
    intro cmd_word h hle hfuel
    by_cases hlt : cmd_word < cmd_length
    · have hmod : (cmd_word + 1) % 256 = cmd_word + 1 := Nat.mod_eq_of_lt (by omega)
      rw [send_param_loop, if_pos hlt]
      simp only [cc_lpf3_write_to_AP, hmod]
      split
      · exact ⟨_, rfl⟩
      · exact ih _ _ (by omega) (by omega)
    · rw [send_param_loop, if_neg hlt]
      exact ⟨_, rfl⟩

/-- The call `cc_lpf3_saci_send_cmd` returns for a command id with an entry in the length
table. -/
theorem send_cmd_returns (fuel : Nat) (dev : Device) (cmd : SACI_PARAM_T) (h : Host) (L : Nat)
    (hlen : cmd_length_table cmd.cmd_id = some L) (hfuel : L - 1 ≤ fuel) :
    ∃ r, cc_lpf3_saci_send_cmd fuel dev cmd h = Exec.ok r := by
  have hb := cmd_length_table_bounds cmd L hlen
  unfold cc_lpf3_saci_send_cmd
  simp only [cmd_length_of_table cmd L hlen, cc_lpf3_write_to_AP]
  split
  · exact ⟨_, rfl⟩
  · split
    · split
      · exact ⟨_, rfl⟩
      · split
        · exact ⟨_, rfl⟩
        · split
          · rename_i f hf
            obtain ⟨r, hr⟩ :=
              send_param_loop_returns dev cmd.words L (by omega) fuel 1 _ hb.1 hfuel
            rw [hr] at hf
            cases hf
          · split
            · exact ⟨_, rfl⟩
            · split <;> exact ⟨_, rfl⟩
    · split <;> exact ⟨_, rfl⟩
theorem verify_ccfg_cmd_id (dev : Device) (resp_seq_num : Nat)
    (buffer : Option (List Byte)) :
    (verify_ccfg_cmd dev resp_seq_num buffer).cmd_id = SACI_FLASH_VERIFY_CCFG_SECTOR := by
  cases buffer with
  | none =>
    simp only [verify_ccfg_cmd, SACI_PARAM_T.cmd_id, SACI_PARAM_T.val,
      of_words_getD _ 0 (by decide), List.getD_cons_zero]
    exact (blank_header_bits resp_seq_num).1
  | some b =>
    simp only [verify_ccfg_cmd, SACI_PARAM_T.cmd_id, SACI_PARAM_T.val,
      of_words_getD _ 0 (by decide), List.getD_cons_zero]
    exact (verify_header_bits resp_seq_num).1

/-- A command exchange for a command id with an entry in the length table returns, with
`ERROR_OK` or `ERROR_FAIL`. -/
theorem command_exchange_returns (fuel : Nat) (dev : Device) (cmd : SACI_PARAM_T) (h : Host)
    (L : Nat) (hlen : cmd_length_table cmd.cmd_id = some L) (hfuel : L - 1 ≤ fuel) :
    ∃ c h', command_exchange fuel dev cmd h = Exec.ok (c, h') ∧
      (c = ERROR_OK ∨ c = ERROR_FAIL) := by
  obtain ⟨⟨sent, h1⟩, hr⟩ := send_cmd_returns fuel dev cmd h L hlen hfuel
  unfold command_exchange
  rw [hr]
  dsimp only
  split
  · exact ⟨_, _, rfl, Or.inr rfl⟩
  · split
    · exact ⟨_, _, rfl, Or.inl rfl⟩
    · exact ⟨_, _, rfl, Or.inr rfl⟩

/-- A command exchange returns `ERROR_OK` exactly when the command is sent, the response is
read and its result code is success. -/
theorem command_exchange_ok_iff (fuel : Nat) (dev : Device) (cmd : SACI_PARAM_T) (h h' : Host) :
    command_exchange fuel dev cmd h = Exec.ok (ERROR_OK, h') ↔
      ∃ (h1 : Host) (cmd_resp : SACI_RESP_T),
        cc_lpf3_saci_send_cmd fuel dev cmd h = Exec.ok (ERROR_OK, h1) ∧
        cc_lpf3_saci_read_response dev (SACI_RESP_T.uninit dev) h1 = (ERROR_OK, cmd_resp, h') ∧
        cmd_resp.result = SCR_SUCCESS := by
  unfold command_exchange
  generalize cc_lpf3_saci_send_cmd fuel dev cmd h = r
  rcases r with ⟨sent, h1⟩ | f
  · dsimp only
    by_cases hs : sent ≠ ERROR_OK
    · rw [if_pos hs]
      constructor
      · intro hrun
        cases hrun
      · rintro ⟨x1, resp, hsend, _, _⟩
        cases hsend
        exact absurd rfl hs
    · rw [if_neg hs]
      have hsent : sent = ERROR_OK := not_not.mp hs
      subst hsent
      generalize hrr : cc_lpf3_saci_read_response dev (SACI_RESP_T.uninit dev) h1 = rr
      obtain ⟨c, resp, h2⟩ := rr
      dsimp only
      by_cases hc : c = ERROR_OK ∧ resp.result = SCR_SUCCESS
      · rw [if_pos hc]
        constructor
        · intro hrun
          cases hrun
          exact ⟨h1, resp, rfl, by rw [hrr, hc.1], hc.2⟩
        · rintro ⟨x1, resp2, hsend, hread, hres⟩
          cases hsend
          rw [hrr] at hread
          cases hread
          rfl
      · rw [if_neg hc]
        constructor
        · intro hrun
          cases hrun
        · rintro ⟨x1, resp2, hsend, hread, hres⟩
          cases hsend
          rw [hrr] at hread
          cases hread
          exact absurd ⟨rfl, hres⟩ hc
  · constructor
    · intro hrun
      cases hrun
    · rintro ⟨x1, resp, hsend, _, _⟩
      cases hsend

/-- The words `cc_lpf3_saci_verify_ccfg` writes to TXD for the blank check, and the header word
it writes for an image, on a device that takes every word. -/
theorem verify_ccfg_blank_check_run :
    (match cc_lpf3_saci_verify_ccfg 8 willing_device none { seq_num := 5, log := [] } with
      | Exec.ok (ret_val, h) => some (ret_val, txd_words h.log)
      | Exec.error _ => none) =
      some (ERROR_OK, [0x80000511, 0, 0, 0, 0]) ∧
    (match cc_lpf3_saci_verify_ccfg 8 willing_device (some blank_image)
          { seq_num := 5, log := [] } with
      | Exec.ok (ret_val, h) => some (ret_val, (txd_words h.log).head?, (txd_words h.log).length)
      | Exec.error _ => none) =
      some (ERROR_OK, some 0x00030511, 5) := by
  decide

/-- C22: for every device, state and image `b` that covers the three checksummed zones,
`cc_lpf3_saci_verify_ccfg` with the image is one command exchange with the
verify-ccfg-sector command (`0x11`) carrying `check_exp_crc = 1`, `skip_user_rec = 1`,
`blank_check = 0` and the expected CRCs `checksum (b[0 .. 0x0C))` for boot-config,
`checksum (b[0x10 .. 0x10 + 0x73C))` for central and `checksum (b[0x7D0 .. 0x7D0 + 0x2C))` for
debug-config; without an image it is one exchange with the blank-check variant
(`blank_check = 1`, `check_exp_crc = 0`, all expected CRCs 0).  With fuel for the four
parameter words the call returns, with `ERROR_OK` or `ERROR_FAIL`, and it returns `ERROR_OK`
if and only if the command is sent, the response is read and its result code is success. -/
theorem verify_ccfg_sends_expected_crcs (fuel : Nat) (dev : Device) (b : List Byte) (h : Host)
    (hlen : DEBUG_CCFG_START_IDX + DEBUG_CCFG_CRC_LEN ≤ b.length) (hfuel : 4 ≤ fuel) :
    cc_lpf3_saci_verify_ccfg fuel dev (some b) h =
      command_exchange fuel dev (verify_ccfg_cmd dev h.seq_num (some b))
        { seq_num := (h.seq_num + 1) % 256, log := h.log } ∧
    (verify_ccfg_cmd dev h.seq_num (some b)).flash_verify_ccfg_sector =
      { cmd_id := 0x11
        resp_seq_num := h.seq_num % 256
        check_exp_crc := 1
        skip_user_rec := 1
        reserved1 := 0
        blank_check := 0
        exp_boot_config_crc32 := spec_checksum (b.take BOOT_CCFG_CRC_LEN)
        exp_central_crc32 :=
          spec_checksum ((b.drop CENTRAL_CCFG_START_IDX).take CENTRAL_CCFG_CRC_LEN)
        exp_userrec_crc32 := 0
        exp_debug_cfg_crc32 :=
          spec_checksum ((b.drop DEBUG_CCFG_START_IDX).take DEBUG_CCFG_CRC_LEN) } ∧
    ((b.take BOOT_CCFG_CRC_LEN).length = 0x0C ∧
      ((b.drop CENTRAL_CCFG_START_IDX).take CENTRAL_CCFG_CRC_LEN).length = 0x73C ∧
      ((b.drop DEBUG_CCFG_START_IDX).take DEBUG_CCFG_CRC_LEN).length = 0x2C ∧
      CENTRAL_CCFG_START_IDX = 0x10 ∧ DEBUG_CCFG_START_IDX = 0x7D0) ∧
    cc_lpf3_saci_verify_ccfg fuel dev none h =
      command_exchange fuel dev (verify_ccfg_cmd dev h.seq_num none)
        { seq_num := (h.seq_num + 1) % 256, log := h.log } ∧
    (verify_ccfg_cmd dev h.seq_num none).flash_verify_ccfg_sector =
      { cmd_id := 0x11
        resp_seq_num := h.seq_num % 256
        check_exp_crc := 0
        skip_user_rec := 0
        reserved1 := 0
        blank_check := 1
        exp_boot_config_crc32 := 0
        exp_central_crc32 := 0
        exp_userrec_crc32 := 0
        exp_debug_cfg_crc32 := 0 } ∧
    (∀ buffer : Option (List Byte), ∃ c h',
      cc_lpf3_saci_verify_ccfg fuel dev buffer h = Exec.ok (c, h') ∧
      (c = ERROR_OK ∨ c = ERROR_FAIL)) ∧
    (∀ (buffer : Option (List Byte)) (h' : Host),
      cc_lpf3_saci_verify_ccfg fuel dev buffer h = Exec.ok (ERROR_OK, h') ↔
        ∃ (h1 : Host) (cmd_resp : SACI_RESP_T),
          cc_lpf3_saci_send_cmd fuel dev (verify_ccfg_cmd dev h.seq_num buffer)
            { seq_num := (h.seq_num + 1) % 256, log := h.log } = Exec.ok (ERROR_OK, h1) ∧
          cc_lpf3_saci_read_response dev (SACI_RESP_T.uninit dev) h1 =
            (ERROR_OK, cmd_resp, h') ∧
          cmd_resp.result = SCR_SUCCESS) := by
  have hl : 0x7D0 + 0x2C ≤ b.length := hlen
  refine ⟨verify_ccfg_eq_exchange fuel dev (some b) h, verify_ccfg_cmd_fields dev h.seq_num b hlen,
    ⟨?_, ?_, ?_, rfl, rfl⟩, verify_ccfg_eq_exchange fuel dev none h,
    verify_ccfg_cmd_fields_blank dev h.seq_num, ?_, ?_⟩
  · rw [List.length_take]; show min 0x0C b.length = 0x0C; omega
  · rw [List.length_take, List.length_drop]; show min 0x73C (b.length - 0x10) = 0x73C; omega
  · rw [List.length_take, List.length_drop]; show min 0x2C (b.length - 0x7D0) = 0x2C; omega
  · intro buffer
    rw [verify_ccfg_eq_exchange]
    refine command_exchange_returns fuel dev _ _ 5 ?_ hfuel
    rw [verify_ccfg_cmd_id]
    decide
  · intro buffer h'
    rw [verify_ccfg_eq_exchange]
    exact command_exchange_ok_iff fuel dev _ _ h'

theorem blank_image_length : blank_image.length = 0x800 :=
  List.length_replicate _ _

/-- Witness of C22: a one-sector image of `0xFF` bytes on a device that answers with
success. -/
theorem verify_ccfg_sends_expected_crcs_witness :
    cc_lpf3_saci_verify_ccfg 8 willing_device (some blank_image) { seq_num := 5, log := [] } =
      command_exchange 8 willing_device (verify_ccfg_cmd willing_device 5 (some blank_image))
        { seq_num := 6, log := [] } ∧
    (verify_ccfg_cmd willing_device 5 (some blank_image)).flash_verify_ccfg_sector.exp_central_crc32 =
      spec_checksum ((blank_image.drop CENTRAL_CCFG_START_IDX).take CENTRAL_CCFG_CRC_LEN) :=
  ⟨(verify_ccfg_sends_expected_crcs 8 willing_device blank_image { seq_num := 5, log := [] }
      (by rw [blank_image_length]; decide) (by decide)).1,
    congrArg SACI_PARAM_FLASH_VERIFY_CCFG_SECTOR_T.exp_central_crc32
      (verify_ccfg_sends_expected_crcs 8 willing_device blank_image
        { seq_num := 5, log := [] } (by rw [blank_image_length]; decide) (by decide)).2.1⟩

/-! ## Theorems: padding and streaming of the MAIN image -/

theorem streamed_sectors_append (l1 l2 : List PortEvent) :
    streamed_sectors (l1 ++ l2) = streamed_sectors l1 ++ streamed_sectors l2 := by
  simp [streamed_sectors, List.filterMap_append]

theorem streamed_sectors_poll_log (reg check_interval m : Nat) :
    streamed_sectors (poll_log reg check_interval m) = [] := by
  induction m with
  | zero => simp [poll_log, streamed_sectors]
  | succ n ih =>
    unfold poll_log at ih ⊢
    rw [replicate_succ_flatten]
    simp only [streamed_sectors, List.filterMap_cons, List.filterMap_append] at ih ⊢
    simp only [List.append_eq_nil, List.filterMap_nil, and_self, true_and] at ih ⊢
    exact ih

/-- The RX-ready poll sends no sector. -/
theorem wait_rx_streams_nothing (dev : Device) (h : Host) :
    streamed_sectors (cc_lpf3_wait_rx_data_ready dev h).2.log = streamed_sectors h.log := by
  obtain ⟨⟨m, _, hlog⟩, _, _⟩ := wait_rx_spec dev h
  rw [hlog]
  simp only [streamed_sectors_append, streamed_sectors_poll_log, List.append_nil]

/-- The TX-full poll sends no sector. -/
theorem wait_tx_streams_nothing (dev : Device) (h : Host) :
    streamed_sectors (cc_lpf3_wait_tx_data_clear dev h).2.log = streamed_sectors h.log := by
  obtain ⟨⟨m, _, hlog⟩, _, _⟩ := wait_tx_spec dev h
  rw [hlog]
  simp only [streamed_sectors_append, streamed_sectors_poll_log, List.append_nil]

theorem read_from_AP_streams_nothing (dev : Device) (ap_num reg data : Nat) (h : Host) :
    streamed_sectors (cc_lpf3_read_from_AP dev ap_num reg data h).2.2.log =
      streamed_sectors h.log := by
  rw [read_from_AP_host]
  simp [streamed_sectors_append, streamed_sectors]

theorem write_to_AP_streams_nothing (dev : Device) (ap_num reg value : Nat) (h : Host) :
    streamed_sectors (cc_lpf3_write_to_AP dev ap_num reg value h).2.log =
      streamed_sectors h.log := by
  simp [cc_lpf3_write_to_AP, streamed_sectors_append, streamed_sectors]

theorem read_payload_loop_streams_nothing (dev : Device) :
    ∀ (n : Nat) (cmd_resp : SACI_RESP_T) (h : Host),
      streamed_sectors (read_payload_loop dev n cmd_resp h).2.2.log =
        streamed_sectors h.log := by
  intro n
  induction n with
  | zero => intro cmd_resp h; rfl
  | succ k ih =>
    intro cmd_resp h
    rw [read_payload_loop]
    have hw := wait_rx_streams_nothing dev h
    generalize cc_lpf3_wait_rx_data_ready dev h = r at hw
    obtain ⟨c, x⟩ := r
    dsimp only at hw ⊢
    split
    · exact hw
    · have hr := read_from_AP_streams_nothing dev DEBUGSS_SEC_AP SEC_AP_RXD
        cmd_resp.status_flag x
      generalize cc_lpf3_read_from_AP dev DEBUGSS_SEC_AP SEC_AP_RXD cmd_resp.status_flag x = rr
        at hr
      obtain ⟨c2, v, x2⟩ := rr
      dsimp only at hr ⊢
      rw [ih, hr, hw]

/-- Reading a response sends no sector. -/
theorem read_response_streams_nothing (dev : Device) (cmd_resp : SACI_RESP_T) (h : Host) :
    streamed_sectors (cc_lpf3_saci_read_response dev cmd_resp h).2.2.log =
      streamed_sectors h.log := by
  unfold cc_lpf3_saci_read_response
  have hw := wait_rx_streams_nothing dev h
  generalize cc_lpf3_wait_rx_data_ready dev h = r at hw
  obtain ⟨c, x⟩ := r
  dsimp only at hw ⊢
  split
  · exact hw
  · have hr := read_from_AP_streams_nothing dev DEBUGSS_SEC_AP SEC_AP_RXD 0 x
    generalize cc_lpf3_read_from_AP dev DEBUGSS_SEC_AP SEC_AP_RXD 0 x = rr at hr
    obtain ⟨c2, v, x2⟩ := rr
    dsimp only at hr ⊢
    split
    · rw [hr, hw]
    · split
      · rw [read_payload_loop_streams_nothing, hr, hw]
      · rw [hr, hw]

theorem send_param_loop_streams_nothing (dev : Device) (param_words : List Nat)
    (cmd_length : Nat) :
    ∀ (fuel cmd_word : Nat) (h : Host) (ret_val : Int) (h' : Host),
      send_param_loop dev param_words cmd_length fuel cmd_word h = Exec.ok (ret_val, h') →
      streamed_sectors h'.log = streamed_sectors h.log := by
  intro fuel
  induction fuel with
  | zero =>
    intro cmd_word h ret_val h' hrun
    rw [send_param_loop] at hrun
    split at hrun
    · cases hrun
    · cases hrun; rfl
  | succ n ih =>
    intro cmd_word h ret_val h' hrun
    rw [send_param_loop] at hrun
    split at hrun
    · have hw := write_to_AP_streams_nothing dev DEBUGSS_SEC_AP SEC_AP_TXD
        (param_words.getD cmd_word dev.uninit) h
      generalize cc_lpf3_write_to_AP dev DEBUGSS_SEC_AP SEC_AP_TXD
        (param_words.getD cmd_word dev.uninit) h = r at hw hrun
      obtain ⟨c, x⟩ := r
      dsimp only at hw hrun
      split at hrun
      · cases hrun; exact hw
      · rw [ih _ _ _ _ hrun, hw]
    · cases hrun; rfl

/-- Sending a command sends no sector. -/
theorem send_cmd_streams_nothing (fuel : Nat) (dev : Device) (cmd : SACI_PARAM_T) (h : Host)
    (ret_val : Int) (h' : Host)
    (hrun : cc_lpf3_saci_send_cmd fuel dev cmd h = Exec.ok (ret_val, h')) :
    streamed_sectors h'.log = streamed_sectors h.log := by
  unfold cc_lpf3_saci_send_cmd at hrun
  dsimp only at hrun
  have hw1 := wait_tx_streams_nothing dev h
  generalize cc_lpf3_wait_tx_data_clear dev h = r1 at hw1 hrun
  obtain ⟨c1, x1⟩ := r1
  dsimp only at hw1 hrun
  split at hrun
  · cases hrun; exact hw1
  · have ha := write_to_AP_streams_nothing dev DEBUGSS_SEC_AP SEC_AP_TXCTL
      SACI_TXCTRL_CMD_START x1
    generalize cc_lpf3_write_to_AP dev DEBUGSS_SEC_AP SEC_AP_TXCTL SACI_TXCTRL_CMD_START x1 =
      ra at ha hrun
    obtain ⟨ca, xa⟩ := ra
    dsimp only at ha hrun
    have hb := write_to_AP_streams_nothing dev DEBUGSS_SEC_AP SEC_AP_TXD cmd.val xa
    generalize cc_lpf3_write_to_AP dev DEBUGSS_SEC_AP SEC_AP_TXD cmd.val xa = rb at hb hrun
    obtain ⟨cb, xb⟩ := rb
    dsimp only at hb hrun
    have hbase : streamed_sectors xb.log = streamed_sectors h.log := by rw [hb, ha, hw1]
    have hfinish : ∀ (x : Host) (ret : Int) (y : Host),
        (match cc_lpf3_wait_tx_data_clear dev x with
          | (ret_val, h) =>
            if ret_val ≠ ERROR_OK then Exec.ok (ERROR_FAIL, h) else Exec.ok (ERROR_OK, h)) =
          Exec.ok (ret, y) → streamed_sectors y.log = streamed_sectors x.log := by
      intro x ret y hfin
      have hw := wait_tx_streams_nothing dev x
      generalize cc_lpf3_wait_tx_data_clear dev x = r at hw hfin
      obtain ⟨c, z⟩ := r
      dsimp only at hw hfin
      split at hfin <;> cases hfin <;> exact hw
    split at hrun
    · have hw2 := wait_tx_streams_nothing dev xb
      generalize cc_lpf3_wait_tx_data_clear dev xb = r2 at hw2 hrun
      obtain ⟨c2, x2⟩ := r2
      dsimp only at hw2 hrun
      split at hrun
      · cases hrun; rw [hw2, hbase]
      · have hc := write_to_AP_streams_nothing dev DEBUGSS_SEC_AP SEC_AP_TXCTL 0 x2
        generalize cc_lpf3_write_to_AP dev DEBUGSS_SEC_AP SEC_AP_TXCTL 0 x2 = rc at hc hrun
        obtain ⟨cc, xc⟩ := rc
        dsimp only at hc hrun
        split at hrun
        · cases hrun; rw [hc, hw2, hbase]
        · split at hrun
          · cases hrun
          · rename_i ret3 x3 hloop
            have hl := send_param_loop_streams_nothing dev _ _ _ _ _ _ _ hloop
            split at hrun
            · cases hrun; rw [hl, hc, hw2, hbase]
            · rw [hfinish _ _ _ hrun, hl, hc, hw2, hbase]
    · rw [hfinish _ _ _ hrun, hbase]

/-- Sending one sector adds that sector: the `length` words at `tx_data`. -/
theorem send_tx_words_streams_one (dev : Device) (tx_data : List Nat) (length : Nat)
    (h : Host) (hlen : length ≤ LPF3_MAIN_FLASH_SECTOR_SIZE) :
    streamed_sectors (cc_lpf3_saci_send_tx_words dev tx_data length h).2.log =
      streamed_sectors h.log ++ [words_at dev tx_data length] := by
  unfold cc_lpf3_saci_send_tx_words cc_lpf3_bulk_write_to_AP
  have hn : ¬ length > LPF3_MAIN_FLASH_SECTOR_SIZE := by omega
  rw [if_neg hn]
  dsimp only
  split <;> simp [streamed_sectors_append, streamed_sectors]

/-- The sector loop sends the sectors `sector_index`, `sector_index + 1`, ... in order, each
the 512 words at its offset in `tx_data`; it sends all `n` of them when it ends with `ret_val`
at `ERROR_OK`. -/
theorem sector_loop_streams (dev : Device) (tx_data : List Nat) (base : Nat) :
    ∀ (n sector_index : Nat) (s : SectorTx), ∃ m, m ≤ n ∧
      streamed_sectors (sector_loop dev tx_data base n sector_index s).host.log =
        streamed_sectors s.host.log ++ (List.range' sector_index m).map (fun i =>
          words_at dev (tx_data.drop (i * MAIN_SECTOR_SIZE_WORDS)) MAIN_SECTOR_SIZE_WORDS) ∧
      ((sector_loop dev tx_data base n sector_index s).ret_val = ERROR_OK → m = n) := by
  intro n
  induction n with
  | zero =>
    intro sector_index s
    exact ⟨0, le_refl 0, by simp [sector_loop], fun _ => rfl⟩
  | succ k ih =>
    intro sector_index s
    have hsend := send_tx_words_streams_one dev
      (tx_data.drop (sector_index * MAIN_SECTOR_SIZE_WORDS)) MAIN_SECTOR_SIZE_WORDS s.host
      (by decide)
    have hbreak : ∀ (resp : SACI_RESP_T) (x2 : Host),
        streamed_sectors x2.log = streamed_sectors s.host.log ++
          [words_at dev (tx_data.drop (sector_index * MAIN_SECTOR_SIZE_WORDS))
            MAIN_SECTOR_SIZE_WORDS] →
        ∃ m, m ≤ k + 1 ∧
          streamed_sectors
              ({ s with ret_val := ERROR_FAIL, cmd_resp := resp, host := x2 } : SectorTx).host.log =
            streamed_sectors s.host.log ++ (List.range' sector_index m).map (fun i =>
              words_at dev (tx_data.drop (i * MAIN_SECTOR_SIZE_WORDS)) MAIN_SECTOR_SIZE_WORDS) ∧
          (({ s with ret_val := ERROR_FAIL, cmd_resp := resp, host := x2 } : SectorTx).ret_val =
            ERROR_OK → m = k + 1) := by
      intro resp x2 hx2
      refine ⟨1, by omega, ?_, ?_⟩
      · rw [hx2]; rfl
      · intro hfalse
        exact absurd hfalse (show (ERROR_FAIL : Int) ≠ ERROR_OK by decide)
    have hcont : ∀ (t : SectorTx),
        streamed_sectors t.host.log = streamed_sectors s.host.log ++
          [words_at dev (tx_data.drop (sector_index * MAIN_SECTOR_SIZE_WORDS))
            MAIN_SECTOR_SIZE_WORDS] →
        ∃ m, m ≤ k + 1 ∧
          streamed_sectors (sector_loop dev tx_data base k (sector_index + 1) t).host.log =
            streamed_sectors s.host.log ++ (List.range' sector_index m).map (fun i =>
              words_at dev (tx_data.drop (i * MAIN_SECTOR_SIZE_WORDS)) MAIN_SECTOR_SIZE_WORDS) ∧
          ((sector_loop dev tx_data base k (sector_index + 1) t).ret_val = ERROR_OK →
            m = k + 1) := by
      intro t ht
      obtain ⟨m, hm, hlog, hall⟩ := ih (sector_index + 1) t
      refine ⟨m + 1, by omega, ?_, fun hok => by rw [hall hok]⟩
      rw [hlog, ht, List.range'_succ]
      simp
    rw [sector_loop]
    generalize cc_lpf3_saci_send_tx_words dev
      (tx_data.drop (sector_index * MAIN_SECTOR_SIZE_WORDS)) MAIN_SECTOR_SIZE_WORDS s.host = r
      at hsend
    obtain ⟨c, x⟩ := r
    dsimp only at hsend ⊢
    split
    · have hr := read_response_streams_nothing dev s.cmd_resp x
      generalize cc_lpf3_saci_read_response dev s.cmd_resp x = rr at hr
      obtain ⟨ret, resp, x2⟩ := rr
      dsimp only at hr ⊢
      have hx2 : streamed_sectors x2.log = streamed_sectors s.host.log ++
          [words_at dev (tx_data.drop (sector_index * MAIN_SECTOR_SIZE_WORDS))
            MAIN_SECTOR_SIZE_WORDS] := by rw [hr, hsend]
      split
      · exact hbreak resp x2 hx2
      · split
        · exact hbreak resp x2 hx2
        · split
          · exact hbreak resp x2 hx2
          · split
            · exact hbreak resp x2 hx2
            · split
              · exact hbreak resp x2 hx2
              · exact hcont _ hx2
    · exact hcont _ hsend

/-- The drain loop sends no sector and never sets `ret_val` to success. -/
theorem drain_loop_streams_nothing (dev : Device) (base num_sectors : Nat) :
    ∀ (fuel : Nat) (s s' : SectorTx), drain_loop dev base num_sectors fuel s = Exec.ok s' →
      streamed_sectors s'.host.log = streamed_sectors s.host.log ∧
      (s'.ret_val = ERROR_OK → s.ret_val = ERROR_OK) := by
  intro fuel
  induction fuel with
  | zero =>
    intro s s' hrun
    rw [drain_loop] at hrun
    split at hrun
    · cases hrun
    · cases hrun; exact ⟨rfl, id⟩
  | succ n ih =>
    intro s s' hrun
    by_cases hne : s.last_resp_seq_num ≠ (base + num_sectors + 2 ^ 32 - 1) % 2 ^ 32
    · rw [drain_loop_consume dev base num_sectors n s hne] at hrun
      have hr := read_response_streams_nothing dev s.cmd_resp s.host
      have hbreak : ∀ t : SectorTx,
          Exec.ok (s.break_with (cc_lpf3_saci_read_response dev s.cmd_resp s.host).2.1
            (cc_lpf3_saci_read_response dev s.cmd_resp s.host).2.2) = Exec.ok t →
          streamed_sectors t.host.log = streamed_sectors s.host.log ∧
          (t.ret_val = ERROR_OK → s.ret_val = ERROR_OK) := by
        intro t ht
        cases ht
        exact ⟨hr, fun hfalse => absurd hfalse (show (ERROR_FAIL : Int) ≠ ERROR_OK by decide)⟩
      split at hrun
      · exact hbreak s' hrun
      · split at hrun
        · exact hbreak s' hrun
        · split at hrun
          · exact hbreak s' hrun
          · split at hrun
            · exact hbreak s' hrun
            · obtain ⟨hlog, hret⟩ := ih _ s' hrun
              exact ⟨by rw [hlog, hr], hret⟩
    · rw [drain_loop, if_neg hne] at hrun
      cases hrun
      exact ⟨rfl, id⟩

/-- The call `cc_lpf3_saci_send_sector_tx` sends the first `m` sectors of `tx_data` in order,
and all `num_sectors` of them when it returns `ERROR_OK`. -/
theorem send_sector_tx_streams (fuel : Nat) (dev : Device) (tx_data : List Nat) (length : Nat)
    (cmd : SACI_PARAM_T) (h h' : Host) (ret_val : Int)
    (hrun : cc_lpf3_saci_send_sector_tx fuel dev tx_data length cmd h = Exec.ok (ret_val, h')) :
    ∃ m, m ≤ ((length + LPF3_MAIN_FLASH_SECTOR_SIZE - 1) % 2 ^ 32) / LPF3_MAIN_FLASH_SECTOR_SIZE ∧
      streamed_sectors h'.log =
        streamed_sectors h.log ++ (List.range' 0 m).map (fun i =>
          words_at dev (tx_data.drop (i * MAIN_SECTOR_SIZE_WORDS)) MAIN_SECTOR_SIZE_WORDS) ∧
      (ret_val = ERROR_OK →
        m = ((length + LPF3_MAIN_FLASH_SECTOR_SIZE - 1) % 2 ^ 32) / LPF3_MAIN_FLASH_SECTOR_SIZE) := by
  unfold cc_lpf3_saci_send_sector_tx at hrun
  dsimp only at hrun
  obtain ⟨m, hm, hlog, hall⟩ := sector_loop_streams dev tx_data cmd.resp_seq_num
    (((length + LPF3_MAIN_FLASH_SECTOR_SIZE - 1) % 2 ^ 32) / LPF3_MAIN_FLASH_SECTOR_SIZE) 0
    { ret_val := ERROR_OK, last_resp_seq_num := (cmd.resp_seq_num + 2 ^ 32 - 1) % 2 ^ 32,
      cmd_resp := SACI_RESP_T.uninit dev, host := h }
  split at hrun
  · cases hrun
  · rename_i s' hdrain
    cases hrun
    obtain ⟨hd, hret⟩ := drain_loop_streams_nothing dev _ _ fuel _ s' hdrain
    exact ⟨m, hm, by rw [hd, hlog], fun hok => hall (hret hok)⟩

theorem verify_main_streams_nothing (fuel : Nat) (dev : Device) (bank_base bank_size : Nat)
    (buffer : Option (List Byte)) (count : Nat) (h h' : Host) (ret_val : Int)
    (hrun : cc_lpf3_saci_verify_main fuel dev bank_base bank_size buffer count h =
      Exec.ok (ret_val, h')) :
    streamed_sectors h'.log = streamed_sectors h.log := by
  unfold cc_lpf3_saci_verify_main cc_lpf3_update_cmd_word cc_lpf3_get_resp_seqnum at hrun
  dsimp only at hrun
  split at hrun
  · cases hrun
  · rename_i c x hsend
    have hs := send_cmd_streams_nothing _ _ _ _ _ _ hsend
    have hr := read_response_streams_nothing dev (SACI_RESP_T.uninit dev) x
    generalize cc_lpf3_saci_read_response dev (SACI_RESP_T.uninit dev) x = rr at hr hrun
    obtain ⟨c2, resp, x2⟩ := rr
    dsimp only at hr hrun
    split at hrun <;> cases hrun <;> rw [hr, hs]

theorem bytes_at_of_length (dev : Device) (b : List Byte) : bytes_at dev b b.length = b := by
  unfold bytes_at
  apply List.ext_getElem
  · simp
  · intro i h1 h2
    simp [List.getD_eq_getElem?_getD, List.getElem?_eq_getElem h2]

theorem padded_count_spec (c : Nat) :
    padded_count c % 2048 = 0 ∧ c ≤ padded_count c ∧ padded_count c < c + 2048 ∧
    (∀ k, k % 2048 = 0 → c ≤ k → padded_count c ≤ k) ∧
    (c % 2048 = 0 → padded_count c = c) := by
  unfold padded_count
  simp only [LPF3_MAIN_FLASH_SECTOR_SIZE]
  refine ⟨by omega, by omega, by omega, ?_, by omega⟩
  intro k hk hck
  omega

/-- The result of `cc_lpf3_flash_sector_padding` for an image of `c` bytes. -/
theorem sector_padding_eq (dev : Device) (b : List Byte) (c : Nat) (hc : c + 2048 < 2 ^ 32)
    (hb : b.length = c) :
    cc_lpf3_flash_sector_padding dev (some b) c =
      Exec.ok (padded_image b, padded_count c) := by
  obtain ⟨h1, h2, h3, _, h5⟩ := padded_count_spec c
  have hpad : (if c % LPF3_MAIN_FLASH_SECTOR_SIZE ≠ 0 then
      LPF3_MAIN_FLASH_SECTOR_SIZE - c % LPF3_MAIN_FLASH_SECTOR_SIZE else 0) =
      padded_count c - c := by
    unfold padded_count
    simp only [LPF3_MAIN_FLASH_SECTOR_SIZE]
    split <;> omega
  unfold cc_lpf3_flash_sector_padding
  simp only [hpad]
  have hguard : ¬ (c + LPF3_MAIN_FLASH_SECTOR_SIZE) % 2 ^ 32 < c + (padded_count c - c) := by
    simp only [LPF3_MAIN_FLASH_SECTOR_SIZE]
    omega
  have hcount : (c + (padded_count c - c)) % 2 ^ 32 = padded_count c := by omega
  rw [if_neg hguard, hcount]
  subst hb
  rw [bytes_at_of_length]
  rfl

theorem le_words_length : ∀ (n : Nat) (l : List Byte), l.length = n →
    (le_words l).length = n / 4 := by
  intro n
  induction n using Nat.strong_induction_on with
  | _ n ih =>
    intro l hl
    match l, hl with
    | [], hl => simp at hl; subst hl; rfl
    | [_], hl => simp at hl; subst hl; rfl
    | [_, _], hl => simp at hl; subst hl; rfl
    | [_, _, _], hl => simp at hl; subst hl; rfl
    | b0 :: b1 :: b2 :: b3 :: rest, hl =>
      simp only [List.length_cons] at hl
      rw [le_words, List.length_cons, ih rest.length (by omega) rest rfl]
      omega

theorem words_at_eq_take (dev : Device) (l : List Nat) (n : Nat) (hn : n ≤ l.length) :
    words_at dev l n = l.take n := by
  unfold words_at
  apply List.ext_getElem
  · simp [hn]
  · intro i h1 h2
    have hi : i < l.length := by
      simp at h1
      omega
    simp [List.getD_eq_getElem?_getD, List.getElem?_eq_getElem hi]

/-- The MAIN write of an image of `c` bytes sends the first `m` sectors of the padded image in
order, and all of them when it returns `ERROR_OK`. -/
theorem write_main_streams (fuel : Nat) (dev : Device) (bank_base bank_size : Nat)
    (b : List Byte) (c : Nat) (h h' : Host) (ret_val : Int) (hc : c + 2048 < 2 ^ 32)
    (hb : b.length = c)
    (hrun : cc_lpf3_write_main fuel dev bank_base bank_size (some b) c h =
      Exec.ok (ret_val, h')) :
    ∃ m, m ≤ padded_count c / 2048 ∧
      streamed_sectors h'.log =
        streamed_sectors h.log ++ (List.range m).map (image_sector (padded_image b)) ∧
      (ret_val = ERROR_OK → m = padded_count c / 2048) := by
  obtain ⟨h1, h2, h3, _, _⟩ := padded_count_spec c
  have hnum : ((padded_count c + LPF3_MAIN_FLASH_SECTOR_SIZE - 1) % 2 ^ 32) /
      LPF3_MAIN_FLASH_SECTOR_SIZE = padded_count c / 2048 := by
    simp only [LPF3_MAIN_FLASH_SECTOR_SIZE]
    omega
  have hwords : (le_words (padded_image b)).length = padded_count c / 4 := by
    apply le_words_length
    unfold padded_image
    rw [List.length_append, List.length_replicate, hb]
    omega
  have hsector : ∀ i, i < padded_count c / 2048 →
      words_at dev ((le_words (padded_image b)).drop (i * MAIN_SECTOR_SIZE_WORDS))
        MAIN_SECTOR_SIZE_WORDS = image_sector (padded_image b) i := by
    intro i hi
    unfold image_sector
    apply words_at_eq_take
    rw [List.length_drop, hwords]
    simp only [MAIN_SECTOR_SIZE_WORDS]
    omega
  unfold cc_lpf3_write_main cc_lpf3_update_cmd_word cc_lpf3_get_resp_seqnum at hrun
  dsimp only at hrun
  rw [sector_padding_eq dev b c hc hb] at hrun
  dsimp only at hrun
  split at hrun
  · cases hrun
  · rename_i sent x hsend
    have hs := send_cmd_streams_nothing _ _ _ _ _ _ hsend
    split at hrun
    · cases hrun
      exact ⟨0, Nat.zero_le _, by rw [hs]; simp,
        fun hfalse => absurd hfalse (show (ERROR_FAIL : Int) ≠ ERROR_OK by decide)⟩
    · split at hrun
      · cases hrun
      · rename_i ret2 x2 hstream
        obtain ⟨m, hm, hlog, hall⟩ := send_sector_tx_streams _ _ _ _ _ _ _ _ hstream
        rw [hnum] at hm hall
        have hmap : (List.range' 0 m).map (fun i =>
            words_at dev ((le_words (padded_image b)).drop (i * MAIN_SECTOR_SIZE_WORDS))
              MAIN_SECTOR_SIZE_WORDS) =
            (List.range m).map (image_sector (padded_image b)) := by
          rw [← List.range_eq_range']
          apply List.map_congr_left
          intro i hi
          exact hsector i (by have := List.mem_range.mp hi; omega)
        rw [hmap, hs] at hlog
        split at hrun
        · rename_i hfail
          cases hrun
          exact ⟨m, hm, hlog, fun hok => absurd hok hfail⟩
        · rename_i hok2
          have hret2 : ret2 = ERROR_OK := not_not.mp hok2
          have hv := verify_main_streams_nothing _ _ _ _ _ _ _ _ _ hrun
          exact ⟨m, hm, by rw [hv, hlog], fun _ => hall hret2⟩

set_option maxRecDepth 100000 in
/-- A MAIN write of 3000 bytes on a device that answers every sector in sequence: it returns
`ERROR_OK` after streaming the two sectors of the padded image. -/
theorem short_image_run :
    (match cc_lpf3_write_main 8 (sequenced_device 10) 0 0x1000 (some short_image) 3000
          { seq_num := 10, log := [] } with
      | Exec.ok (ret_val, h) => some (ret_val, (streamed_sectors h.log).map List.length)
      | Exec.error _ => none) = some (ERROR_OK, [512, 512]) := by
  decide

/-- C21: for every byte count `c` with `c + 2048 < 2^32` and every image `b` of `c` bytes,
`cc_lpf3_flash_sector_padding` returns the new count `c'`, the smallest multiple of 2048 that
is at least `c` (`c' = c` when `c` is a multiple of 2048, zero included), and the padded
image: `c'` bytes, the first `c` equal to `b`, the other `c' - c` all `0xFF`.  For every
device, the MAIN write of the image that returns `ERROR_OK` has streamed exactly `c' / 2048`
sectors, sector `i` being the 512 words `512 i ..` of the padded image, in order; a MAIN write
that returns an error has streamed the first `m` of them for some `m ≤ c' / 2048`. -/
theorem main_write_pads_and_streams (fuel : Nat) (dev : Device) (bank_base bank_size : Nat)
    (b : List Byte) (c : Nat) (h : Host) (hc : c + 2048 < 2 ^ 32) (hb : b.length = c) :
    cc_lpf3_flash_sector_padding dev (some b) c = Exec.ok (padded_image b, padded_count c) ∧
    (padded_count c % 2048 = 0 ∧ c ≤ padded_count c ∧
      (∀ k, k % 2048 = 0 → c ≤ k → padded_count c ≤ k) ∧
      (c % 2048 = 0 → padded_count c = c)) ∧
    ((padded_image b).length = padded_count c ∧ (padded_image b).take c = b ∧
      (padded_image b).drop c = List.replicate (padded_count c - c) (0xFF : Byte)) ∧
    (∀ (ret_val : Int) (h' : Host),
      cc_lpf3_write_main fuel dev bank_base bank_size (some b) c h = Exec.ok (ret_val, h') →
      ∃ m, m ≤ padded_count c / 2048 ∧
        streamed_sectors h'.log =
          streamed_sectors h.log ++ (List.range m).map (image_sector (padded_image b)) ∧
        (ret_val = ERROR_OK → m = padded_count c / 2048)) ∧
    (∀ i, i < padded_count c / 2048 → (image_sector (padded_image b) i).length = 512) ∧
    (match cc_lpf3_write_main 8 (sequenced_device 10) 0 0x1000 (some short_image) 3000
          { seq_num := 10, log := [] } with
      | Exec.ok (ret_val, h) => some (ret_val, (streamed_sectors h.log).map List.length)
      | Exec.error _ => none) = some (ERROR_OK, [512, 512]) := by
  obtain ⟨h1, h2, h3, h4, h5⟩ := padded_count_spec c
  have hwords : (le_words (padded_image b)).length = padded_count c / 4 := by
    apply le_words_length
    unfold padded_image
    rw [List.length_append, List.length_replicate, hb]
    omega
  refine ⟨sector_padding_eq dev b c hc hb, ⟨h1, h2, h4, h5⟩, ⟨?_, ?_, ?_⟩, ?_, ?_,
    short_image_run⟩
  · unfold padded_image
    rw [List.length_append, List.length_replicate, hb]
    omega
  · unfold padded_image
    rw [← hb, List.take_left]
  · unfold padded_image
    rw [← hb, List.drop_left]
  · intro ret_val h' hrun
    exact write_main_streams fuel dev bank_base bank_size b c h h' ret_val hc hb hrun
  · intro i hi
    unfold image_sector
    rw [List.length_take, List.length_drop, hwords]
    simp only [MAIN_SECTOR_SIZE_WORDS]
    omega

theorem short_image_length : short_image.length = 3000 :=
  List.length_replicate _ _

/-- Witness of C21: an image of 3000 zero bytes is padded to 4096 bytes. -/
theorem main_write_pads_and_streams_witness :
    cc_lpf3_flash_sector_padding (sequenced_device 10) (some short_image) 3000 =
      Exec.ok (padded_image short_image, 4096) ∧
    (padded_image short_image).drop 3000 = List.replicate (4096 - 3000) (0xFF : Byte) :=
  ⟨(main_write_pads_and_streams 8 (sequenced_device 10) 0 0x1000 short_image 3000
      { seq_num := 10, log := [] } (by decide) short_image_length).1,
    (main_write_pads_and_streams 8 (sequenced_device 10) 0 0x1000 short_image 3000
      { seq_num := 10, log := [] } (by decide) short_image_length).2.2.1.2.2⟩


end Lpf3
